import Mathlib

/-!
Order placement core of the MGV back office.

A shallow embedding of `controllers/orderController.js`: the sequence counter
(`getNextSequenceValue`), the order-number formatter (`formatOrderNumber`), the order
placement handler (`createOrder`), the status handlers (`updateOrderStatus`,
`updateOrderToDelivered`) and the lookups (`getOrderById`, `getPublicOrderStatus`); of
`controllers/userController.js` the update object of `updateProfile` and the handler
`register`; of `utils/brevoEmailService.js` the function `sendEmailToMultiple`. The
properties proved about them follow the definitions.

Conventions of the embedding.

* The three collections touched by the handler (products, orders, counters) are lists of
  documents; a handler is a function from the state before the call to the state after
  the call together with the HTTP response and the notification mails it attempted.
* JavaScript integers are `Nat` (counter values) or `Int` (quantities, stock, prices).
* `mongoose.Types.ObjectId` is library code: its validity test and its string cast are
  taken as a parameter (`ObjectIdLib`).
* Every awaited store or mail operation may reject; which ones do is given by `Env`
  (order placement), `StatusEnv` (status handlers) or a flag (lookups).
-/

namespace MgvOrders

/-! ## Data model -/

/-- The two operations of `mongoose.Types.ObjectId` the controller relies on.
`isValid s` is `mongoose.Types.ObjectId.isValid(s)`; `cast s` is the string form
(`toString()`) of the ObjectId that the query layer casts the string `s` to. -/
structure ObjectIdLib where
  isValid : String → Bool
  cast : String → String

/-- A product document; `_id` is kept in its string form `p._id.toString()`. -/
structure Product where
  _id : String
  name : String
  stockQuantity : Int
deriving DecidableEq, Repr

/-- A document of the counters collection. -/
structure Counter where
  _id : String
  seq : Nat
deriving DecidableEq, Repr

/-- The value found in `item.productId` of a request line: a string, an object (a
populated product) with or without a string `_id`, or anything else (undefined, null,
a number, ...) together with the text JavaScript renders it as. -/
inductive ProductIdField where
  | str (s : String)
  | obj (_id : Option String)
  | other (rendering : String)
deriving DecidableEq, Repr

/-- One line of `req.body.orderItems`. -/
structure OrderItem where
  productId : ProductIdField
  name : Option String
  quantity : Int
  price : Int
  image : String
deriving DecidableEq, Repr

/-- One line of a persisted order (an element of `finalOrderItems`). -/
structure FinalOrderItem where
  productId : String
  name : Option String
  quantity : Int
  price : Int
  image : String
deriving DecidableEq, Repr

/-- An order document. -/
structure Order where
  _id : String
  userId : String
  orderNumber : String
  orderItems : List FinalOrderItem
  shippingAddress : String
  paymentMethod : String
  paymentResult : String
  itemsPrice : Int
  taxPrice : Int
  shippingPrice : Int
  totalPrice : Int
  isPaid : Bool
  paidAt : Option Nat
  isDelivered : Bool
  deliveredAt : Option Nat
  status : String
  createdAt : Nat
deriving DecidableEq, Repr

/-- The persisted state the order handlers read and write. -/
structure State where
  products : List Product
  orders : List Order
  counters : List Counter
deriving DecidableEq, Repr

/-- The body and the authenticated user of a `createOrder` request. `orderItems` is
`none` when the field is missing. -/
structure CreateOrderRequest where
  userId : String
  orderItems : Option (List OrderItem)
  shippingAddress : String
  paymentMethod : String
  paymentResult : Option String
  itemsPrice : Int
  taxPrice : Int
  shippingPrice : Int
  totalPrice : Int
deriving DecidableEq, Repr

/-- What `res.status(..).json(..)` sends: the status code, the `message` field, the
`errors` field when present and the `order` field when present. -/
structure Response where
  status : Nat
  message : String
  errors : Option (List String)
  order : Option Order
deriving DecidableEq, Repr

/-- An exception thrown by an awaited store operation, as the `catch` block of
`createOrder` tells them apart. -/
inductive StoreError where
  | validationError (messages : List String)
  | castError (path : String)
  | duplicateKey
  | other
deriving DecidableEq, Repr

/-- The result of `User.findById(req.user._id)` in the notification block. -/
inductive UserLookup where
  | failed
  | missing
  | found (name : String) (email : String)
deriving DecidableEq, Repr

/-- A call of `sendOrderNotification`; `recipient` is its `to` field. -/
structure Mail where
  recipient : String
  cc : List String
  subject : String
deriving DecidableEq, Repr

/-- The behaviour of everything outside the handler during one call: the clock, the
`_id` the store gives a new order, which awaited operations reject, and the configured
administrator addresses. `stockUpdate = some (k, e)` means the stock update issued for
line `k` of `finalOrderItems` rejects with `e`. -/
structure Env where
  now : Nat
  newOrderId : String
  productFind : Option StoreError
  counterUpdate : Option StoreError
  orderSave : Option StoreError
  stockUpdate : Option (Nat × StoreError)
  userLookup : UserLookup
  customerMailOk : Bool
  adminMailOk : Bool
  adminEmails : List String
deriving DecidableEq, Repr

/-- What one call of `createOrder` leaves behind. -/
structure Result where
  state : State
  response : Response
  mails : List Mail
deriving DecidableEq, Repr

/-! ## Sequence counter and order-number formatter -/

/-- The stored value of the counter `sequenceName`, if the counter exists. -/
def seqOf (sequenceName : String) : List Counter → Option Nat
  | [] => none
  | c :: cs => if c._id = sequenceName then some c.seq else seqOf sequenceName cs

/-- The helper `getNextSequenceValue`: `Counter.findOneAndUpdate` on `_id = sequenceName`
with `$inc seq 1`, `new: true` and `upsert: true`, followed by `return counter.seq`. The
counter with that `_id` is incremented, or a counter holding 1 is inserted; the new value
is returned together with the new collection. -/
def getNextSequenceValue (sequenceName : String) : List Counter → List Counter × Nat
  | [] => ([{ _id := sequenceName, seq := 1 }], 1)
  | c :: cs =>
    if c._id = sequenceName then
      ({ c with seq := c.seq + 1 } :: cs, c.seq + 1)
    else
      ((c :: (getNextSequenceValue sequenceName cs).1), (getNextSequenceValue sequenceName cs).2)

/-- The method `String.prototype.padStart(targetLength, c)` for a one-character pad
string: `s` itself when it is long enough, otherwise `s` behind as many copies of `c` as
are missing. -/
def padStart (s : String) (targetLength : Nat) (c : Char) : String :=
  String.mk (List.replicate (targetLength - s.length) c ++ s.data)

/-- The helper `formatOrderNumber`: `String(sequenceNumber).padStart(9, '0')` behind the
literal `MGV`. -/
def formatOrderNumber (sequenceNumber : Nat) : String :=
  let paddedSequence := padStart (toString sequenceNumber) 9 '0'
  "MGV" ++ paddedSequence

/-- The `w` low decimal digits of `n`, most significant first. -/
def digitsBE : Nat → Nat → List Char
  | 0, _ => []
  | w + 1, n => Nat.digitChar (n / 10 ^ w % 10) :: digitsBE w n

/-- The values returned by a run of sequential `getNextSequenceValue` calls, each paired
with the name it was called for, and the collection after the run. -/
def runSequence : List String → List Counter → List (String × Nat) × List Counter
  | [], cs => ([], cs)
  | name :: names, cs =>
    let r := getNextSequenceValue name cs
    let rest := runSequence names r.1
    ((name, r.2) :: rest.1, rest.2)

/-! ## Order placement -/

/-- The element computed for one line by the `map` that builds `productIds`: the
product id when it is a valid ObjectId string, or the `_id` of a populated product when
that is truthy and valid; otherwise the line yields `undefined` and is filtered out. -/
def extractProductId (lib : ObjectIdLib) (item : OrderItem) : Option String :=
  match item.productId with
  | .str s => if lib.isValid s then some s else none
  | .obj (some s) => if s ≠ "" ∧ lib.isValid s then some s else none
  | .obj none => none
  | .other _ => none

/-- The array `productIds`. -/
def productIds (lib : ObjectIdLib) (orderItems : List OrderItem) : List String :=
  orderItems.filterMap (extractProductId lib)

/-- The value of `currentProductId` (and of `pId` in the clean-up step) for one line:
the string itself, or the truthy `_id` of an object; `none` is the final `else`. -/
def currentProductId (item : OrderItem) : Option String :=
  match item.productId with
  | .str s => some s
  | .obj (some s) => if s ≠ "" then some s else none
  | .obj none => none
  | .other _ => none

/-- The text of `item.productId` inside a template literal. -/
def renderProductId : ProductIdField → String
  | .str s => s
  | .obj _ => "[object Object]"
  | .other rendering => rendering

/-- The expression `item.name || 'Unknown Product'`. -/
def displayName (item : OrderItem) : String :=
  match item.name with
  | some n => if n ≠ "" then n else "Unknown Product"
  | none => "Unknown Product"

/-- The message pushed for a line whose product id has a wrong format. -/
def invalidFormatMessage (item : OrderItem) (shownId : String) : String :=
  "Invalid product ID format for item: " ++ displayName item ++ ". ID: " ++ shownId

/-- The message pushed for a line whose product is not among the products found. -/
def notFoundMessage (currentProductId : String) : String :=
  "Product with ID " ++ currentProductId ++ " not found."

/-- The message pushed for a line that asks for more than the stock. -/
def stockMessage (name : String) (stockQuantity : Int) (quantity : Int) : String :=
  "Not enough stock for " ++ name ++ ". Available: " ++ toString stockQuantity ++
    ", Requested: " ++ toString quantity ++ "."

/-- The query `Product.find` with the filter `_id: $in productIds`: the stored products
whose `_id` is the cast of one of the given strings. -/
def Product.find (lib : ObjectIdLib) (products : List Product) (ids : List String) :
    List Product :=
  products.filter (fun p => ids.any (fun i => decide (lib.cast i = p._id)))

/-- The lookup `productsInOrder.find(p => p._id.toString() === id)`. -/
def findInOrder (productsInOrder : List Product) (id : String) : Option Product :=
  productsInOrder.find? (fun p => decide (p._id = id))

/-- One pass of the validation loop body: the message pushed to `invalidItems` for this
line, or `none` when the line passes. -/
def validateItem (lib : ObjectIdLib) (productsInOrder : List Product) (item : OrderItem) :
    Option String :=
  match currentProductId item with
  | none => some (invalidFormatMessage item (renderProductId item.productId))
  | some cur =>
    if lib.isValid cur = false then
      some (invalidFormatMessage item cur)
    else
      match findInOrder productsInOrder cur with
      | none => some (notFoundMessage cur)
      | some product =>
        if product.stockQuantity < item.quantity then
          some (stockMessage product.name product.stockQuantity item.quantity)
        else none

/-- The array `invalidItems` after the validation loop over `orderItems`. -/
def invalidItems (lib : ObjectIdLib) (productsInOrder : List Product)
    (orderItems : List OrderItem) : List String :=
  orderItems.foldl
    (fun acc item =>
      match validateItem lib productsInOrder item with
      | some message => acc ++ [message]
      | none => acc)
    []

/-- The element computed for one line by the `map` that builds `finalOrderItems`
(`none` is `null`, filtered out afterwards). -/
def finalOrderItem (lib : ObjectIdLib) (item : OrderItem) : Option FinalOrderItem :=
  match currentProductId item with
  | none => none
  | some pId =>
    if lib.isValid pId = false then none
    else some
      { productId := pId, name := item.name, quantity := item.quantity,
        price := item.price, image := item.image }

/-- The array `finalOrderItems`. -/
def finalOrderItems (lib : ObjectIdLib) (orderItems : List OrderItem) :
    List FinalOrderItem :=
  orderItems.filterMap (finalOrderItem lib)

/-- The update `Product.findByIdAndUpdate` with `$inc stockQuantity delta`: the product
whose `_id` is the cast of `id` has `delta` added to its stock. -/
def findByIdAndUpdateStock (lib : ObjectIdLib) (id : String) (delta : Int) :
    List Product → List Product
  | [] => []
  | p :: ps =>
    if p._id = lib.cast id then
      { p with stockQuantity := p.stockQuantity + delta } :: ps
    else p :: findByIdAndUpdateStock lib id delta ps

/-- The error, if any, with which the stock update issued for line `k` rejects. -/
def stockUpdateError (stockUpdate : Option (Nat × StoreError)) (k : Nat) : Option StoreError :=
  match stockUpdate with
  | some (j, e) => if j = k then some e else none
  | none => none

/-- The stock decrement loop over `finalOrderItems`, started at line index `k`: for each
line whose product is among `productsInOrder`, the stock is incremented by
`-item.quantity`. Returns the products afterwards and the error that ended the loop
early, if an update rejected. -/
def decrementStock (lib : ObjectIdLib) (stockUpdate : Option (Nat × StoreError))
    (productsInOrder : List Product) :
    Nat → List FinalOrderItem → List Product → List Product × Option StoreError
  | _, [], products => (products, none)
  | k, item :: rest, products =>
    match findInOrder productsInOrder item.productId with
    | some _ =>
      match stockUpdateError stockUpdate k with
      | some e => (products, some e)
      | none =>
        decrementStock lib stockUpdate productsInOrder (k + 1) rest
          (findByIdAndUpdateStock lib item.productId (-item.quantity) products)
    | none => decrementStock lib stockUpdate productsInOrder (k + 1) rest products

/-- Modelled from the spec: the Order schema (`models/Order.js`) is not among the
sources, so the values it gives to fields the handler does not set are taken from the
spec's data model: a new order is not delivered, has no delivery date, and is stamped
with its creation time. The other fields are those passed to `new Order`. -/
def newOrder (env : Env) (req : CreateOrderRequest) (orderNumber : String)
    (items : List FinalOrderItem) : Order :=
  { _id := env.newOrderId
    userId := req.userId
    orderNumber := orderNumber
    orderItems := items
    shippingAddress := req.shippingAddress
    paymentMethod := req.paymentMethod
    paymentResult := req.paymentResult.getD ""
    itemsPrice := req.itemsPrice
    taxPrice := req.taxPrice
    shippingPrice := req.shippingPrice
    totalPrice := req.totalPrice
    isPaid := decide (req.paymentMethod = "Credit/Debit Card")
    paidAt := if req.paymentMethod = "Credit/Debit Card" then some env.now else none
    isDelivered := false
    deliveredAt := none
    status := if req.paymentMethod = "Credit/Debit Card" then "Processing" else "Pending"
    createdAt := env.now }

/-- The responses sent from the `catch` block of `createOrder`. -/
def catchResponse : StoreError → Response
  | .validationError messages =>
    { status := 400, message := "Order validation failed", errors := some messages, order := none }
  | .castError path =>
    { status := 400, message := "Invalid ID format for " ++ path, errors := none, order := none }
  | .duplicateKey =>
    { status := 400,
      message := "Failed to create order due to duplicate order number. Please try again.",
      errors := none, order := none }
  | .other =>
    { status := 500, message := "An internal server error occurred", errors := none,
      order := none }

/-- The notification block of `createOrder`: the `sendOrderNotification` calls it makes.
The user lookup, the rendering of the templates (which reads `user.name`) and the two
sends share one `try`, so a failure skips what follows; nothing escapes the block. -/
def notifyOrderCreated (env : Env) (createdOrder : Order) : List Mail :=
  match env.userLookup with
  | .failed => []
  | .missing => []
  | .found _ email =>
    let customer : Mail :=
      { recipient := email, cc := [],
        subject := "Your Order Confirmation - " ++ createdOrder.orderNumber ++
          " | Marshall Global Ventures" }
    if env.customerMailOk then
      match env.adminEmails with
      | [] => [customer]
      | admin :: others =>
        [customer,
          { recipient := admin, cc := others,
            subject := "New Order Placed - " ++ createdOrder.orderNumber }]
    else [customer]

/-- The handler `createOrder`. -/
def createOrder (lib : ObjectIdLib) (env : Env) (s : State) (req : CreateOrderRequest) :
    Result :=
  match req.orderItems with
  | none =>
    { state := s, mails := [],
      response := { status := 400, message := "No order items", errors := none, order := none } }
  | some orderItems =>
    if orderItems.length = 0 then
      { state := s, mails := [],
        response := { status := 400, message := "No order items", errors := none, order := none } }
    else if (productIds lib orderItems).length = 0 then
      { state := s, mails := [],
        response :=
          { status := 400, message := "No valid product IDs in order items after validation.",
            errors := none, order := none } }
    else
      match env.productFind with
      | some e => { state := s, mails := [], response := catchResponse e }
      | none =>
        let productsInOrder := Product.find lib s.products (productIds lib orderItems)
        let invalid := invalidItems lib productsInOrder orderItems
        if invalid.length > 0 then
          { state := s, mails := [],
            response :=
              { status := 400, message := "Order validation failed:", errors := some invalid,
                order := none } }
        else if (finalOrderItems lib orderItems).length = 0 then
          { state := s, mails := [],
            response :=
              { status := 400, message := "All items in your order were invalid.",
                errors := none, order := none } }
        else
          match env.counterUpdate with
          | some e => { state := s, mails := [], response := catchResponse e }
          | none =>
            let next := getNextSequenceValue "orderId" s.counters
            let orderNumber := formatOrderNumber next.2
            let createdOrder := newOrder env req orderNumber (finalOrderItems lib orderItems)
            match env.orderSave with
            | some e =>
              { state := { s with counters := next.1 }, mails := [],
                response := catchResponse e }
            | none =>
              let updated := decrementStock lib env.stockUpdate productsInOrder 0
                (finalOrderItems lib orderItems) s.products
              let s1 : State :=
                { products := updated.1, orders := s.orders ++ [createdOrder],
                  counters := next.1 }
              match updated.2 with
              | some e => { state := s1, mails := [], response := catchResponse e }
              | none =>
                { state := s1, mails := notifyOrderCreated env createdOrder,
                  response :=
                    { status := 201, message := "Order placed successfully",
                      errors := none, order := some createdOrder } }

/-! ## Status changes and lookups -/

/-- The behaviour of everything outside a status handler during one call: the clock,
whether `Order.findById` or `order.save()` rejects, and what the notification block
meets (user lookup, the two sends, the configured administrator addresses). -/
structure StatusEnv where
  now : Nat
  findFails : Bool
  saveFails : Bool
  userLookup : UserLookup
  customerMailOk : Bool
  adminMailOk : Bool
  adminEmails : List String
deriving DecidableEq, Repr

/-- The array literal of accepted status values in `updateOrderStatus`. -/
def validStatuses : List String :=
  ["Pending", "Processing", "Shipped", "Delivered", "Cancelled"]

/-- The query `Order.findById(id)`: the stored order whose `_id` is the cast of `id`. -/
def Order.findById (lib : ObjectIdLib) (orders : List Order) (id : String) : Option Order :=
  orders.find? (fun o => decide (o._id = lib.cast id))

/-- The effect of `order.save()` on the collection: the stored document with the `_id`
of `updated` is replaced by `updated`. -/
def saveOrder (updated : Order) : List Order → List Order
  | [] => []
  | o :: os => if o._id = updated._id then updated :: os else o :: saveOrder updated os

/-- The three assignments of `updateOrderToDelivered`, with `now` the value of
`Date.now()`. -/
def forceDelivered (now : Nat) (order : Order) : Order :=
  { order with isDelivered := true, deliveredAt := some now, status := "Delivered" }

/-- The assignments of `updateOrderStatus`: the status is set; entering `Delivered` on
an order not yet delivered sets the two delivery fields, leaving `Delivered` on a
delivered order clears them, and otherwise they are not touched. -/
def applyStatus (now : Nat) (status : String) (order : Order) : Order :=
  let assigned : Order := { order with status := status }
  if status = "Delivered" ∧ assigned.isDelivered = false then
    { assigned with isDelivered := true, deliveredAt := some now }
  else if status ≠ "Delivered" ∧ assigned.isDelivered = true then
    { assigned with isDelivered := false, deliveredAt := none }
  else assigned

/-- The notification block shared in shape by the two status handlers: the
`sendOrderNotification` calls made, given the two subjects. The user lookup, the
templates (which read `user.name`) and the two sends share one `try`. -/
def notifyStatus (env : StatusEnv) (customerSubject adminSubject : String) : List Mail :=
  match env.userLookup with
  | .failed => []
  | .missing => []
  | .found _ email =>
    let customer : Mail := { recipient := email, cc := [], subject := customerSubject }
    if env.customerMailOk then
      match env.adminEmails with
      | [] => [customer]
      | admin :: others => [customer, { recipient := admin, cc := others, subject := adminSubject }]
    else [customer]

/-- The handler `updateOrderToDelivered` for `req.params.id = id`. -/
def updateOrderToDelivered (lib : ObjectIdLib) (env : StatusEnv) (s : State) (id : String) :
    Result :=
  if env.findFails then
    { state := s, mails := [],
      response :=
        { status := 500, message := "Failed to update order status", errors := none,
          order := none } }
  else
    match Order.findById lib s.orders id with
    | none =>
      { state := s, mails := [],
        response := { status := 404, message := "Order not found", errors := none, order := none } }
    | some order =>
      let updatedOrder := forceDelivered env.now order
      if env.saveFails then
        { state := s, mails := [],
          response :=
            { status := 500, message := "Failed to update order status", errors := none,
              order := none } }
      else
        { state := { s with orders := saveOrder updatedOrder s.orders },
          mails := notifyStatus env
            ("Your Order Has Been Delivered - " ++ updatedOrder.orderNumber)
            ("Order Delivered - " ++ updatedOrder.orderNumber),
          response :=
            { status := 200, message := "Order delivered successfully!", errors := none,
              order := some updatedOrder } }

/-- The handler `updateOrderStatus` for `req.params.id = id` and `req.body.status =
status` (`none` when the field is missing). -/
def updateOrderStatus (lib : ObjectIdLib) (env : StatusEnv) (s : State) (id : String)
    (status : Option String) : Result :=
  match status with
  | none =>
    { state := s, mails := [],
      response :=
        { status := 400, message := "Invalid status provided.", errors := none, order := none } }
  | some status =>
    if status = "" ∨ ¬ status ∈ validStatuses then
      { state := s, mails := [],
        response :=
          { status := 400, message := "Invalid status provided.", errors := none,
            order := none } }
    else if env.findFails then
      { state := s, mails := [],
        response :=
          { status := 500, message := "Failed to update order status", errors := none,
            order := none } }
    else
      match Order.findById lib s.orders id with
      | none =>
        { state := s, mails := [],
          response :=
            { status := 404, message := "Order not found", errors := none, order := none } }
      | some order =>
        let updatedOrder := applyStatus env.now status order
        if env.saveFails then
          { state := s, mails := [],
            response :=
              { status := 500, message := "Failed to update order status", errors := none,
                order := none } }
        else
          { state := { s with orders := saveOrder updatedOrder s.orders },
            mails := notifyStatus env
              ("Order Status Updated - " ++ updatedOrder.orderNumber ++ " | " ++
                updatedOrder.status)
              ("Order Status Updated - " ++ updatedOrder.orderNumber ++ " | " ++
                updatedOrder.status),
            response :=
              { status := 200, message := "Order status updated to " ++ status ++ "!",
                errors := none, order := some updatedOrder } }

/-- A document of the users collection, as far as `populate('userId', 'name email')`
reads it. -/
structure User where
  _id : String
  name : String
  email : String
deriving DecidableEq, Repr

/-- The authenticated caller `req.user`, as the handler reads it. -/
structure Caller where
  _id : String
  isAdmin : Bool
deriving DecidableEq, Repr

/-- What `getOrderById` sends: the populated order with status 200, or a status code
with a body that holds a message only. -/
inductive OrderLookupResponse where
  | ok (order : Order) (owner : User)
  | error (status : Nat) (message : String)
deriving DecidableEq, Repr

/-- The population of `order.userId`: the user document the reference points to, or
`null` when no such user is stored. -/
def populateUser (users : List User) (order : Order) : Option User :=
  users.find? (fun u => decide (u._id = order.userId))

/-- The handler `getOrderById` for `req.params.id = id` and `req.user = caller`. Reading
`order.userId._id` of an order whose owner is not stored throws, which the `catch` block
answers with 500. -/
def getOrderById (lib : ObjectIdLib) (findFails : Bool) (users : List User)
    (orders : List Order) (caller : Caller) (id : String) : OrderLookupResponse :=
  if findFails then .error 500 "Failed to fetch order"
  else
    match Order.findById lib orders id with
    | none => .error 404 "Order not found"
    | some order =>
      match populateUser users order with
      | none => .error 500 "Failed to fetch order"
      | some owner =>
        if owner._id ≠ caller._id ∧ caller.isAdmin = false then
          .error 403 "Not authorized to view this order"
        else .ok order owner

/-- The object literal sent by `getPublicOrderStatus`. -/
structure PublicOrderStatus where
  orderNumber : String
  status : String
  isPaid : Bool
  totalPrice : Int
  createdAt : Nat
deriving DecidableEq, Repr

/-- What `getPublicOrderStatus` sends: the public fields with status 200, or a status
code with a message. -/
inductive PublicStatusResponse where
  | ok (body : PublicOrderStatus)
  | error (status : Nat) (message : String)
deriving DecidableEq, Repr

/-- The handler `getPublicOrderStatus` for `req.params.orderNumber = orderNumber`;
`toUpperCase` is `String.prototype.toUpperCase`. -/
def getPublicOrderStatus (toUpperCase : String → String) (findFails : Bool)
    (orders : List Order) (orderNumber : String) : PublicStatusResponse :=
  if findFails then .error 500 "Failed to retrieve order status."
  else
    match orders.find? (fun o => decide (o.orderNumber = toUpperCase orderNumber)) with
    | none => .error 404 "Order not found with this number."
    | some order =>
      .ok
        { orderNumber := order.orderNumber, status := order.status, isPaid := order.isPaid,
          totalPrice := order.totalPrice, createdAt := order.createdAt }

/-! ## Vocabulary of the properties -/

/-- The product a product-id string denotes in the store: the first stored product with
that `_id`. -/
def storedProduct (products : List Product) (id : String) : Option Product :=
  products.find? (fun p => decide (p._id = id))

/-- The line's product reference is malformed: it carries no id string, or one that is
not a valid ObjectId. -/
def MalformedId (lib : ObjectIdLib) (item : OrderItem) : Prop :=
  ∀ id, currentProductId item = some id → lib.isValid id = false

/-- The line carries a valid id that denotes no stored product: the id string is the
string form of no stored `_id`. -/
def UnknownProduct (lib : ObjectIdLib) (products : List Product) (item : OrderItem) : Prop :=
  ∃ id, currentProductId item = some id ∧ lib.isValid id = true ∧
    storedProduct products id = none

/-- The line asks for more units than the stored product it denotes has in stock. -/
def ExceedsStock (lib : ObjectIdLib) (products : List Product) (item : OrderItem) : Prop :=
  ∃ id p, currentProductId item = some id ∧ lib.isValid id = true ∧
    storedProduct products id = some p ∧ p.stockQuantity < item.quantity

/-- The line fails validation against the store. -/
def ItemFails (lib : ObjectIdLib) (products : List Product) (item : OrderItem) : Prop :=
  MalformedId lib item ∨ UnknownProduct lib products item ∨ ExceedsStock lib products item

/-- The line carries a valid id that is, character for character, the string form of the
`_id` of a stored product, and that product has at least the requested quantity. This is
the resolution the validation loop performs (`p._id.toString() === currentProductId`); it
is narrower than resolution by the product query, for which see `QueryResolvesInStock`. -/
def ItemInStock (lib : ObjectIdLib) (products : List Product) (item : OrderItem) : Prop :=
  ∃ id p, currentProductId item = some id ∧ lib.isValid id = true ∧
    storedProduct products id = some p ∧ item.quantity ≤ p.stockQuantity

/-- The line resolves to a stored product with at least the requested quantity, resolution
being that of the product query: the line carries a valid id, and the ObjectId the id is
cast to is the `_id` of a stored product holding at least the requested quantity. -/
def QueryResolvesInStock (lib : ObjectIdLib) (products : List Product) (item : OrderItem) :
    Prop :=
  ∃ id p, currentProductId item = some id ∧ lib.isValid id = true ∧ p ∈ products ∧
    lib.cast id = p._id ∧ item.quantity ≤ p.stockQuantity

/-- The ids of the stored products are in canonical form: casting the string form of a
stored `_id` gives that `_id` back. -/
def CanonicalIds (lib : ObjectIdLib) (products : List Product) : Prop :=
  ∀ p ∈ products, lib.cast p._id = p._id

/-- The current value of the `orderId` counter (zero before its first use). -/
def orderSeq (s : State) : Nat :=
  (seqOf "orderId" s.counters).getD 0

/-- The states reachable by a sequence of `createOrder` calls, under any behaviour of
the environment, from a store that holds no order yet. -/
inductive Reachable (lib : ObjectIdLib) : State → Prop where
  | init (products : List Product) (counters : List Counter) :
    Reachable lib { products := products, orders := [], counters := counters }
  | step (s : State) (env : Env) (req : CreateOrderRequest) :
    Reachable lib s → Reachable lib (createOrder lib env s req).state

/-- The order numbers in the store are the formatted images of pairwise different
sequence values, none above the current value of the `orderId` counter. -/
def NumberedBelow (s : State) : Prop :=
  ∃ ks : List Nat, s.orders.map (fun o => o.orderNumber) = ks.map formatOrderNumber ∧
    ks.Nodup ∧ ∀ k ∈ ks, k ≤ orderSeq s

/-- The delivery fields agree with the status: the status is `Delivered` exactly when
`isDelivered` is true, and `isDelivered` is true exactly when `deliveredAt` is set. -/
def DeliveryConsistent (o : Order) : Prop :=
  (o.status = "Delivered" ↔ o.isDelivered = true) ∧
    (o.isDelivered = true ↔ o.deliveredAt.isSome = true)

/-- The order is as `createOrder` leaves it: not delivered, no delivery date, and in
one of the two initial states. -/
def FreshlyCreated (o : Order) : Prop :=
  o.isDelivered = false ∧ o.deliveredAt = none ∧
    (o.status = "Pending" ∨ o.status = "Processing")

/-- One call of a status handler, with the environment it runs in. -/
inductive StatusCall where
  | setStatus (env : StatusEnv) (id : String) (status : Option String)
  | markDelivered (env : StatusEnv) (id : String)

/-- The state after one call of a status handler. -/
def stepStatusCall (lib : ObjectIdLib) (s : State) : StatusCall → State
  | .setStatus env id status => (updateOrderStatus lib env s id status).state
  | .markDelivered env id => (updateOrderToDelivered lib env s id).state

/-- The state after a sequence of calls of the status handlers. -/
def runStatusCalls (lib : ObjectIdLib) : List StatusCall → State → State
  | [], s => s
  | c :: cs, s => runStatusCalls lib cs (stepStatusCall lib s c)

/-- Every field of the order other than `status`, `isDelivered` and `deliveredAt` has
the same value in `o` and in `o2`. -/
def SameOutsideStatus (o o2 : Order) : Prop :=
  o2._id = o._id ∧ o2.userId = o.userId ∧ o2.orderNumber = o.orderNumber ∧
  o2.orderItems = o.orderItems ∧ o2.shippingAddress = o.shippingAddress ∧
  o2.paymentMethod = o.paymentMethod ∧ o2.paymentResult = o.paymentResult ∧
  o2.itemsPrice = o.itemsPrice ∧ o2.taxPrice = o.taxPrice ∧
  o2.shippingPrice = o.shippingPrice ∧ o2.totalPrice = o.totalPrice ∧
  o2.isPaid = o.isPaid ∧ o2.paidAt = o.paidAt ∧ o2.createdAt = o.createdAt

/-- The two orders differ at most in `userId`, `shippingAddress`, `orderItems` and
`paymentResult`. -/
def DifferOnlyPrivate (o o2 : Order) : Prop :=
  o2 = { o with userId := o2.userId, shippingAddress := o2.shippingAddress,
                orderItems := o2.orderItems, paymentResult := o2.paymentResult }

/-! ## Concrete ObjectId handling used in the examples -/

/-- A hexadecimal digit. -/
def isHexChar (c : Char) : Bool :=
  c.isDigit || (decide ('a' ≤ c) && decide (c ≤ 'f')) || (decide ('A' ≤ c) && decide (c ≤ 'F'))

/-- ObjectId strings in their 24-hexadecimal-digit form: such a string is valid and is
cast to the ObjectId whose string form is its lower-case spelling. -/
def hexObjectId : ObjectIdLib where
  isValid := fun s => decide (s.data.length = 24) && s.data.all isHexChar
  cast := fun s => String.mk (s.data.map Char.toLower)

/-- An environment in which every store and mail operation succeeds. -/
def calmEnv : Env :=
  { now := 1700000000000, newOrderId := "650000000000000000000001", productFind := none,
    counterUpdate := none, orderSave := none, stockUpdate := none,
    userLookup := .found "Ada" "ada@example.com", customerMailOk := true,
    adminMailOk := true, adminEmails := ["admin@example.com"] }

/-- A request body with the given lines, paid on delivery. -/
def requestOf (items : List OrderItem) : CreateOrderRequest :=
  { userId := "64b7f0c2a1d3e4f5a6b7c8aa", orderItems := some items,
    shippingAddress := "12 Marina Road, Lagos", paymentMethod := "Cash on Delivery",
    paymentResult := none, itemsPrice := 0, taxPrice := 0, shippingPrice := 0,
    totalPrice := 0 }

/-- A request line for `quantity` units of the product with the given id string. -/
def lineOf (id : String) (quantity : Int) : OrderItem :=
  { productId := .str id, name := some "Widget", quantity := quantity, price := 100,
    image := "widget.png" }

/-- A store holding one product, `Widget`, with the given stock. -/
def widgetStore (stock : Int) : State :=
  { products := [{ _id := "64b7f0c2a1d3e4f5a6b7c8d9", name := "Widget", stockQuantity := stock }],
    orders := [], counters := [] }

/-- A store holding `Widget` (stock 10) and `Gadget` (stock 1). -/
def pairStore : State :=
  { products :=
      [{ _id := "64b7f0c2a1d3e4f5a6b7c8d9", name := "Widget", stockQuantity := 10 },
       { _id := "64b7f0c2a1d3e4f5a6b7c8e0", name := "Gadget", stockQuantity := 1 }],
    orders := [], counters := [] }

/-- A request line whose `productId` field is missing. -/
def lineWithoutId : OrderItem :=
  { productId := .other "undefined", name := none, quantity := 1, price := 100,
    image := "none.png" }

/-- A status-handler environment at clock value `now` in which every store and mail
operation succeeds. -/
def calmStatusEnv (now : Nat) : StatusEnv :=
  { now := now, findFails := false, saveFails := false,
    userLookup := .found "Ada" "ada@example.com", customerMailOk := true,
    adminMailOk := true, adminEmails := ["admin@example.com"] }

/-- An order of user `64b7f0c2a1d3e4f5a6b7c8aa` with the given status and delivery
fields. -/
def sampleOrder (status : String) (isDelivered : Bool) (deliveredAt : Option Nat) : Order :=
  { _id := "650000000000000000000001", userId := "64b7f0c2a1d3e4f5a6b7c8aa",
    orderNumber := "MGV000000042",
    orderItems := [{ productId := "64b7f0c2a1d3e4f5a6b7c8d9", name := some "Widget",
                     quantity := 1, price := 100, image := "widget.png" }],
    shippingAddress := "12 Marina Road, Lagos", paymentMethod := "Cash on Delivery",
    paymentResult := "", itemsPrice := 100, taxPrice := 0, shippingPrice := 0,
    totalPrice := 100, isPaid := false, paidAt := none, isDelivered := isDelivered,
    deliveredAt := deliveredAt, status := status, createdAt := 1700000000000 }

/-- A store holding the given order only. -/
def orderStore (o : Order) : State :=
  { products := [], orders := [o], counters := [] }

/-- The same order number and public fields as `sampleOrder`, with another owner,
address, lines and payment result. -/
def otherPrivateOrder (status : String) (isDelivered : Bool) (deliveredAt : Option Nat) :
    Order :=
  { sampleOrder status isDelivered deliveredAt with
    userId := "64b7f0c2a1d3e4f5a6b7c8bb", shippingAddress := "7 Broad Street, Abuja",
    orderItems := [], paymentResult := "ref-991" }

/-- A request body with the given lines and payment method. -/
def requestPaidBy (paymentMethod : String) (items : List OrderItem) : CreateOrderRequest :=
  { requestOf items with paymentMethod := paymentMethod }

/-- The user who owns `sampleOrder`. -/
def sampleOwner : User :=
  { _id := "64b7f0c2a1d3e4f5a6b7c8aa", name := "Ada", email := "ada@example.com" }

/-- An administrator who owns no order. -/
def adminCaller : Caller :=
  { _id := "64b7f0c2a1d3e4f5a6b7c8cc", isAdmin := true }

/-- The upper-case spelling of a string, letter by letter, for the letters `a` to `z`;
used in place of `toUpperCase` in the examples. -/
def asciiUpper (s : String) : String :=
  String.mk (s.data.map Char.toUpper)

/-! ## Vocabulary of the lookup and stock properties -/

/-- Every character of the string is an ASCII character. -/
def IsAsciiString (s : String) : Prop :=
  ∀ c ∈ s.data, c.toNat < 128

/-- What is used of `String.prototype.toUpperCase`: on a string of ASCII characters it
replaces the letters `a` to `z` by `A` to `Z` and leaves every other character. -/
def UpperCaseOnAscii (toUpperCase : String → String) : Prop :=
  ∀ s, IsAsciiString s → toUpperCase s = asciiUpper s

/-- The three characters spell the prefix `MGV` in some letter case. -/
def PrefixVariant (p : List Char) : Prop :=
  p.map Char.toUpper = ['M', 'G', 'V']

/-- The total quantity asked for the product `id` by the lines of a request. -/
def orderedQuantity (items : List OrderItem) (id : String) : Int :=
  ((items.filter (fun item => decide (currentProductId item = some id))).map
    (fun item => item.quantity)).sum

/-- The total quantity of the product `id` on the lines of a persisted order. -/
def lineQuantity (lines : List FinalOrderItem) (id : String) : Int :=
  ((lines.filter (fun line => decide (line.productId = id))).map
    (fun line => line.quantity)).sum

/-- The persisted line is the request line with its product id normalised. -/
def CarriesLine (item : OrderItem) (line : FinalOrderItem) : Prop :=
  currentProductId item = some line.productId ∧ line.name = item.name ∧
  line.quantity = item.quantity ∧ line.price = item.price ∧ line.image = item.image

/-- The two environments differ at most in what the notification block meets: the user
lookup and the outcome of the two sends. -/
def SameButNotifications (env env2 : Env) : Prop :=
  env2 = { env with userLookup := env2.userLookup, customerMailOk := env2.customerMailOk,
                    adminMailOk := env2.adminMailOk }

/-! ## Profile update (`controllers/userController.js`) -/

/-- A value of a parsed JSON body: `null`, a boolean, a number (a decimal with mantissa
and exponent), a string, or an array or object given by its JSON text. -/
inductive JsonValue where
  | null
  | bool (b : Bool)
  | num (mantissa : Int) (exponent : Int)
  | str (s : String)
  | composite (json : String)
deriving DecidableEq, Repr

/-- JavaScript truthiness of a JSON value. -/
def JsonValue.truthy : JsonValue → Bool
  | .null => false
  | .bool b => b
  | .num mantissa _ => decide (mantissa ≠ 0)
  | .str s => decide (s ≠ "")
  | .composite _ => true

/-- The statement `delete obj.key` on an object given by its key-value pairs. -/
def deleteKey (key : String) (obj : List (String × JsonValue)) : List (String × JsonValue) :=
  obj.filter (fun field => decide (field.1 ≠ key))

/-- The expression `obj.key`: the value under the key, `none` for `undefined`. -/
def valueOf (key : String) (obj : List (String × JsonValue)) : Option JsonValue :=
  (obj.find? (fun field => decide (field.1 = key))).map (fun field => field.2)

/-- The object `updates` that `updateProfile` hands to `User.findByIdAndUpdate`: a copy
of the body from which `role` and `isActive` are deleted, and `password` too when its
value is truthy. -/
def updateProfileUpdates (body : List (String × JsonValue)) : List (String × JsonValue) :=
  let updates := body
  let updates := deleteKey "role" updates
  let updates := deleteKey "isActive" updates
  match valueOf "password" updates with
  | some password => if password.truthy then deleteKey "password" updates else updates
  | none => updates

/-! ## Bulk mail (`utils/brevoEmailService.js`) -/

/-- An element of the `recipients` array. -/
structure Recipient where
  email : Option String
  name : Option String
deriving DecidableEq, Repr

/-- The `recipients` argument of `sendEmailToMultiple`: `undefined`, `null`, an array
(whose elements may be `null`, written `none`), or any other value, given by what its
`length` property evaluates to when that is a number. -/
inductive RecipientsArg where
  | undefined
  | null
  | array (elements : List (Option Recipient))
  | other (length : Option Nat)
deriving DecidableEq, Repr

/-- The object `sendEmailToMultiple` resolves to. -/
structure MultiResult where
  success : Bool
  error : Option String
  messageId : Option String
  recipientCount : Option Nat
  recipients : Option (List (Option String))
  mode : Option String
deriving DecidableEq, Repr

/-- How the promise returned by an `async` function settles. -/
inductive Settled (α : Type) where
  | resolved (value : α)
  | rejected (error : String)
deriving DecidableEq, Repr

/-- The expression `recipients.map(r => r.email)`: `none` when reading `email` of a
`null` element throws. -/
def recipientEmails : List (Option Recipient) → Option (List (Option String))
  | [] => some []
  | none :: _ => none
  | some r :: rest => (recipientEmails rest).map (fun emails => r.email :: emails)

/-- The `catch` block of `sendEmailToMultiple`: it builds the failure object, reading
`recipients.length`, which throws when `recipients` is `undefined` or `null`. -/
def multipleFailure (recipients : RecipientsArg) (message : String) : Settled MultiResult :=
  match recipients with
  | .undefined => .rejected "Cannot read properties of undefined (reading 'length')"
  | .null => .rejected "Cannot read properties of null (reading 'length')"
  | .array elements =>
    .resolved { success := false, error := some message, messageId := none,
                recipientCount := some elements.length, recipients := none, mode := none }
  | .other length =>
    .resolved { success := false, error := some message, messageId := none,
                recipientCount := length, recipients := none, mode := none }

/-- The function `sendEmailToMultiple`. `isBrevoConfigured` is the module flag, `now` the
value of `Date.now()`, and `api` the outcome of `apiInstance.sendTransacEmail`: the
message id, or the message of the error it throws. -/
def sendEmailToMultiple (isBrevoConfigured : Bool) (now : Nat) (api : Except String String)
    (recipients : RecipientsArg) : Settled MultiResult :=
  match recipients with
  | .array (first :: rest) =>
    match recipientEmails (first :: rest) with
    | none => multipleFailure recipients "Cannot read properties of null (reading 'email')"
    | some emails =>
      if isBrevoConfigured = false then
        .resolved { success := true, error := none,
                    messageId := some ("DEV_MODE_" ++ toString now),
                    recipientCount := some (first :: rest).length,
                    recipients := some emails, mode := some "development" }
      else
        match api with
        | .error message => multipleFailure recipients message
        | .ok messageId =>
          .resolved { success := true, error := none, messageId := some messageId,
                      recipientCount := some (first :: rest).length,
                      recipients := some emails, mode := none }
  | _ => multipleFailure recipients "Recipients must be a non-empty array"

/-! ## Registration (`controllers/userController.js`) -/

/-- The fields `register` reads from `req.body` (`none` when missing). -/
structure RegisterRequest where
  name : Option String
  email : Option String
  password : Option String
  role : Option String
deriving DecidableEq, Repr

/-- A user document as `register` reads it. -/
structure Account where
  _id : String
  name : String
  email : String
  role : String
deriving DecidableEq, Repr

/-- What `register` sends: status 201 with the user's id, name, email, role and a
token, or a status code with an error text. -/
inductive RegisterResponse where
  | created (id : String) (name : String) (email : String) (role : String) (token : String)
  | error (status : Nat) (error : String)
deriving DecidableEq, Repr

/-- The behaviour of everything outside `register` during one call: whether
`User.findOne` rejects, the document `User.create` resolves to (`none` when it rejects),
whether the two sends succeed, and the value of `process.env.ADMIN_EMAIL`. -/
structure RegisterEnv where
  findFails : Bool
  created : Option Account
  welcomeMailOk : Bool
  adminMailOk : Bool
  adminEmail : Option String
deriving DecidableEq, Repr

/-- The identifiers bound where the mail templates of `register` are evaluated: the
module-level constants of `userController.js`, the globals used, and the parameters and
local constants of the handler. -/
def registerScope : List String :=
  ["User", "jwt", "crypto", "nodemailer", "bcrypt", "generateToken", "require", "process",
   "exports", "Date", "Number", "req", "res", "name", "email", "password", "role",
   "existing", "user", "token", "transporter"]

/-- The free identifiers of the template literals of the welcome mail. -/
def welcomeTemplateIdentifiers : List String :=
  ["process", "customerName"]

/-- The free identifiers of the template literals of the administrator mail. -/
def adminTemplateIdentifiers : List String :=
  ["process", "user", "newUser", "Date"]

/-- Evaluating a template literal throws a `ReferenceError` unless each of its free
identifiers is bound. -/
def templateEvaluates (scope identifiers : List String) : Bool :=
  identifiers.all (fun identifier => decide (identifier ∈ scope))

/-- A request field is truthy: present and not the empty string. -/
def presentField (field : Option String) : Bool :=
  match field with
  | some value => decide (value ≠ "")
  | none => false

/-- The handler `register`: the users collection afterwards, the response and the mails
handed to `transporter.sendMail`. `sign` is `generateToken`. Everything after the entry
check runs in one `try` whose `catch` answers 500. -/
def register (sign : Account → String) (env : RegisterEnv) (users : List Account)
    (req : RegisterRequest) : List Account × RegisterResponse × List Mail :=
  if presentField req.name = false ∨ presentField req.email = false ∨
      presentField req.password = false then
    (users, .error 400 "All fields are required.", [])
  else if env.findFails then (users, .error 500 "Registration failed.", [])
  else
    match users.find? (fun u => decide (some u.email = req.email)) with
    | some _ => (users, .error 400 "Email already registered.", [])
    | none =>
      match env.created with
      | none => (users, .error 500 "Registration failed.", [])
      | some user =>
        let token := sign user
        let welcome : Mail :=
          { recipient := user.email, cc := [], subject := "Welcome to Marshall Global Ventures" }
        if templateEvaluates registerScope welcomeTemplateIdentifiers = false then
          (users ++ [user], .error 500 "Registration failed.", [])
        else if env.welcomeMailOk = false then
          (users ++ [user], .error 500 "Registration failed.", [welcome])
        else
          match env.adminEmail with
          | none =>
            (users ++ [user], .created user._id user.name user.email user.role token, [welcome])
          | some admin =>
            let notice : Mail :=
              { recipient := admin, cc := [],
                subject := "New User Registration || " ++ user.name }
            if admin = "" then
              (users ++ [user], .created user._id user.name user.email user.role token,
                [welcome])
            else if templateEvaluates registerScope adminTemplateIdentifiers = false then
              (users ++ [user], .error 500 "Registration failed.", [welcome])
            else if env.adminMailOk = false then
              (users ++ [user], .error 500 "Registration failed.", [welcome, notice])
            else
              (users ++ [user], .created user._id user.name user.email user.role token,
                [welcome, notice])

/-- A registration environment in which the store and the mail transport work and an
administrator address is configured. -/
def calmRegisterEnv : RegisterEnv :=
  { findFails := false,
    created := some { _id := "64b7f0c2a1d3e4f5a6b7c8aa", name := "Ada",
                      email := "ada@example.com", role := "customer" },
    welcomeMailOk := true, adminMailOk := true, adminEmail := some "admin@example.com" }

/-- A registration request with name, email and password. -/
def adaRegistration : RegisterRequest :=
  { name := some "Ada", email := some "ada@example.com", password := some "s3cret-pass",
    role := none }

/-- A token for the examples: the user id behind a fixed tag. -/
def sampleSign (user : Account) : String :=
  "token-" ++ user._id

end MgvOrders

namespace MgvOrders

/-! ## Decimal digits of `Nat.repr` -/

theorem toDigitsCore_append (b : Nat) : ∀ (fuel n : Nat) (ds : List Char),
    Nat.toDigitsCore b fuel n ds = Nat.toDigitsCore b fuel n [] ++ ds := by
  intro fuel
  induction fuel with
  | zero => intro n ds; simp [Nat.toDigitsCore]
  | succ f ih =>
    intro n ds
    simp only [Nat.toDigitsCore]
    split
    · simp
    · rw [ih (n / b) (Nat.digitChar (n % b) :: ds), ih (n / b) [Nat.digitChar (n % b)]]
      simp

theorem toDigitsCore_fuel_indep (b : Nat) (hb : 2 ≤ b) : ∀ (fuel n : Nat), n < fuel →
    ∀ fuel2, n < fuel2 → Nat.toDigitsCore b fuel n [] = Nat.toDigitsCore b fuel2 n [] := by
  intro fuel
  induction fuel with
  | zero => intro n h; omega
  | succ f ih =>
    intro n hn fuel2 hn2
    obtain ⟨f2, rfl⟩ : ∃ f2, fuel2 = f2 + 1 := ⟨fuel2 - 1, by omega⟩
    simp only [Nat.toDigitsCore]
    by_cases h0 : n / b = 0
    · simp [h0]
    · simp only [h0, if_false]
      have hlt : n / b < n := by
        have hpos : 0 < n := by
          rcases Nat.eq_zero_or_pos n with h | h
          · subst h; simp at h0
          · exact h
        exact Nat.div_lt_self hpos (by omega)
      rw [toDigitsCore_append b f, toDigitsCore_append b f2,
        ih (n / b) (by omega) f2 (by omega)]

theorem toDigits_rec (b : Nat) (hb : 2 ≤ b) (n : Nat) :
    Nat.toDigits b n =
      if n < b then [Nat.digitChar n] else Nat.toDigits b (n / b) ++ [Nat.digitChar (n % b)] := by
  have step : Nat.toDigitsCore b (n + 1) n [] =
      if n / b = 0 then [Nat.digitChar (n % b)]
      else Nat.toDigitsCore b n (n / b) [Nat.digitChar (n % b)] := by
    simp only [Nat.toDigitsCore]
  unfold Nat.toDigits
  rw [step]
  by_cases h : n < b
  · simp [h, Nat.div_eq_of_lt h, Nat.mod_eq_of_lt h]
  · have h0 : n / b ≠ 0 := by
      intro h0
      rcases (Nat.div_eq_zero_iff (by omega : 0 < b)).1 h0 with h1
      omega
    have hlt : n / b < n := Nat.div_lt_self (by omega) (by omega)
    simp only [h0, h, if_false]
    rw [toDigitsCore_append b n, toDigitsCore_fuel_indep b hb n (n / b) hlt (n / b + 1) (by omega)]

theorem digitsBE_snoc : ∀ (w n : Nat),
    digitsBE (w + 1) n = digitsBE w (n / 10) ++ [Nat.digitChar (n % 10)] := by
  intro w
  induction w with
  | zero => intro n; simp [digitsBE]
  | succ w ih =>
    intro n
    rw [digitsBE, ih n]
    conv_rhs => rw [digitsBE]
    simp [Nat.div_div_eq_div_mul, pow_succ, Nat.mul_comm]

theorem digitsBE_zero : ∀ w, digitsBE w 0 = List.replicate w '0' := by
  intro w
  induction w with
  | zero => rfl
  | succ w ih => simp [digitsBE, ih, List.replicate_succ]; rfl

theorem digitsBE_length : ∀ w n, (digitsBE w n).length = w := by
  intro w
  induction w with
  | zero => intro n; rfl
  | succ w ih => intro n; simp [digitsBE, ih]

theorem pad_toDigits : ∀ (w n : Nat), 0 < w → n < 10 ^ w →
    List.replicate (w - (Nat.toDigits 10 n).length) '0' ++ Nat.toDigits 10 n = digitsBE w n := by
  intro w
  induction w with
  | zero => intro n h; omega
  | succ w ih =>
    intro n _ hn
    rw [toDigits_rec 10 (by omega) n, digitsBE_snoc]
    by_cases h : n < 10
    · simp [h, Nat.div_eq_of_lt h, Nat.mod_eq_of_lt h, digitsBE_zero]
    · have hw : 0 < w := by
        rcases Nat.eq_zero_or_pos w with h0 | h0
        · subst h0; simp at hn; omega
        · exact h0
      have hdiv : n / 10 < 10 ^ w := by
        rw [Nat.div_lt_iff_lt_mul (by omega)]
        rw [pow_succ] at hn
        exact hn
      simp only [h, if_false, List.length_append, List.length_singleton]
      rw [← ih (n / 10) hw hdiv]
      simp

theorem digitChar_lt_of_lt {a b : Nat} (hab : a < b) (hb : b < 10) :
    Nat.digitChar a < Nat.digitChar b := by
  interval_cases b <;> interval_cases a <;> decide

theorem digitChar_inj_of_lt {a b : Nat} (ha : a < 10) (hb : b < 10)
    (h : Nat.digitChar a = Nat.digitChar b) : a = b := by
  interval_cases b <;> interval_cases a <;> first | rfl | (exfalso; revert h; decide)

theorem digitChar_isDigit {a : Nat} (ha : a < 10) : (Nat.digitChar a).isDigit = true := by
  interval_cases a <;> decide

theorem digitsBE_lt : ∀ (w a b : Nat), a % 10 ^ w < b % 10 ^ w → digitsBE w a < digitsBE w b := by
  intro w
  induction w with
  | zero => intro a b h; simp [Nat.mod_one] at h
  | succ w ih =>
    intro a b h
    rw [Nat.mod_pow_succ, Nat.mod_pow_succ] at h
    have ha : a % 10 ^ w < 10 ^ w := Nat.mod_lt _ (by positivity)
    have hb : b % 10 ^ w < 10 ^ w := Nat.mod_lt _ (by positivity)
    have hda : a / 10 ^ w % 10 < 10 := Nat.mod_lt _ (by omega)
    have hdb : b / 10 ^ w % 10 < 10 := Nat.mod_lt _ (by omega)
    rcases Nat.lt_trichotomy (a / 10 ^ w % 10) (b / 10 ^ w % 10) with hlt | heq | hgt
    · exact List.Lex.rel (digitChar_lt_of_lt hlt hdb)
    · have htl : a % 10 ^ w < b % 10 ^ w := by
        rw [heq] at h
        omega
      simp only [digitsBE, heq]
      exact List.Lex.cons (ih a b htl)
    · exfalso
      have : 10 ^ w * (b / 10 ^ w % 10 + 1) ≤ 10 ^ w * (a / 10 ^ w % 10) :=
        Nat.mul_le_mul_left _ hgt
      rw [Nat.mul_add] at this
      omega

theorem digitsBE_inj : ∀ (w a b : Nat), digitsBE w a = digitsBE w b →
    a % 10 ^ w = b % 10 ^ w := by
  intro w
  induction w with
  | zero => intro a b _; simp [Nat.mod_one]
  | succ w ih =>
    intro a b h
    simp only [digitsBE, List.cons.injEq] at h
    have hd := digitChar_inj_of_lt (Nat.mod_lt _ (by omega)) (Nat.mod_lt _ (by omega)) h.1
    rw [Nat.mod_pow_succ, Nat.mod_pow_succ, hd, ih a b h.2]

theorem digitsBE_eq_map (w n : Nat) :
    digitsBE w n = (List.range w).reverse.map (fun i => Nat.digitChar (n / 10 ^ i % 10)) := by
  induction w with
  | zero => rfl
  | succ w ih => simp [digitsBE, ih, List.range_succ]

theorem formatOrderNumber_eq (n : Nat) (h : n < 10 ^ 9) :
    formatOrderNumber n = "MGV" ++ String.mk (digitsBE 9 n) := by
  have hp := pad_toDigits 9 n (by omega) h
  simp only [formatOrderNumber, padStart]
  have h1 : (toString n).data = Nat.toDigits 10 n := rfl
  have h2 : (toString n).length = (Nat.toDigits 10 n).length := rfl
  rw [h1, h2, hp]

theorem ofDigits_low (n : Nat) : ∀ w : Nat,
    Nat.ofDigits 10 ((List.range w).map (fun i => n / 10 ^ i % 10)) = n % 10 ^ w := by
  intro w
  induction w with
  | zero => simp [Nat.mod_one]
  | succ w ih =>
    rw [List.range_succ, List.map_append, Nat.ofDigits_append, ih, Nat.mod_pow_succ]
    simp

theorem formatOrderNumber_lt {a b : Nat} (hab : a < b) (hb : b < 10 ^ 9) :
    formatOrderNumber a < formatOrderNumber b := by
  rw [formatOrderNumber_eq a (by omega), formatOrderNumber_eq b hb, String.lt_iff_toList_lt]
  show "MGV".data ++ digitsBE 9 a < "MGV".data ++ digitsBE 9 b
  have h := digitsBE_lt 9 a b
    (by rw [Nat.mod_eq_of_lt (by omega), Nat.mod_eq_of_lt hb]; exact hab)
  exact List.Lex.cons (List.Lex.cons (List.Lex.cons h))

theorem formatOrderNumber_injective_below (a b : Nat) (ha : a < 10 ^ 9) (hb : b < 10 ^ 9)
    (h : formatOrderNumber a = formatOrderNumber b) : a = b := by
  rw [formatOrderNumber_eq a ha, formatOrderNumber_eq b hb] at h
  have hdata : "MGV".data ++ digitsBE 9 a = "MGV".data ++ digitsBE 9 b :=
    congrArg String.data h
  have hd := digitsBE_inj 9 a b (List.append_cancel_left hdata)
  rwa [Nat.mod_eq_of_lt ha, Nat.mod_eq_of_lt hb] at hd

/-! ## The order-number formatter -/

/-- C6: for every `n` with `0 ≤ n ≤ 10^9 - 1`, `formatOrderNumber n` has exactly 12
characters: the literal `MGV` followed by nine decimal digits `ds` (each below ten and
written as a digit character) whose value, read as a decimal numeral, is `n`. -/
theorem formatOrderNumber_shape (n : Nat) (h : n < 10 ^ 9) :
    (formatOrderNumber n).length = 12 ∧
    ∃ ds : List Nat, ds.length = 9 ∧
      (∀ d ∈ ds, d < 10 ∧ (Nat.digitChar d).isDigit = true) ∧
      Nat.ofDigits 10 ds.reverse = n ∧
      formatOrderNumber n = "MGV" ++ String.mk (ds.map Nat.digitChar) := by
  have heq := formatOrderNumber_eq n h
  refine ⟨?_, (List.range 9).reverse.map (fun i => n / 10 ^ i % 10), ?_, ?_, ?_, ?_⟩
  · rw [heq]
    show ("MGV".data ++ digitsBE 9 n).length = 12
    rw [List.length_append, digitsBE_length]
    rfl
  · simp
  · intro d hd
    simp only [List.mem_map] at hd
    obtain ⟨i, _, rfl⟩ := hd
    have hlt : n / 10 ^ i % 10 < 10 := Nat.mod_lt _ (by omega)
    exact ⟨hlt, digitChar_isDigit hlt⟩
  · rw [← List.map_reverse, List.reverse_reverse, ofDigits_low n 9, Nat.mod_eq_of_lt h]
  · rw [heq, digitsBE_eq_map, List.map_map]
    rfl

/-- The instance of C6 given with the claim: sequence value 42 is below `10^9` and is
formatted as `MGV000000042`. -/
theorem formatOrderNumber_shape_witness :
    42 < 10 ^ 9 ∧ formatOrderNumber 42 = "MGV000000042" ∧
    ((formatOrderNumber 42).length = 12 ∧
      ∃ ds : List Nat, ds.length = 9 ∧
        (∀ d ∈ ds, d < 10 ∧ (Nat.digitChar d).isDigit = true) ∧
        Nat.ofDigits 10 ds.reverse = 42 ∧
        formatOrderNumber 42 = "MGV" ++ String.mk (ds.map Nat.digitChar)) :=
  ⟨by decide, by decide, formatOrderNumber_shape 42 (by decide)⟩

/-- C7: `formatOrderNumber` is injective on `[0, 10^9 - 1]`. -/
theorem formatOrderNumber_injective (a b : Nat) (ha : a < 10 ^ 9) (hb : b < 10 ^ 9)
    (h : formatOrderNumber a = formatOrderNumber b) : a = b :=
  formatOrderNumber_injective_below a b ha hb h

/-- An instance of C7: 42 is the only value below `10^9` formatted as the order number
of 42. -/
theorem formatOrderNumber_injective_witness :
    42 < 10 ^ 9 ∧ 42 < 10 ^ 9 ∧ formatOrderNumber 42 = formatOrderNumber 42 ∧ 42 = 42 :=
  ⟨by decide, by decide, rfl, formatOrderNumber_injective 42 42 (by decide) (by decide) rfl⟩

/-- C8: `formatOrderNumber` preserves order: for `a < b` in `[0, 10^9 - 1]` the string
for `a` is strictly smaller than the string for `b` in lexicographic order. -/
theorem formatOrderNumber_strictMono (a b : Nat) (hab : a < b) (hb : b < 10 ^ 9) :
    formatOrderNumber a < formatOrderNumber b :=
  formatOrderNumber_lt hab hb

/-- An instance of C8 across a change of digit count: 99 and 100. -/
theorem formatOrderNumber_strictMono_witness :
    99 < 100 ∧ 100 < 10 ^ 9 ∧ formatOrderNumber 99 < formatOrderNumber 100 :=
  ⟨by decide, by decide, formatOrderNumber_strictMono 99 100 (by decide) (by decide)⟩

/-! ## The sequence counter -/

theorem getNextSequenceValue_value (name : String) : ∀ cs : List Counter,
    (getNextSequenceValue name cs).2 = (seqOf name cs).getD 0 + 1 := by
  intro cs
  induction cs with
  | nil => rfl
  | cons c cs ih =>
    by_cases hc : c._id = name
    · simp [getNextSequenceValue, seqOf, hc]
    · simp [getNextSequenceValue, seqOf, hc, ih]

theorem getNextSequenceValue_stored (name : String) : ∀ cs : List Counter,
    seqOf name (getNextSequenceValue name cs).1 = some (getNextSequenceValue name cs).2 := by
  intro cs
  induction cs with
  | nil => simp [getNextSequenceValue, seqOf]
  | cons c cs ih =>
    by_cases hc : c._id = name
    · simp [getNextSequenceValue, seqOf, hc]
    · simp [getNextSequenceValue, seqOf, hc, ih]

theorem getNextSequenceValue_frame (name other : String) (hne : other ≠ name) :
    ∀ cs : List Counter, seqOf other (getNextSequenceValue name cs).1 = seqOf other cs := by
  intro cs
  induction cs with
  | nil => simp [getNextSequenceValue, seqOf, hne.symm]
  | cons c cs ih =>
    by_cases hc : c._id = name
    · have hco : c._id ≠ other := fun h => hne (h.symm.trans hc)
      simp [getNextSequenceValue, seqOf, hc, hne.symm]
    · by_cases ho : c._id = other
      · subst ho
        simp [getNextSequenceValue, seqOf, hc]
      · simp [getNextSequenceValue, seqOf, hc, ho, ih]

theorem runSequence_above : ∀ (names : List String) (cs : List Counter) (r : String × Nat),
    r ∈ (runSequence names cs).1 → (seqOf r.1 cs).getD 0 < r.2 := by
  intro names
  induction names with
  | nil => intro cs r hr; simp [runSequence] at hr
  | cons name names ih =>
    intro cs r hr
    simp only [runSequence, List.mem_cons] at hr
    rcases hr with rfl | hr
    · simp only [getNextSequenceValue_value]
      omega
    · have h := ih _ r hr
      by_cases hn : r.1 = name
      · rw [hn, getNextSequenceValue_stored, getNextSequenceValue_value] at h
        rw [hn]
        simp only [Option.getD_some] at h
        omega
      · rwa [getNextSequenceValue_frame name r.1 hn] at h

theorem runSequence_pairwise : ∀ (names : List String) (cs : List Counter),
    ((runSequence names cs).1).Pairwise (fun x y => x.1 = y.1 → x.2 < y.2) := by
  intro names
  induction names with
  | nil => intro cs; simp [runSequence]
  | cons name names ih =>
    intro cs
    simp only [runSequence, List.pairwise_cons]
    refine ⟨?_, ih _⟩
    intro r hr hname
    have h := runSequence_above names _ r hr
    rw [← hname, getNextSequenceValue_stored] at h
    simpa using h

/-- C9: `getNextSequenceValue name` returns the stored value of the counter plus one
(one when the counter is absent), stores that value under `name`, and leaves the value
of every other counter as it was; the next call for `name` returns exactly one more, so
no value is skipped or reused; and in any run of sequential calls, a later call for a
name returns a strictly greater value than every earlier call for that name. -/
theorem getNextSequenceValue_monotone (name : String) (cs : List Counter) :
    (getNextSequenceValue name cs).2 = (seqOf name cs).getD 0 + 1 ∧
    seqOf name (getNextSequenceValue name cs).1 = some (getNextSequenceValue name cs).2 ∧
    (∀ other : String, other ≠ name →
      seqOf other (getNextSequenceValue name cs).1 = seqOf other cs) ∧
    (getNextSequenceValue name (getNextSequenceValue name cs).1).2 =
      (getNextSequenceValue name cs).2 + 1 ∧
    (∀ names : List String,
      ((runSequence names cs).1).Pairwise (fun x y => x.1 = y.1 → x.2 < y.2)) := by
  refine ⟨getNextSequenceValue_value name cs, getNextSequenceValue_stored name cs,
    fun other hne => getNextSequenceValue_frame name other hne cs, ?_,
    fun names => runSequence_pairwise names cs⟩
  rw [getNextSequenceValue_value name (getNextSequenceValue name cs).1,
    getNextSequenceValue_stored]
  rfl

/-! ## Validation against the products found -/

theorem foldl_push_filterMap (g : OrderItem → Option String) :
    ∀ (items : List OrderItem) (acc : List String),
    items.foldl
      (fun acc item =>
        match g item with
        | some message => acc ++ [message]
        | none => acc) acc = acc ++ items.filterMap g := by
  intro items
  induction items with
  | nil => intro acc; simp
  | cons item items ih =>
    intro acc
    simp only [List.foldl_cons, List.filterMap_cons]
    cases hg : g item with
    | none => simp [ih]
    | some m => simp [ih]

theorem invalidItems_eq_filterMap (lib : ObjectIdLib) (productsInOrder : List Product)
    (orderItems : List OrderItem) :
    invalidItems lib productsInOrder orderItems =
      orderItems.filterMap (validateItem lib productsInOrder) := by
  unfold invalidItems
  rw [foldl_push_filterMap]
  simp

theorem findInOrder_find (lib : ObjectIdLib) (ids : List String) (cur : String) :
    ∀ products : List Product,
    findInOrder (Product.find lib products ids) cur =
      if ids.any (fun i => decide (lib.cast i = cur)) = true then storedProduct products cur
      else none := by
  intro products
  induction products with
  | nil => simp [findInOrder, Product.find, storedProduct]
  | cons p ps ih =>
    unfold findInOrder Product.find storedProduct at ih ⊢
    by_cases hp : p._id = cur
    · subst hp
      by_cases hq : (ids.any (fun i => decide (lib.cast i = p._id))) = true
      · simp [List.filter_cons, hq]
      · have hq2 : (ids.any (fun i => decide (lib.cast i = p._id))) = false := by
          simpa using hq
        rw [hq2] at ih
        simp only [List.filter_cons, hq2]
        simpa using ih
    · by_cases hq : (ids.any (fun i => decide (lib.cast i = p._id))) = true
      · simp only [List.filter_cons, hq, if_true, List.find?_cons, hp, decide_False]
        exact ih
      · simp only [List.filter_cons, hq, if_false, List.find?_cons, hp, decide_False]
        exact ih

theorem validateItem_ne_none_iff (lib : ObjectIdLib) (products : List Product)
    (item : OrderItem) :
    validateItem lib products item ≠ none ↔ ItemFails lib products item := by
  unfold validateItem ItemFails MalformedId UnknownProduct ExceedsStock
  have hfs : ∀ id, findInOrder products id = storedProduct products id := fun _ => rfl
  cases hc : currentProductId item with
  | none => simp
  | some cur =>
    cases hv : lib.isValid cur with
    | false => simp [hv]
    | true =>
      cases hf : storedProduct products cur with
      | none => simp [hv, hfs, hf]
      | some p =>
        by_cases hlt : p.stockQuantity < item.quantity
        · simp [hv, hfs, hf, hlt]
        · simp [hv, hfs, hf, hlt]

theorem validateItem_find_of_fails (lib : ObjectIdLib) (products : List Product)
    (ids : List String) (item : OrderItem) (h : ItemFails lib products item) :
    validateItem lib (Product.find lib products ids) item ≠ none := by
  have h0 := (validateItem_ne_none_iff lib products item).2 h
  unfold validateItem at h0 ⊢
  have hfs : ∀ id, findInOrder products id = storedProduct products id := fun _ => rfl
  cases hc : currentProductId item with
  | none => simp
  | some cur =>
    rw [hc] at h0
    cases hv : lib.isValid cur with
    | false => simp [hv]
    | true =>
      simp only [hv, Bool.true_eq_false, if_false] at h0 ⊢
      rw [findInOrder_find]
      by_cases hq : (ids.any (fun i => decide (lib.cast i = cur))) = true
      · rw [if_pos hq, ← hfs]
        exact h0
      · rw [if_neg hq]
        simp

theorem mem_productIds (lib : ObjectIdLib) (items : List OrderItem) (item : OrderItem)
    (cur : String) (hmem : item ∈ items) (hc : currentProductId item = some cur)
    (hv : lib.isValid cur = true) : cur ∈ productIds lib items := by
  unfold productIds
  rw [List.mem_filterMap]
  refine ⟨item, hmem, ?_⟩
  unfold currentProductId at hc
  unfold extractProductId
  cases hp : item.productId with
  | str s =>
    rw [hp] at hc
    simp only [Option.some.injEq] at hc
    subst hc
    simp [hv]
  | obj o =>
    rw [hp] at hc
    cases o with
    | none => simp at hc
    | some t =>
      by_cases ht : t = ""
      · simp [ht] at hc
      · simp only [ht, ne_eq, not_false_eq_true, if_true, Option.some.injEq] at hc
        subst hc
        simp [ht, hv]
  | other r =>
    rw [hp] at hc
    simp at hc

theorem storedProduct_some {products : List Product} {id : String} {p : Product}
    (h : storedProduct products id = some p) : p ∈ products ∧ p._id = id := by
  unfold storedProduct at h
  refine ⟨List.mem_of_find?_eq_some h, ?_⟩
  have := List.find?_some h
  simpa using this

theorem validateItem_find_eq (lib : ObjectIdLib) (products : List Product)
    (items : List OrderItem) (item : OrderItem) (hcanon : CanonicalIds lib products)
    (hmem : item ∈ items) :
    validateItem lib (Product.find lib products (productIds lib items)) item =
      validateItem lib products item := by
  unfold validateItem
  have hfs : ∀ id, findInOrder products id = storedProduct products id := fun _ => rfl
  cases hc : currentProductId item with
  | none => rfl
  | some cur =>
    cases hv : lib.isValid cur with
    | false => simp [hv]
    | true =>
      simp only [hv, Bool.true_eq_false, if_false]
      rw [findInOrder_find, hfs]
      cases hf : storedProduct products cur with
      | none => simp
      | some p =>
        obtain ⟨hp, hid⟩ := storedProduct_some hf
        have hcast : lib.cast cur = cur := by
          rw [← hid]
          exact hcanon p hp
        have hq : ((productIds lib items).any (fun i => decide (lib.cast i = cur))) = true := by
          rw [List.any_eq_true]
          exact ⟨cur, mem_productIds lib items item cur hmem hc hv, by simp [hcast]⟩
        rw [if_pos hq]

theorem invalidItems_find_eq (lib : ObjectIdLib) (products : List Product)
    (items : List OrderItem) (hcanon : CanonicalIds lib products) :
    invalidItems lib (Product.find lib products (productIds lib items)) items =
      items.filterMap (validateItem lib products) := by
  rw [invalidItems_eq_filterMap]
  apply List.filterMap_congr
  intro item hmem
  exact validateItem_find_eq lib products items item hcanon hmem

theorem invalidItems_ne_nil_of_fails (lib : ObjectIdLib) (productsInOrder : List Product)
    (items : List OrderItem) (item : OrderItem) (hmem : item ∈ items)
    (h : validateItem lib productsInOrder item ≠ none) :
    invalidItems lib productsInOrder items ≠ [] := by
  rw [invalidItems_eq_filterMap]
  obtain ⟨m, hm⟩ := Option.ne_none_iff_exists'.1 h
  intro hnil
  have : m ∈ items.filterMap (validateItem lib productsInOrder) :=
    List.mem_filterMap.2 ⟨item, hmem, hm⟩
  rw [hnil] at this
  simp at this

/-! ## Outcomes of `createOrder` -/

theorem createOrder_rejected (lib : ObjectIdLib) (env : Env) (s : State)
    (req : CreateOrderRequest) (items : List OrderItem) (hitems : req.orderItems = some items)
    (hids : productIds lib items ≠ []) (hfind : env.productFind = none)
    (hinv : invalidItems lib (Product.find lib s.products (productIds lib items)) items ≠ []) :
    createOrder lib env s req =
      { state := s, mails := [],
        response :=
          { status := 400, message := "Order validation failed:",
            errors := some
              (invalidItems lib (Product.find lib s.products (productIds lib items)) items),
            order := none } } := by
  have h1 : items.length ≠ 0 := by
    intro h
    rw [List.length_eq_zero] at h
    subst h
    exact hids rfl
  have h2 : (productIds lib items).length ≠ 0 := by
    rwa [Ne, List.length_eq_zero]
  have h3 : (invalidItems lib (Product.find lib s.products (productIds lib items)) items).length
      > 0 := List.length_pos.2 hinv
  unfold createOrder
  simp only [hitems, h1, h2, hfind, h3, if_true, if_false]

theorem createOrder_state_of_invalid (lib : ObjectIdLib) (env : Env) (s : State)
    (req : CreateOrderRequest) (items : List OrderItem) (hitems : req.orderItems = some items)
    (hinv : invalidItems lib (Product.find lib s.products (productIds lib items)) items ≠ []) :
    (createOrder lib env s req).state = s ∧ (createOrder lib env s req).response.status ≠ 201 ∧
      (createOrder lib env s req).response.order = none := by
  have h3 : (invalidItems lib (Product.find lib s.products (productIds lib items)) items).length
      > 0 := List.length_pos.2 hinv
  unfold createOrder
  simp only [hitems]
  by_cases h1 : items.length = 0
  · simp [h1]
  · by_cases h2 : (productIds lib items).length = 0
    · simp [h1, h2]
    · cases hf : env.productFind with
      | some e => cases e <;> simp [h1, h2, catchResponse]
      | none => simp [h1, h2, h3]

theorem validateItem_none_of_inStock (lib : ObjectIdLib) (products : List Product)
    (item : OrderItem) (h : ItemInStock lib products item) :
    validateItem lib products item = none := by
  obtain ⟨id, p, hc, hv, hp, hle⟩ := h
  have hfs : findInOrder products id = some p := hp
  unfold validateItem
  simp [hc, hv, hfs, not_lt.2 hle]

theorem finalOrderItem_of_valid (lib : ObjectIdLib) (item : OrderItem) (id : String)
    (hc : currentProductId item = some id) (hv : lib.isValid id = true) :
    finalOrderItem lib item =
      some { productId := id, name := item.name, quantity := item.quantity,
             price := item.price, image := item.image } := by
  unfold finalOrderItem
  simp [hc, hv]

theorem decrementStock_no_failure (lib : ObjectIdLib) (productsInOrder : List Product) :
    ∀ (items : List FinalOrderItem) (k : Nat) (products : List Product),
    (decrementStock lib none productsInOrder k items products).2 = none := by
  intro items
  induction items with
  | nil => intro k products; rfl
  | cons item rest ih =>
    intro k products
    unfold decrementStock
    cases findInOrder productsInOrder item.productId with
    | none => exact ih _ _
    | some p =>
      simp only [stockUpdateError]
      exact ih _ _

theorem createOrder_accepted (lib : ObjectIdLib) (env : Env) (s : State)
    (req : CreateOrderRequest) (items : List OrderItem) (hitems : req.orderItems = some items)
    (hne : items ≠ []) (hall : ∀ item ∈ items, ItemInStock lib s.products item)
    (hcanon : CanonicalIds lib s.products) (hfind : env.productFind = none)
    (hcounter : env.counterUpdate = none) (hsave : env.orderSave = none)
    (hstock : env.stockUpdate = none) :
    (createOrder lib env s req).response =
      { status := 201, message := "Order placed successfully", errors := none,
        order := some (newOrder env req
          (formatOrderNumber (getNextSequenceValue "orderId" s.counters).2)
          (finalOrderItems lib items)) } ∧
    (createOrder lib env s req).state.orders = s.orders ++
      [newOrder env req (formatOrderNumber (getNextSequenceValue "orderId" s.counters).2)
        (finalOrderItems lib items)] := by
  obtain ⟨first, rest, rfl⟩ := List.exists_cons_of_ne_nil hne
  obtain ⟨id, p, hc, hv, hp, hle⟩ := hall first (List.mem_cons_self _ _)
  have h1 : (first :: rest).length ≠ 0 := by simp
  have h2 : (productIds lib (first :: rest)).length ≠ 0 := by
    have hm := mem_productIds lib (first :: rest) first id (List.mem_cons_self _ _) hc hv
    intro h0
    rw [List.length_eq_zero] at h0
    rw [h0] at hm
    simp at hm
  have h3 : ¬ (invalidItems lib (Product.find lib s.products (productIds lib (first :: rest)))
      (first :: rest)).length > 0 := by
    rw [invalidItems_find_eq lib s.products _ hcanon]
    have hnil : (first :: rest).filterMap (validateItem lib s.products) = [] := by
      rw [List.filterMap_eq_nil_iff]
      intro item hmem
      exact validateItem_none_of_inStock lib s.products item (hall item hmem)
    rw [hnil]
    simp
  have h4 : (finalOrderItems lib (first :: rest)).length ≠ 0 := by
    unfold finalOrderItems
    rw [List.filterMap_cons, finalOrderItem_of_valid lib first id hc hv]
    simp
  have h5 := decrementStock_no_failure lib
    (Product.find lib s.products (productIds lib (first :: rest)))
    (finalOrderItems lib (first :: rest)) 0 s.products
  unfold createOrder
  simp only [hitems, h1, h2, h3, h4, hfind, hcounter, hsave, hstock, h5, if_false]
  trivial

theorem createOrder_orders_counters (lib : ObjectIdLib) (env : Env) (s : State)
    (req : CreateOrderRequest) :
    ((createOrder lib env s req).state.orders = s.orders ∧
      ((createOrder lib env s req).state.counters = s.counters ∨
        (createOrder lib env s req).state.counters =
          (getNextSequenceValue "orderId" s.counters).1)) ∨
    (∃ o : Order, (createOrder lib env s req).state.orders = s.orders ++ [o] ∧
      o.orderNumber = formatOrderNumber (getNextSequenceValue "orderId" s.counters).2 ∧
      (createOrder lib env s req).state.counters =
        (getNextSequenceValue "orderId" s.counters).1) := by
  unfold createOrder
  cases hitems : req.orderItems with
  | none => simp
  | some items =>
    simp only
    by_cases h1 : items.length = 0
    · simp [h1]
    · by_cases h2 : (productIds lib items).length = 0
      · simp [h1, h2]
      · cases hf : env.productFind with
        | some e => simp [h1, h2]
        | none =>
          by_cases h3 : (invalidItems lib (Product.find lib s.products (productIds lib items))
              items).length > 0
          · simp [h1, h2, h3]
          · by_cases h4 : (finalOrderItems lib items).length = 0
            · simp [h1, h2, h3, h4]
            · cases hc : env.counterUpdate with
              | some e => simp [h1, h2, h3, h4]
              | none =>
                cases hs : env.orderSave with
                | some e => simp [h1, h2, h3, h4]
                | none =>
                  right
                  simp only [h1, h2, h3, h4, if_false]
                  split <;> exact ⟨_, rfl, rfl, rfl⟩

/-! ## Properties of order placement -/

/-- C1 (the code departs from it): with stock 5 of one product and a request holding two
lines of quantity 3 for that product, every stock is non-negative before the call and
every quantity is positive, each line passes the per-line stock check, the order is
accepted with 201, and the stock of the product is -1 afterwards. -/
theorem createOrder_duplicate_lines_oversell :
    (∀ p ∈ (widgetStore 5).products, 0 ≤ p.stockQuantity) ∧
    (∀ item ∈ [lineOf "64b7f0c2a1d3e4f5a6b7c8d9" 3, lineOf "64b7f0c2a1d3e4f5a6b7c8d9" 3],
      0 < item.quantity) ∧
    (createOrder hexObjectId calmEnv (widgetStore 5)
      (requestOf [lineOf "64b7f0c2a1d3e4f5a6b7c8d9" 3,
        lineOf "64b7f0c2a1d3e4f5a6b7c8d9" 3])).response.status = 201 ∧
    (createOrder hexObjectId calmEnv (widgetStore 5)
      (requestOf [lineOf "64b7f0c2a1d3e4f5a6b7c8d9" 3,
        lineOf "64b7f0c2a1d3e4f5a6b7c8d9" 3])).state.products =
      [{ _id := "64b7f0c2a1d3e4f5a6b7c8d9", name := "Widget", stockQuantity := -1 }] := by
  decide

/-- C2: when some line of the request fails validation against the store (malformed
product id, unknown product, or more units than the product has in stock), the state
after `createOrder` is the state before it, whatever the environment does: no order is
added, the `orderId` counter keeps its value, and every product, including those whose
own line had enough stock, keeps its stock. -/
theorem createOrder_rejected_unchanged (lib : ObjectIdLib) (env : Env) (s : State)
    (req : CreateOrderRequest) (items : List OrderItem) (hitems : req.orderItems = some items)
    (hfail : ∃ item ∈ items, ItemFails lib s.products item) :
    (createOrder lib env s req).state = s ∧
    (createOrder lib env s req).state.orders = s.orders ∧
    orderSeq (createOrder lib env s req).state = orderSeq s ∧
    (createOrder lib env s req).state.products = s.products := by
  obtain ⟨item, hmem, hf⟩ := hfail
  have hinv := invalidItems_ne_nil_of_fails lib
    (Product.find lib s.products (productIds lib items)) items item hmem
    (validateItem_find_of_fails lib s.products (productIds lib items) item hf)
  have hs := (createOrder_state_of_invalid lib env s req items hitems hinv).1
  rw [hs]
  exact ⟨rfl, rfl, rfl, rfl⟩

/-- An instance of C2: `Widget` has stock 10 and `Gadget` stock 1; an order for 2 `Widget`
and 5 `Gadget` leaves the store, the stock of `Widget` included, as it was. -/
theorem createOrder_rejected_unchanged_witness :
    (∃ item ∈ [lineOf "64b7f0c2a1d3e4f5a6b7c8d9" 2, lineOf "64b7f0c2a1d3e4f5a6b7c8e0" 5],
      ItemFails hexObjectId pairStore.products item) ∧
    ((createOrder hexObjectId calmEnv pairStore
        (requestOf [lineOf "64b7f0c2a1d3e4f5a6b7c8d9" 2,
          lineOf "64b7f0c2a1d3e4f5a6b7c8e0" 5])).state = pairStore ∧
      (createOrder hexObjectId calmEnv pairStore
        (requestOf [lineOf "64b7f0c2a1d3e4f5a6b7c8d9" 2,
          lineOf "64b7f0c2a1d3e4f5a6b7c8e0" 5])).state.orders = pairStore.orders ∧
      orderSeq (createOrder hexObjectId calmEnv pairStore
        (requestOf [lineOf "64b7f0c2a1d3e4f5a6b7c8d9" 2,
          lineOf "64b7f0c2a1d3e4f5a6b7c8e0" 5])).state = orderSeq pairStore ∧
      (createOrder hexObjectId calmEnv pairStore
        (requestOf [lineOf "64b7f0c2a1d3e4f5a6b7c8d9" 2,
          lineOf "64b7f0c2a1d3e4f5a6b7c8e0" 5])).state.products = pairStore.products) :=
  have hfail : ∃ item ∈ [lineOf "64b7f0c2a1d3e4f5a6b7c8d9" 2,
      lineOf "64b7f0c2a1d3e4f5a6b7c8e0" 5], ItemFails hexObjectId pairStore.products item :=
    ⟨lineOf "64b7f0c2a1d3e4f5a6b7c8e0" 5, by simp,
      Or.inr (Or.inr ⟨"64b7f0c2a1d3e4f5a6b7c8e0",
        { _id := "64b7f0c2a1d3e4f5a6b7c8e0", name := "Gadget", stockQuantity := 1 },
        by decide, by decide, by decide, by decide⟩)⟩
  ⟨hfail, createOrder_rejected_unchanged hexObjectId calmEnv pairStore
    (requestOf [lineOf "64b7f0c2a1d3e4f5a6b7c8d9" 2, lineOf "64b7f0c2a1d3e4f5a6b7c8e0" 5])
    [lineOf "64b7f0c2a1d3e4f5a6b7c8d9" 2, lineOf "64b7f0c2a1d3e4f5a6b7c8e0" 5] rfl hfail⟩

/-- C3: when the product query answers and a line asks for `q` units of a stored product
(canonical id, name `p.name`) that has `p.stockQuantity < q` in stock, `createOrder`
responds 400 with an errors list that contains the text
`Not enough stock for NAME. Available: S, Requested: Q.` where `NAME` is the product
name, `S` the decimal rendering of the available stock and `Q` that of the requested
quantity; the state, and so the stock of that product, is unchanged. -/
theorem createOrder_insufficient_stock (lib : ObjectIdLib) (env : Env) (s : State)
    (req : CreateOrderRequest) (items : List OrderItem) (item : OrderItem) (id : String)
    (p : Product) (hitems : req.orderItems = some items) (hmem : item ∈ items)
    (hfind : env.productFind = none) (hc : currentProductId item = some id)
    (hv : lib.isValid id = true) (hp : storedProduct s.products id = some p)
    (hcast : lib.cast id = id) (hq : p.stockQuantity < item.quantity) :
    (createOrder lib env s req).response.status = 400 ∧
    (∃ errors, (createOrder lib env s req).response.errors = some errors ∧
      ("Not enough stock for " ++ p.name ++ ". Available: " ++ toString p.stockQuantity ++
        ", Requested: " ++ toString item.quantity ++ ".") ∈ errors) ∧
    (createOrder lib env s req).state = s ∧
    storedProduct (createOrder lib env s req).state.products id = some p := by
  have hin := mem_productIds lib items item id hmem hc hv
  have hids : productIds lib items ≠ [] := by
    intro h0
    rw [h0] at hin
    simp at hin
  have hany : ((productIds lib items).any (fun i => decide (lib.cast i = id))) = true := by
    rw [List.any_eq_true]
    exact ⟨id, hin, by simp [hcast]⟩
  have hval : validateItem lib (Product.find lib s.products (productIds lib items)) item =
      some (stockMessage p.name p.stockQuantity item.quantity) := by
    unfold validateItem
    simp only [hc, hv, Bool.true_eq_false, if_false]
    rw [findInOrder_find, if_pos hany, hp]
    simp [hq]
  have hmsg : stockMessage p.name p.stockQuantity item.quantity ∈
      invalidItems lib (Product.find lib s.products (productIds lib items)) items := by
    rw [invalidItems_eq_filterMap]
    exact List.mem_filterMap.2 ⟨item, hmem, hval⟩
  have hinv : invalidItems lib (Product.find lib s.products (productIds lib items)) items ≠ [] :=
    List.ne_nil_of_mem hmsg
  rw [createOrder_rejected lib env s req items hitems hids hfind hinv]
  exact ⟨rfl, ⟨_, rfl, hmsg⟩, rfl, hp⟩

/-- The instance of C3 given with the claim: `Widget` has stock 5 and the order asks for
6; the response is 400, its errors list contains
`Not enough stock for Widget. Available: 5, Requested: 6.`, and the stock is still 5. -/
theorem createOrder_insufficient_stock_witness :
    (lineOf "64b7f0c2a1d3e4f5a6b7c8d9" 6 ∈ [lineOf "64b7f0c2a1d3e4f5a6b7c8d9" 6] ∧
      calmEnv.productFind = none ∧
      currentProductId (lineOf "64b7f0c2a1d3e4f5a6b7c8d9" 6) = some "64b7f0c2a1d3e4f5a6b7c8d9" ∧
      hexObjectId.isValid "64b7f0c2a1d3e4f5a6b7c8d9" = true ∧
      storedProduct (widgetStore 5).products "64b7f0c2a1d3e4f5a6b7c8d9" =
        some { _id := "64b7f0c2a1d3e4f5a6b7c8d9", name := "Widget", stockQuantity := 5 } ∧
      hexObjectId.cast "64b7f0c2a1d3e4f5a6b7c8d9" = "64b7f0c2a1d3e4f5a6b7c8d9" ∧
      (5 : Int) < (lineOf "64b7f0c2a1d3e4f5a6b7c8d9" 6).quantity) ∧
    ((createOrder hexObjectId calmEnv (widgetStore 5)
        (requestOf [lineOf "64b7f0c2a1d3e4f5a6b7c8d9" 6])).response.status = 400 ∧
      (∃ errors, (createOrder hexObjectId calmEnv (widgetStore 5)
          (requestOf [lineOf "64b7f0c2a1d3e4f5a6b7c8d9" 6])).response.errors = some errors ∧
        "Not enough stock for Widget. Available: 5, Requested: 6." ∈ errors) ∧
      (createOrder hexObjectId calmEnv (widgetStore 5)
        (requestOf [lineOf "64b7f0c2a1d3e4f5a6b7c8d9" 6])).state = widgetStore 5 ∧
      storedProduct (createOrder hexObjectId calmEnv (widgetStore 5)
        (requestOf [lineOf "64b7f0c2a1d3e4f5a6b7c8d9" 6])).state.products
          "64b7f0c2a1d3e4f5a6b7c8d9" =
        some { _id := "64b7f0c2a1d3e4f5a6b7c8d9", name := "Widget", stockQuantity := 5 }) :=
  ⟨⟨by decide, by decide, by decide, by decide, by decide, by decide, by decide⟩,
    createOrder_insufficient_stock hexObjectId calmEnv (widgetStore 5)
      (requestOf [lineOf "64b7f0c2a1d3e4f5a6b7c8d9" 6]) [lineOf "64b7f0c2a1d3e4f5a6b7c8d9" 6]
      (lineOf "64b7f0c2a1d3e4f5a6b7c8d9" 6) "64b7f0c2a1d3e4f5a6b7c8d9"
      { _id := "64b7f0c2a1d3e4f5a6b7c8d9", name := "Widget", stockQuantity := 5 }
      rfl (by decide) (by decide) (by decide) (by decide) (by decide) (by decide) (by decide)⟩

/-- C4: validation is not short-circuited. For a request whose lines include at least one
with a syntactically valid product id (so the list is non-empty), when the product query
answers, the stored ids are canonical and some line fails, the response is 400 and its
errors list is exactly the list of the failure messages of the lines, in line order:
one entry for each failing line (malformed id, product not found, quantity above the
stock) and none for a passing line. -/
theorem createOrder_errors_complete (lib : ObjectIdLib) (env : Env) (s : State)
    (req : CreateOrderRequest) (items : List OrderItem) (hitems : req.orderItems = some items)
    (hvalid : ∃ item ∈ items, extractProductId lib item ≠ none)
    (hfind : env.productFind = none) (hcanon : CanonicalIds lib s.products)
    (hfail : ∃ item ∈ items, ItemFails lib s.products item) :
    (createOrder lib env s req).response.status = 400 ∧
    (createOrder lib env s req).response.errors =
      some (items.filterMap (validateItem lib s.products)) ∧
    (∀ item, validateItem lib s.products item ≠ none ↔ ItemFails lib s.products item) := by
  obtain ⟨v, hvmem, hv⟩ := hvalid
  obtain ⟨w, hw⟩ := Option.ne_none_iff_exists'.1 hv
  have hids : productIds lib items ≠ [] := by
    have hin : w ∈ productIds lib items := List.mem_filterMap.2 ⟨v, hvmem, hw⟩
    exact List.ne_nil_of_mem hin
  obtain ⟨item, hmem, hf⟩ := hfail
  have hinv := invalidItems_ne_nil_of_fails lib
    (Product.find lib s.products (productIds lib items)) items item hmem
    (validateItem_find_of_fails lib s.products (productIds lib items) item hf)
  rw [createOrder_rejected lib env s req items hitems hids hfind hinv,
    invalidItems_find_eq lib s.products items hcanon]
  exact ⟨rfl, rfl, fun item => validateItem_ne_none_iff lib s.products item⟩

/-- An instance of C4: of four lines (2 `Widget` of 10 in stock, 5 `Gadget` of 1 in
stock, a product that is not stored, a line without product id) the last three fail, and
the errors list holds their three messages in that order. -/
theorem createOrder_errors_complete_witness :
    ((∃ item ∈ [lineOf "64b7f0c2a1d3e4f5a6b7c8d9" 2, lineOf "64b7f0c2a1d3e4f5a6b7c8e0" 5,
          lineOf "64b7f0c2a1d3e4f5a6b7c8ff" 1, lineWithoutId],
        extractProductId hexObjectId item ≠ none) ∧
      calmEnv.productFind = none ∧ CanonicalIds hexObjectId pairStore.products ∧
      (∃ item ∈ [lineOf "64b7f0c2a1d3e4f5a6b7c8d9" 2, lineOf "64b7f0c2a1d3e4f5a6b7c8e0" 5,
          lineOf "64b7f0c2a1d3e4f5a6b7c8ff" 1, lineWithoutId],
        ItemFails hexObjectId pairStore.products item)) ∧
    [lineOf "64b7f0c2a1d3e4f5a6b7c8d9" 2, lineOf "64b7f0c2a1d3e4f5a6b7c8e0" 5,
        lineOf "64b7f0c2a1d3e4f5a6b7c8ff" 1, lineWithoutId].filterMap
        (validateItem hexObjectId pairStore.products) =
      ["Not enough stock for Gadget. Available: 1, Requested: 5.",
       "Product with ID 64b7f0c2a1d3e4f5a6b7c8ff not found.",
       "Invalid product ID format for item: Unknown Product. ID: undefined"] ∧
    ((createOrder hexObjectId calmEnv pairStore
        (requestOf [lineOf "64b7f0c2a1d3e4f5a6b7c8d9" 2, lineOf "64b7f0c2a1d3e4f5a6b7c8e0" 5,
          lineOf "64b7f0c2a1d3e4f5a6b7c8ff" 1, lineWithoutId])).response.status = 400 ∧
      (createOrder hexObjectId calmEnv pairStore
        (requestOf [lineOf "64b7f0c2a1d3e4f5a6b7c8d9" 2, lineOf "64b7f0c2a1d3e4f5a6b7c8e0" 5,
          lineOf "64b7f0c2a1d3e4f5a6b7c8ff" 1, lineWithoutId])).response.errors =
        some ([lineOf "64b7f0c2a1d3e4f5a6b7c8d9" 2, lineOf "64b7f0c2a1d3e4f5a6b7c8e0" 5,
          lineOf "64b7f0c2a1d3e4f5a6b7c8ff" 1, lineWithoutId].filterMap
            (validateItem hexObjectId pairStore.products)) ∧
      (∀ item, validateItem hexObjectId pairStore.products item ≠ none ↔
        ItemFails hexObjectId pairStore.products item)) :=
  have hvalid : ∃ item ∈ [lineOf "64b7f0c2a1d3e4f5a6b7c8d9" 2,
      lineOf "64b7f0c2a1d3e4f5a6b7c8e0" 5, lineOf "64b7f0c2a1d3e4f5a6b7c8ff" 1, lineWithoutId],
      extractProductId hexObjectId item ≠ none :=
    ⟨lineOf "64b7f0c2a1d3e4f5a6b7c8d9" 2, by simp, by decide⟩
  have hcanon : CanonicalIds hexObjectId pairStore.products := by
    unfold CanonicalIds
    decide
  have hfail : ∃ item ∈ [lineOf "64b7f0c2a1d3e4f5a6b7c8d9" 2,
      lineOf "64b7f0c2a1d3e4f5a6b7c8e0" 5, lineOf "64b7f0c2a1d3e4f5a6b7c8ff" 1, lineWithoutId],
      ItemFails hexObjectId pairStore.products item :=
    ⟨lineWithoutId, by simp, Or.inl (fun id h => by simp [currentProductId, lineWithoutId] at h)⟩
  ⟨⟨hvalid, rfl, hcanon, hfail⟩, by decide,
    createOrder_errors_complete hexObjectId calmEnv pairStore
      (requestOf [lineOf "64b7f0c2a1d3e4f5a6b7c8d9" 2, lineOf "64b7f0c2a1d3e4f5a6b7c8e0" 5,
        lineOf "64b7f0c2a1d3e4f5a6b7c8ff" 1, lineWithoutId])
      [lineOf "64b7f0c2a1d3e4f5a6b7c8d9" 2, lineOf "64b7f0c2a1d3e4f5a6b7c8e0" 5,
        lineOf "64b7f0c2a1d3e4f5a6b7c8ff" 1, lineWithoutId] rfl hvalid rfl hcanon hfail⟩

theorem createOrder_no_items (lib : ObjectIdLib) (env : Env) (s : State)
    (req : CreateOrderRequest) (h : req.orderItems = none ∨ req.orderItems = some []) :
    (createOrder lib env s req).response.status = 400 ∧ (createOrder lib env s req).state = s := by
  unfold createOrder
  rcases h with h | h <;> simp [h]

theorem createOrder_status_of_invalid (lib : ObjectIdLib) (env : Env) (s : State)
    (req : CreateOrderRequest) (items : List OrderItem) (hitems : req.orderItems = some items)
    (hfind : env.productFind = none)
    (hinv : invalidItems lib (Product.find lib s.products (productIds lib items)) items ≠ []) :
    (createOrder lib env s req).response.status = 400 := by
  have h3 : (invalidItems lib (Product.find lib s.products (productIds lib items)) items).length
      > 0 := List.length_pos.2 hinv
  unfold createOrder
  simp only [hitems, hfind]
  by_cases h1 : items.length = 0
  · simp [h1]
  · by_cases h2 : (productIds lib items).length = 0
    · simp [h1, h2]
    · simp [h1, h2, h3]

/-- C5 as stated fails in both directions. First, a non-empty list whose only line
resolves, by the product query, to the stored `Widget` (the id is the upper-case spelling
of its `_id`) with 1 unit asked of the 5 in stock, and no store operation failing, is not
accepted: the response is 400 with `Product with ID 64B7F0C2A1D3E4F5A6B7C8D9 not found.`
and nothing is persisted. Second, a list with a line naming a product that is not stored
is answered with 500, not 400, when the product query itself rejects. -/
theorem createOrder_resolved_rejected_or_500 :
    (QueryResolvesInStock hexObjectId (widgetStore 5).products
        (lineOf "64B7F0C2A1D3E4F5A6B7C8D9" 1) ∧
      (calmEnv.productFind = none ∧ calmEnv.counterUpdate = none ∧ calmEnv.orderSave = none ∧
        calmEnv.stockUpdate = none) ∧
      createOrder hexObjectId calmEnv (widgetStore 5)
          (requestOf [lineOf "64B7F0C2A1D3E4F5A6B7C8D9" 1]) =
        { state := widgetStore 5, mails := [],
          response :=
            { status := 400, message := "Order validation failed:",
              errors := some ["Product with ID 64B7F0C2A1D3E4F5A6B7C8D9 not found."],
              order := none } }) ∧
    (UnknownProduct hexObjectId (widgetStore 5).products
        (lineOf "64b7f0c2a1d3e4f5a6b7c8ff" 1) ∧
      createOrder hexObjectId { calmEnv with productFind := some .other } (widgetStore 5)
          (requestOf [lineOf "64b7f0c2a1d3e4f5a6b7c8ff" 1]) =
        { state := widgetStore 5, mails := [],
          response :=
            { status := 500, message := "An internal server error occurred", errors := none,
              order := none } }) :=
  ⟨⟨⟨"64B7F0C2A1D3E4F5A6B7C8D9",
        { _id := "64b7f0c2a1d3e4f5a6b7c8d9", name := "Widget", stockQuantity := 5 },
        by decide, by decide, by decide, by decide, by decide⟩,
      ⟨rfl, rfl, rfl, rfl⟩, by decide⟩,
    ⟨"64b7f0c2a1d3e4f5a6b7c8ff", by decide, by decide, by decide⟩, by decide⟩

/-- C5 as amended: `createOrder` responds 400 and leaves the state as it was when the
item list is missing or empty. When some line has a product reference that cannot be
resolved (malformed id, or a valid id that is the string form of no stored `_id`) the
state is left as it was and the response is not 201 and carries no order; it is 400
whenever the product query itself answers. Conversely, when no store operation fails,
the stored ids are canonical, the list is non-empty and the id of every line is valid
and is the string form of the `_id` of a stored product with at least the requested
stock, the response is 201 and carries the order that has been added to the store. -/
theorem createOrder_accepts_iff_valid (lib : ObjectIdLib) (env : Env) (s : State)
    (req : CreateOrderRequest) :
    ((req.orderItems = none ∨ req.orderItems = some []) →
      (createOrder lib env s req).response.status = 400 ∧
      (createOrder lib env s req).state = s) ∧
    (∀ items, req.orderItems = some items →
      (∃ item ∈ items, MalformedId lib item ∨ UnknownProduct lib s.products item) →
      (createOrder lib env s req).state = s ∧
      (createOrder lib env s req).response.status ≠ 201 ∧
      (createOrder lib env s req).response.order = none ∧
      (env.productFind = none → (createOrder lib env s req).response.status = 400)) ∧
    (∀ items, req.orderItems = some items → items ≠ [] →
      (∀ item ∈ items, ItemInStock lib s.products item) →
      CanonicalIds lib s.products →
      env.productFind = none → env.counterUpdate = none → env.orderSave = none →
      env.stockUpdate = none →
      (createOrder lib env s req).response.status = 201 ∧
      ∃ o, (createOrder lib env s req).response.order = some o ∧
        (createOrder lib env s req).state.orders = s.orders ++ [o]) := by
  refine ⟨createOrder_no_items lib env s req, ?_, ?_⟩
  · intro items hitems hbad
    obtain ⟨item, hmem, hf⟩ := hbad
    have hfails : ItemFails lib s.products item := by
      rcases hf with h | h
      · exact Or.inl h
      · exact Or.inr (Or.inl h)
    have hinv := invalidItems_ne_nil_of_fails lib
      (Product.find lib s.products (productIds lib items)) items item hmem
      (validateItem_find_of_fails lib s.products (productIds lib items) item hfails)
    obtain ⟨h1, h2, h3⟩ := createOrder_state_of_invalid lib env s req items hitems hinv
    exact ⟨h1, h2, h3, fun hfind =>
      createOrder_status_of_invalid lib env s req items hitems hfind hinv⟩
  · intro items hitems hne hall hcanon hfind hcounter hsave hstock
    obtain ⟨hresp, horders⟩ :=
      createOrder_accepted lib env s req items hitems hne hall hcanon hfind hcounter hsave hstock
    rw [hresp]
    exact ⟨rfl, _, rfl, horders⟩

/-- Instances of amended C5: an empty list is answered with 400; a line naming a product that is
not stored is answered with 400 and changes nothing; a line for 3 of the 5 `Widget` in
stock is answered with 201. -/
theorem createOrder_accepts_iff_valid_witness :
    (createOrder hexObjectId calmEnv (widgetStore 5) (requestOf [])).response.status = 400 ∧
    ((createOrder hexObjectId calmEnv (widgetStore 5)
        (requestOf [lineOf "64b7f0c2a1d3e4f5a6b7c8ff" 1])).state = widgetStore 5 ∧
      (createOrder hexObjectId calmEnv (widgetStore 5)
        (requestOf [lineOf "64b7f0c2a1d3e4f5a6b7c8ff" 1])).response.status = 400) ∧
    (createOrder hexObjectId calmEnv (widgetStore 5)
      (requestOf [lineOf "64b7f0c2a1d3e4f5a6b7c8d9" 3])).response.status = 201 :=
  ⟨((createOrder_accepts_iff_valid hexObjectId calmEnv (widgetStore 5) (requestOf [])).1
      (Or.inr rfl)).1,
    have h := (createOrder_accepts_iff_valid hexObjectId calmEnv (widgetStore 5)
      (requestOf [lineOf "64b7f0c2a1d3e4f5a6b7c8ff" 1])).2.1
      [lineOf "64b7f0c2a1d3e4f5a6b7c8ff" 1] rfl
      ⟨lineOf "64b7f0c2a1d3e4f5a6b7c8ff" 1, by simp,
        Or.inr ⟨"64b7f0c2a1d3e4f5a6b7c8ff", by decide, by decide, by decide⟩⟩
    ⟨h.1, h.2.2.2 rfl⟩,
    ((createOrder_accepts_iff_valid hexObjectId calmEnv (widgetStore 5)
      (requestOf [lineOf "64b7f0c2a1d3e4f5a6b7c8d9" 3])).2.2
      [lineOf "64b7f0c2a1d3e4f5a6b7c8d9" 3] rfl (by simp)
      (fun item hmem => by
        rw [List.mem_singleton] at hmem
        subst hmem
        exact ⟨"64b7f0c2a1d3e4f5a6b7c8d9",
          { _id := "64b7f0c2a1d3e4f5a6b7c8d9", name := "Widget", stockQuantity := 5 },
          by decide, by decide, by decide, by decide⟩)
      (by unfold CanonicalIds; decide) rfl rfl rfl rfl).1⟩

/-! ## Uniqueness of order numbers -/

theorem orderSeq_next (s : State) :
    (seqOf "orderId" (getNextSequenceValue "orderId" s.counters).1).getD 0 = orderSeq s + 1 := by
  rw [getNextSequenceValue_stored, getNextSequenceValue_value]
  rfl

theorem numberedBelow_step (lib : ObjectIdLib) (env : Env) (s : State)
    (req : CreateOrderRequest) (h : NumberedBelow s) :
    NumberedBelow (createOrder lib env s req).state ∧
      orderSeq s ≤ orderSeq (createOrder lib env s req).state := by
  obtain ⟨ks, hmap, hnodup, hle⟩ := h
  rcases createOrder_orders_counters lib env s req with ⟨ho, hc⟩ | ⟨o, ho, hnum, hc⟩
  · have hseq : orderSeq s ≤ orderSeq (createOrder lib env s req).state := by
      rcases hc with hc | hc
      · unfold orderSeq
        rw [hc]
      · unfold orderSeq
        rw [hc, orderSeq_next]
        unfold orderSeq
        omega
    refine ⟨⟨ks, ?_, hnodup, fun k hk => Nat.le_trans (hle k hk) hseq⟩, hseq⟩
    rw [ho]
    exact hmap
  · have hseq : orderSeq (createOrder lib env s req).state = orderSeq s + 1 := by
      unfold orderSeq
      rw [hc, orderSeq_next]
      rfl
    refine ⟨⟨ks ++ [orderSeq s + 1], ?_, ?_, ?_⟩, by omega⟩
    · rw [ho, List.map_append, List.map_append, hmap]
      simp only [List.map_cons, List.map_nil, hnum, getNextSequenceValue_value]
      rfl
    · rw [List.nodup_append]
      refine ⟨hnodup, List.nodup_singleton _, ?_⟩
      intro a ha hb
      rw [List.mem_singleton] at hb
      have := hle a ha
      omega
    · intro k hk
      rw [List.mem_append, List.mem_singleton] at hk
      rcases hk with hk | hk
      · have := hle k hk
        omega
      · omega

theorem numberedBelow_of_reachable (lib : ObjectIdLib) (s : State) (h : Reachable lib s) :
    NumberedBelow s := by
  induction h with
  | init products counters => exact ⟨[], rfl, List.nodup_nil, by simp⟩
  | step s env req _ ih => exact (numberedBelow_step lib env s req ih).1

/-- C10: in every state reachable by a sequence of `createOrder` calls in which the
`orderId` counter is below `10^9`, any two distinct persisted orders have different
order numbers. -/
theorem orderNumber_unique (lib : ObjectIdLib) (s : State) (hreach : Reachable lib s)
    (hbound : orderSeq s < 10 ^ 9) :
    s.orders.Pairwise (fun o1 o2 => o1.orderNumber ≠ o2.orderNumber) := by
  obtain ⟨ks, hmap, hnodup, hle⟩ := numberedBelow_of_reachable lib s hreach
  have hnd : (ks.map formatOrderNumber).Nodup := by
    apply List.Nodup.map_on _ hnodup
    intro a ha b hb hab
    exact formatOrderNumber_injective_below a b
      (Nat.lt_of_le_of_lt (hle a ha) hbound) (Nat.lt_of_le_of_lt (hle b hb) hbound) hab
  rw [← hmap] at hnd
  exact (List.pairwise_map.1 hnd)

/-- An instance of C10: after two accepted orders on a fresh store the counter is 2 and
the two orders carry the numbers `MGV000000001` and `MGV000000002`. -/
theorem orderNumber_unique_witness :
    Reachable hexObjectId
      (createOrder hexObjectId calmEnv
        (createOrder hexObjectId calmEnv (widgetStore 5)
          (requestOf [lineOf "64b7f0c2a1d3e4f5a6b7c8d9" 1])).state
        (requestOf [lineOf "64b7f0c2a1d3e4f5a6b7c8d9" 2])).state ∧
    orderSeq (createOrder hexObjectId calmEnv
        (createOrder hexObjectId calmEnv (widgetStore 5)
          (requestOf [lineOf "64b7f0c2a1d3e4f5a6b7c8d9" 1])).state
        (requestOf [lineOf "64b7f0c2a1d3e4f5a6b7c8d9" 2])).state < 10 ^ 9 ∧
    (createOrder hexObjectId calmEnv
        (createOrder hexObjectId calmEnv (widgetStore 5)
          (requestOf [lineOf "64b7f0c2a1d3e4f5a6b7c8d9" 1])).state
        (requestOf [lineOf "64b7f0c2a1d3e4f5a6b7c8d9" 2])).state.orders.map
          (fun o => o.orderNumber) = ["MGV000000001", "MGV000000002"] ∧
    (createOrder hexObjectId calmEnv
        (createOrder hexObjectId calmEnv (widgetStore 5)
          (requestOf [lineOf "64b7f0c2a1d3e4f5a6b7c8d9" 1])).state
        (requestOf [lineOf "64b7f0c2a1d3e4f5a6b7c8d9" 2])).state.orders.Pairwise
          (fun o1 o2 => o1.orderNumber ≠ o2.orderNumber) :=
  have hreach : Reachable hexObjectId
      (createOrder hexObjectId calmEnv
        (createOrder hexObjectId calmEnv (widgetStore 5)
          (requestOf [lineOf "64b7f0c2a1d3e4f5a6b7c8d9" 1])).state
        (requestOf [lineOf "64b7f0c2a1d3e4f5a6b7c8d9" 2])).state :=
    Reachable.step _ _ _ (Reachable.step _ _ _ (Reachable.init _ _))
  ⟨hreach, by decide, by decide, orderNumber_unique hexObjectId _ hreach (by decide)⟩

/-! ## Payment state of a created order -/

theorem catchResponse_status_ne_created (e : StoreError) : (catchResponse e).status ≠ 201 := by
  cases e <;> simp [catchResponse]

theorem createOrder_created (lib : ObjectIdLib) (env : Env) (s : State)
    (req : CreateOrderRequest) (h : (createOrder lib env s req).response.status = 201) :
    ∃ (orderNumber : String) (items : List FinalOrderItem),
      (createOrder lib env s req).response.order = some (newOrder env req orderNumber items) ∧
      (createOrder lib env s req).state.orders =
        s.orders ++ [newOrder env req orderNumber items] := by
  unfold createOrder at h ⊢
  cases hitems : req.orderItems with
  | none => simp [hitems] at h
  | some items =>
    simp only [hitems] at h ⊢
    by_cases h1 : items.length = 0
    · simp [h1] at h
    · by_cases h2 : (productIds lib items).length = 0
      · simp [h1, h2] at h
      · cases hf : env.productFind with
        | some e =>
          simp only [h1, h2, hf, if_false] at h
          exact absurd h (catchResponse_status_ne_created e)
        | none =>
          by_cases h3 : (invalidItems lib (Product.find lib s.products (productIds lib items))
              items).length > 0
          · simp [h1, h2, hf, h3] at h
          · by_cases h4 : (finalOrderItems lib items).length = 0
            · simp [h1, h2, hf, h3, h4] at h
            · cases hc : env.counterUpdate with
              | some e =>
                simp only [h1, h2, hf, h3, h4, hc, if_false] at h
                exact absurd h (catchResponse_status_ne_created e)
              | none =>
                cases hs : env.orderSave with
                | some e =>
                  simp only [h1, h2, hf, h3, h4, hc, hs, if_false] at h
                  exact absurd h (catchResponse_status_ne_created e)
                | none =>
                  simp only [h1, h2, hf, h3, h4, hc, hs, if_false] at h ⊢
                  cases hu : (decrementStock lib env.stockUpdate
                      (Product.find lib s.products (productIds lib items)) 0
                      (finalOrderItems lib items) s.products).2 with
                  | some e =>
                    simp only [hu] at h
                    exact absurd h (catchResponse_status_ne_created e)
                  | none =>
                    simp only [hu]
                    exact ⟨_, _, rfl, rfl⟩

/-- C11: whenever `createOrder` answers 201, the order it returns is the one it has
added to the store, and that order has `isPaid = true` and status `Processing` when the
request's payment method is `Credit/Debit Card`, and `isPaid = false` and status
`Pending` for every other payment method. -/
theorem createOrder_payment_state (lib : ObjectIdLib) (env : Env) (s : State)
    (req : CreateOrderRequest) (h : (createOrder lib env s req).response.status = 201) :
    ∃ o : Order, (createOrder lib env s req).response.order = some o ∧
      (createOrder lib env s req).state.orders = s.orders ++ [o] ∧
      (req.paymentMethod = "Credit/Debit Card" → o.isPaid = true ∧ o.status = "Processing") ∧
      (req.paymentMethod ≠ "Credit/Debit Card" → o.isPaid = false ∧ o.status = "Pending") := by
  obtain ⟨num, items, hresp, hstate⟩ := createOrder_created lib env s req h
  refine ⟨newOrder env req num items, hresp, hstate, ?_, ?_⟩
  · intro hcard
    simp [newOrder, hcard]
  · intro hother
    simp [newOrder, hother]

/-- Two instances of C11 on a store with 5 `Widget`: an order paid by card is returned
paid and `Processing`, an order paid on delivery is returned unpaid and `Pending`. -/
theorem createOrder_payment_state_witness :
    ((createOrder hexObjectId calmEnv (widgetStore 5)
        (requestPaidBy "Credit/Debit Card" [lineOf "64b7f0c2a1d3e4f5a6b7c8d9" 1])).response.status
        = 201 ∧
      (createOrder hexObjectId calmEnv (widgetStore 5)
        (requestPaidBy "Credit/Debit Card"
          [lineOf "64b7f0c2a1d3e4f5a6b7c8d9" 1])).response.order.map
          (fun o => (o.isPaid, o.status)) = some (true, "Processing")) ∧
    ((createOrder hexObjectId calmEnv (widgetStore 5)
        (requestPaidBy "Cash on Delivery" [lineOf "64b7f0c2a1d3e4f5a6b7c8d9" 1])).response.status
        = 201 ∧
      (createOrder hexObjectId calmEnv (widgetStore 5)
        (requestPaidBy "Cash on Delivery"
          [lineOf "64b7f0c2a1d3e4f5a6b7c8d9" 1])).response.order.map
          (fun o => (o.isPaid, o.status)) = some (false, "Pending")) :=
  have hcard : (createOrder hexObjectId calmEnv (widgetStore 5)
      (requestPaidBy "Credit/Debit Card" [lineOf "64b7f0c2a1d3e4f5a6b7c8d9" 1])).response.status
      = 201 := by decide
  have hcash : (createOrder hexObjectId calmEnv (widgetStore 5)
      (requestPaidBy "Cash on Delivery" [lineOf "64b7f0c2a1d3e4f5a6b7c8d9" 1])).response.status
      = 201 := by decide
  ⟨⟨hcard, by
      obtain ⟨o, ho, _, hc, _⟩ := createOrder_payment_state hexObjectId calmEnv (widgetStore 5)
        (requestPaidBy "Credit/Debit Card" [lineOf "64b7f0c2a1d3e4f5a6b7c8d9" 1]) hcard
      rw [ho]
      simp [(hc rfl).1, (hc rfl).2]⟩,
    ⟨hcash, by
      obtain ⟨o, ho, _, _, hn⟩ := createOrder_payment_state hexObjectId calmEnv (widgetStore 5)
        (requestPaidBy "Cash on Delivery" [lineOf "64b7f0c2a1d3e4f5a6b7c8d9" 1]) hcash
      rw [ho]
      simp [(hn (by decide)).1, (hn (by decide)).2]⟩⟩

/-! ## Status handlers: stored documents -/

theorem findById_mem {lib : ObjectIdLib} {orders : List Order} {id : String} {o : Order}
    (h : Order.findById lib orders id = some o) : o ∈ orders ∧ o._id = lib.cast id := by
  unfold Order.findById at h
  refine ⟨List.mem_of_find?_eq_some h, ?_⟩
  have := List.find?_some h
  simpa using this

theorem findById_saveOrder (lib : ObjectIdLib) (id : String) (updated : Order) :
    ∀ (orders : List Order) (o : Order), Order.findById lib orders id = some o →
      updated._id = lib.cast id →
      Order.findById lib (saveOrder updated orders) id = some updated := by
  intro orders
  induction orders with
  | nil => intro o h; simp [Order.findById] at h
  | cons x xs ih =>
    intro o h hid
    unfold Order.findById at h ih ⊢
    by_cases hx : x._id = lib.cast id
    · simp [saveOrder, hx, hid]
    · have hx2 : ¬ x._id = updated._id := by rw [hid]; exact hx
      simp only [List.find?_cons, hx, decide_False] at h
      simp only [saveOrder, hx2, if_false, List.find?_cons, hx, decide_False]
      exact ih o h hid

theorem saveOrder_forall2 (lib : ObjectIdLib) (id : String) (updated : Order)
    (R : Order → Order → Prop) (hrefl : ∀ x, R x x) :
    ∀ (orders : List Order) (o : Order), Order.findById lib orders id = some o →
      updated._id = lib.cast id → R o updated →
      List.Forall₂ R orders (saveOrder updated orders) := by
  intro orders
  induction orders with
  | nil => intro o h; simp [Order.findById] at h
  | cons x xs ih =>
    intro o h hid hR
    unfold Order.findById at h ih
    by_cases hx : x._id = lib.cast id
    · simp only [List.find?_cons, hx, decide_True, Option.some.injEq] at h
      subst h
      have hx2 : x._id = updated._id := by rw [hid]; exact hx
      simp only [saveOrder, hx2, if_true]
      exact List.Forall₂.cons hR (List.forall₂_same.2 (fun y _ => hrefl y))
    · have hx2 : ¬ x._id = updated._id := by rw [hid]; exact hx
      simp only [List.find?_cons, hx, decide_False] at h
      simp only [saveOrder, hx2, if_false]
      exact List.Forall₂.cons (hrefl x) (ih o h hid hR)

theorem mem_saveOrder (updated : Order) : ∀ (orders : List Order) (x : Order),
    x ∈ saveOrder updated orders → x = updated ∨ x ∈ orders := by
  intro orders
  induction orders with
  | nil => intro x h; simp [saveOrder] at h
  | cons y ys ih =>
    intro x h
    by_cases hy : y._id = updated._id
    · simp only [saveOrder, hy, if_true, List.mem_cons] at h
      rcases h with h | h
      · exact Or.inl h
      · exact Or.inr (List.mem_cons_of_mem _ h)
    · simp only [saveOrder, hy, if_false, List.mem_cons] at h
      rcases h with h | h
      · exact Or.inr (by rw [h]; exact List.mem_cons_self _ _)
      · rcases ih x h with h2 | h2
        · exact Or.inl h2
        · exact Or.inr (List.mem_cons_of_mem _ h2)

theorem forceDelivered_id (now : Nat) (o : Order) : (forceDelivered now o)._id = o._id := rfl

theorem applyStatus_id (now : Nat) (status : String) (o : Order) :
    (applyStatus now status o)._id = o._id := by
  unfold applyStatus
  simp only
  split_ifs <;> rfl

theorem applyStatus_status (now : Nat) (status : String) (o : Order) :
    (applyStatus now status o).status = status := by
  unfold applyStatus
  simp only
  split_ifs <;> rfl

/-! ## Status handlers: outcomes -/

theorem updateOrderToDelivered_ok (lib : ObjectIdLib) (env : StatusEnv) (s : State)
    (id : String) (o : Order) (hfind : env.findFails = false) (hsave : env.saveFails = false)
    (ho : Order.findById lib s.orders id = some o) :
    (updateOrderToDelivered lib env s id).response =
      { status := 200, message := "Order delivered successfully!", errors := none,
        order := some (forceDelivered env.now o) } ∧
    (updateOrderToDelivered lib env s id).state =
      { s with orders := saveOrder (forceDelivered env.now o) s.orders } ∧
    Order.findById lib (updateOrderToDelivered lib env s id).state.orders id =
      some (forceDelivered env.now o) := by
  have hid : (forceDelivered env.now o)._id = lib.cast id := (findById_mem ho).2
  have hfound := findById_saveOrder lib id (forceDelivered env.now o) s.orders o ho hid
  unfold updateOrderToDelivered
  simp only [hfind, hsave, ho, Bool.false_eq_true, if_false]
  exact ⟨trivial, trivial, hfound⟩

theorem updateOrderStatus_ok (lib : ObjectIdLib) (env : StatusEnv) (s : State)
    (id : String) (status : String) (o : Order) (hvalid : status ∈ validStatuses)
    (hfind : env.findFails = false) (hsave : env.saveFails = false)
    (ho : Order.findById lib s.orders id = some o) :
    (updateOrderStatus lib env s id (some status)).response =
      { status := 200, message := "Order status updated to " ++ status ++ "!", errors := none,
        order := some (applyStatus env.now status o) } ∧
    (updateOrderStatus lib env s id (some status)).state =
      { s with orders := saveOrder (applyStatus env.now status o) s.orders } ∧
    Order.findById lib (updateOrderStatus lib env s id (some status)).state.orders id =
      some (applyStatus env.now status o) := by
  have hid : (applyStatus env.now status o)._id = lib.cast id := by
    rw [applyStatus_id]
    exact (findById_mem ho).2
  have hfound := findById_saveOrder lib id (applyStatus env.now status o) s.orders o ho hid
  have hne : status ≠ "" := by
    intro h
    subst h
    simp [validStatuses] at hvalid
  unfold updateOrderStatus
  simp only [hne, hvalid, hfind, hsave, ho, not_true_eq_false, or_self, Bool.false_eq_true,
    if_false]
  exact ⟨trivial, trivial, hfound⟩

theorem updateOrderStatus_invalid (lib : ObjectIdLib) (env : StatusEnv) (s : State)
    (id : String) (status : Option String)
    (h : ¬ ∃ v, v ∈ validStatuses ∧ status = some v) :
    (updateOrderStatus lib env s id status).response =
      { status := 400, message := "Invalid status provided.", errors := none, order := none } ∧
    (updateOrderStatus lib env s id status).state = s := by
  unfold updateOrderStatus
  cases status with
  | none => exact ⟨rfl, rfl⟩
  | some v =>
    have hv : ¬ v ∈ validStatuses := fun hv => h ⟨v, hv, rfl⟩
    simp [hv]

theorem updateOrderToDelivered_frame (lib : ObjectIdLib) (env : StatusEnv) (s : State)
    (id : String) :
    (updateOrderToDelivered lib env s id).state = s ∨
    ∃ o, Order.findById lib s.orders id = some o ∧
      (updateOrderToDelivered lib env s id).state =
        { s with orders := saveOrder (forceDelivered env.now o) s.orders } := by
  unfold updateOrderToDelivered
  cases hf : env.findFails with
  | true => simp
  | false =>
    cases ho : Order.findById lib s.orders id with
    | none => simp
    | some o =>
      cases hs : env.saveFails with
      | true => simp
      | false => simp

theorem updateOrderStatus_frame (lib : ObjectIdLib) (env : StatusEnv) (s : State)
    (id : String) (status : Option String) :
    (updateOrderStatus lib env s id status).state = s ∨
    ∃ o v, Order.findById lib s.orders id = some o ∧
      (updateOrderStatus lib env s id status).state =
        { s with orders := saveOrder (applyStatus env.now v o) s.orders } := by
  unfold updateOrderStatus
  cases status with
  | none => simp
  | some v =>
    by_cases hv : v = "" ∨ ¬ v ∈ validStatuses
    · simp [hv]
    · cases hf : env.findFails with
      | true => simp [hv]
      | false =>
        cases ho : Order.findById lib s.orders id with
        | none => simp [hv]
        | some o =>
          cases hs : env.saveFails with
          | true => simp [hv]
          | false =>
            right
            simp only [hv, Bool.false_eq_true, if_false]
            exact ⟨o, v, rfl, rfl⟩

/-! ## Status and delivery fields -/

theorem freshlyCreated_consistent (o : Order) (h : FreshlyCreated o) : DeliveryConsistent o := by
  obtain ⟨hd, ha, hs⟩ := h
  unfold DeliveryConsistent
  rcases hs with hs | hs <;> simp [hd, ha, hs]

theorem forceDelivered_consistent (now : Nat) (o : Order) :
    DeliveryConsistent (forceDelivered now o) := by
  simp [DeliveryConsistent, forceDelivered]

theorem applyStatus_consistent (now : Nat) (status : String) (o : Order)
    (h : DeliveryConsistent o) : DeliveryConsistent (applyStatus now status o) := by
  obtain ⟨_, h2⟩ := h
  unfold DeliveryConsistent applyStatus
  by_cases hs : status = "Delivered"
  · cases hd : o.isDelivered with
    | false => simp [hs, hd]
    | true =>
      have := h2.1 hd
      simp [hs, hd, this]
  · cases hd : o.isDelivered with
    | false =>
      have hnone : o.deliveredAt.isSome = false := by
        cases hsome : o.deliveredAt.isSome with
        | false => rfl
        | true => exact absurd (h2.2 hsome) (by simp [hd])
      simp [hs, hd, hnone]
    | true => simp [hs, hd]

theorem stepStatusCall_consistent (lib : ObjectIdLib) (s : State) (c : StatusCall)
    (h : ∀ o ∈ s.orders, DeliveryConsistent o) :
    ∀ o ∈ (stepStatusCall lib s c).orders, DeliveryConsistent o := by
  intro x hx
  cases c with
  | setStatus env id status =>
    simp only [stepStatusCall] at hx
    rcases updateOrderStatus_frame lib env s id status with hsame | ⟨o, v, ho, hst⟩
    · rw [hsame] at hx
      exact h x hx
    · rw [hst] at hx
      rcases mem_saveOrder _ _ x hx with hx2 | hx2
      · rw [hx2]
        exact applyStatus_consistent env.now v o (h o (findById_mem ho).1)
      · exact h x hx2
  | markDelivered env id =>
    simp only [stepStatusCall] at hx
    rcases updateOrderToDelivered_frame lib env s id with hsame | ⟨o, ho, hst⟩
    · rw [hsame] at hx
      exact h x hx
    · rw [hst] at hx
      rcases mem_saveOrder _ _ x hx with hx2 | hx2
      · rw [hx2]
        exact forceDelivered_consistent env.now o
      · exact h x hx2

theorem runStatusCalls_consistent (lib : ObjectIdLib) : ∀ (calls : List StatusCall) (s : State),
    (∀ o ∈ s.orders, DeliveryConsistent o) →
    ∀ o ∈ (runStatusCalls lib calls s).orders, DeliveryConsistent o := by
  intro calls
  induction calls with
  | nil => intro s h; exact h
  | cons c cs ih =>
    intro s h
    exact ih (stepStatusCall lib s c) (stepStatusCall_consistent lib s c h)

/-- C12: starting from a store whose orders are as `createOrder` leaves them (not
delivered, no delivery date, status `Pending` or `Processing`), after any sequence of
`updateOrderStatus` and `updateOrderToDelivered` calls, whatever the environment does in
each, every order satisfies: status is `Delivered` iff `isDelivered` is true iff
`deliveredAt` is set. -/
theorem status_delivery_consistent (lib : ObjectIdLib) (s : State) (calls : List StatusCall)
    (hfresh : ∀ o ∈ s.orders, FreshlyCreated o) :
    ∀ o ∈ (runStatusCalls lib calls s).orders,
      (o.status = "Delivered" ↔ o.isDelivered = true) ∧
      (o.isDelivered = true ↔ o.deliveredAt.isSome = true) :=
  runStatusCalls_consistent lib calls s
    (fun o ho => freshlyCreated_consistent o (hfresh o ho))

/-- An instance of C12: a pending order is marked delivered at 1000, set to `Shipped` at
2000 and set to `Delivered` at 3000; it ends delivered with delivery date 3000. -/
theorem status_delivery_consistent_witness :
    (∀ o ∈ (orderStore (sampleOrder "Pending" false none)).orders, FreshlyCreated o) ∧
    (runStatusCalls hexObjectId
        [.markDelivered (calmStatusEnv 1000) "650000000000000000000001",
         .setStatus (calmStatusEnv 2000) "650000000000000000000001" (some "Shipped"),
         .setStatus (calmStatusEnv 3000) "650000000000000000000001" (some "Delivered")]
        (orderStore (sampleOrder "Pending" false none))).orders =
      [sampleOrder "Delivered" true (some 3000)] ∧
    (∀ o ∈ (runStatusCalls hexObjectId
        [.markDelivered (calmStatusEnv 1000) "650000000000000000000001",
         .setStatus (calmStatusEnv 2000) "650000000000000000000001" (some "Shipped"),
         .setStatus (calmStatusEnv 3000) "650000000000000000000001" (some "Delivered")]
        (orderStore (sampleOrder "Pending" false none))).orders,
      (o.status = "Delivered" ↔ o.isDelivered = true) ∧
      (o.isDelivered = true ↔ o.deliveredAt.isSome = true)) :=
  have hfresh : ∀ o ∈ (orderStore (sampleOrder "Pending" false none)).orders,
      FreshlyCreated o := by
    intro o ho
    simp only [orderStore, List.mem_singleton] at ho
    subst ho
    exact ⟨rfl, rfl, Or.inl rfl⟩
  ⟨hfresh, by decide,
    status_delivery_consistent hexObjectId (orderStore (sampleOrder "Pending" false none)) _ hfresh⟩

/-- C13: for a stored order that is delivered (`isDelivered` true, whatever its status
field holds), a successful `updateOrderStatus` with one of the other four statuses leaves it with
`isDelivered = false` and no `deliveredAt`; a following successful `updateOrderStatus`
with `Delivered` at clock value `t` leaves it with `isDelivered = true` and
`deliveredAt = t`. -/
theorem updateOrderStatus_leave_and_reenter (lib : ObjectIdLib) (env1 env2 : StatusEnv)
    (s : State) (id : String) (o : Order) (status : String)
    (ho : Order.findById lib s.orders id = some o)
    (hdelivered : o.isDelivered = true)
    (hvalid : status ∈ validStatuses) (hother : status ≠ "Delivered")
    (hfind1 : env1.findFails = false) (hsave1 : env1.saveFails = false)
    (hfind2 : env2.findFails = false) (hsave2 : env2.saveFails = false) :
    ∃ o1 o2 : Order,
      Order.findById lib (updateOrderStatus lib env1 s id (some status)).state.orders id =
        some o1 ∧
      o1.status = status ∧ o1.isDelivered = false ∧ o1.deliveredAt = none ∧
      Order.findById lib
        (updateOrderStatus lib env2 (updateOrderStatus lib env1 s id (some status)).state id
          (some "Delivered")).state.orders id = some o2 ∧
      o2.status = "Delivered" ∧ o2.isDelivered = true ∧ o2.deliveredAt = some env2.now := by
  obtain ⟨_, _, h1⟩ := updateOrderStatus_ok lib env1 s id status o hvalid hfind1 hsave1 ho
  obtain ⟨_, _, h2⟩ := updateOrderStatus_ok lib env2
    (updateOrderStatus lib env1 s id (some status)).state id "Delivered"
    (applyStatus env1.now status o) (by simp [validStatuses]) hfind2 hsave2 h1
  refine ⟨_, _, h1, ?_, ?_, ?_, h2, ?_, ?_, ?_⟩ <;>
    simp [applyStatus, hother, hdelivered]

/-- An instance of C13: an order delivered at 500 is set to `Shipped` at 1000 and back to
`Delivered` at 2000. -/
theorem updateOrderStatus_leave_and_reenter_witness :
    (Order.findById hexObjectId (orderStore (sampleOrder "Delivered" true (some 500))).orders
        "650000000000000000000001" = some (sampleOrder "Delivered" true (some 500)) ∧
      "Shipped" ∈ validStatuses ∧ "Shipped" ≠ "Delivered") ∧
    ∃ o1 o2 : Order,
      Order.findById hexObjectId
        (updateOrderStatus hexObjectId (calmStatusEnv 1000)
          (orderStore (sampleOrder "Delivered" true (some 500)))
          "650000000000000000000001" (some "Shipped")).state.orders
        "650000000000000000000001" = some o1 ∧
      o1.status = "Shipped" ∧ o1.isDelivered = false ∧ o1.deliveredAt = none ∧
      Order.findById hexObjectId
        (updateOrderStatus hexObjectId (calmStatusEnv 2000)
          (updateOrderStatus hexObjectId (calmStatusEnv 1000)
            (orderStore (sampleOrder "Delivered" true (some 500)))
            "650000000000000000000001" (some "Shipped")).state
          "650000000000000000000001" (some "Delivered")).state.orders
        "650000000000000000000001" = some o2 ∧
      o2.status = "Delivered" ∧ o2.isDelivered = true ∧
      o2.deliveredAt = some (calmStatusEnv 2000).now :=
  ⟨⟨by decide, by decide, by decide⟩,
    updateOrderStatus_leave_and_reenter hexObjectId (calmStatusEnv 1000) (calmStatusEnv 2000)
      (orderStore (sampleOrder "Delivered" true (some 500))) "650000000000000000000001"
      (sampleOrder "Delivered" true (some 500)) "Shipped" (by decide) rfl (by decide)
      (by decide) rfl rfl rfl rfl⟩

/-- C14: entering `Delivered` through `updateOrderStatus` is idempotent. For a stored
order and a successful `updateOrderStatus` with `Delivered` at clock value `t`: if the
order had `isDelivered = false` it ends with `isDelivered = true` and `deliveredAt = t`;
if it had `isDelivered = true` already, `isDelivered` and `deliveredAt` keep their
values. -/
theorem updateOrderStatus_delivered_idempotent (lib : ObjectIdLib) (env : StatusEnv)
    (s : State) (id : String) (o : Order) (ho : Order.findById lib s.orders id = some o)
    (hfind : env.findFails = false) (hsave : env.saveFails = false) :
    ∃ o2 : Order,
      Order.findById lib (updateOrderStatus lib env s id (some "Delivered")).state.orders id =
        some o2 ∧
      (o.isDelivered = false → o2.isDelivered = true ∧ o2.deliveredAt = some env.now) ∧
      (o.isDelivered = true → o2.isDelivered = true ∧ o2.deliveredAt = o.deliveredAt) := by
  obtain ⟨_, _, h1⟩ := updateOrderStatus_ok lib env s id "Delivered" o
    (by simp [validStatuses]) hfind hsave ho
  refine ⟨_, h1, ?_, ?_⟩
  · intro hd
    simp [applyStatus, hd]
  · intro hd
    simp [applyStatus, hd]

/-- Two instances of C14: a pending order set to `Delivered` at 1000 gets delivery date
1000; set to `Delivered` again at 2000 it keeps delivery date 1000. -/
theorem updateOrderStatus_delivered_idempotent_witness :
    (∃ o2 : Order,
      Order.findById hexObjectId
        (updateOrderStatus hexObjectId (calmStatusEnv 1000)
          (orderStore (sampleOrder "Pending" false none)) "650000000000000000000001"
          (some "Delivered")).state.orders "650000000000000000000001" = some o2 ∧
      o2.isDelivered = true ∧ o2.deliveredAt = some 1000) ∧
    (∃ o2 : Order,
      Order.findById hexObjectId
        (updateOrderStatus hexObjectId (calmStatusEnv 2000)
          (orderStore (sampleOrder "Delivered" true (some 1000))) "650000000000000000000001"
          (some "Delivered")).state.orders "650000000000000000000001" = some o2 ∧
      o2.isDelivered = true ∧ o2.deliveredAt = some 1000) :=
  ⟨by
      obtain ⟨o2, h, hfirst, _⟩ := updateOrderStatus_delivered_idempotent hexObjectId
        (calmStatusEnv 1000) (orderStore (sampleOrder "Pending" false none))
        "650000000000000000000001" (sampleOrder "Pending" false none) (by decide) rfl rfl
      exact ⟨o2, h, hfirst rfl⟩,
    by
      obtain ⟨o2, h, _, hagain⟩ := updateOrderStatus_delivered_idempotent hexObjectId
        (calmStatusEnv 2000) (orderStore (sampleOrder "Delivered" true (some 1000)))
        "650000000000000000000001" (sampleOrder "Delivered" true (some 1000)) (by decide)
        rfl rfl
      exact ⟨o2, h, hagain rfl⟩⟩

/-- C15: for every stored order, whatever its status and delivery fields, a successful
`updateOrderToDelivered` answers 200 and leaves the order with status `Delivered`,
`isDelivered = true` and `deliveredAt` set (to the clock value of the call). -/
theorem updateOrderToDelivered_forces (lib : ObjectIdLib) (env : StatusEnv) (s : State)
    (id : String) (o : Order) (ho : Order.findById lib s.orders id = some o)
    (hfind : env.findFails = false) (hsave : env.saveFails = false) :
    (updateOrderToDelivered lib env s id).response.status = 200 ∧
    ∃ o2 : Order,
      Order.findById lib (updateOrderToDelivered lib env s id).state.orders id = some o2 ∧
      (updateOrderToDelivered lib env s id).response.order = some o2 ∧
      o2.status = "Delivered" ∧ o2.isDelivered = true ∧ o2.deliveredAt = some env.now := by
  obtain ⟨hresp, _, h1⟩ := updateOrderToDelivered_ok lib env s id o hfind hsave ho
  rw [hresp]
  exact ⟨rfl, _, h1, rfl, rfl, rfl, rfl⟩

/-- An instance of C15: a cancelled order marked delivered at 1000. -/
theorem updateOrderToDelivered_forces_witness :
    Order.findById hexObjectId (orderStore (sampleOrder "Cancelled" false none)).orders
      "650000000000000000000001" = some (sampleOrder "Cancelled" false none) ∧
    ((updateOrderToDelivered hexObjectId (calmStatusEnv 1000)
        (orderStore (sampleOrder "Cancelled" false none))
        "650000000000000000000001").response.status = 200 ∧
      ∃ o2 : Order,
        Order.findById hexObjectId
          (updateOrderToDelivered hexObjectId (calmStatusEnv 1000)
            (orderStore (sampleOrder "Cancelled" false none))
            "650000000000000000000001").state.orders "650000000000000000000001" = some o2 ∧
        (updateOrderToDelivered hexObjectId (calmStatusEnv 1000)
          (orderStore (sampleOrder "Cancelled" false none))
          "650000000000000000000001").response.order = some o2 ∧
        o2.status = "Delivered" ∧ o2.isDelivered = true ∧
        o2.deliveredAt = some (calmStatusEnv 1000).now) :=
  ⟨by decide,
    updateOrderToDelivered_forces hexObjectId (calmStatusEnv 1000)
      (orderStore (sampleOrder "Cancelled" false none)) "650000000000000000000001"
      (sampleOrder "Cancelled" false none) (by decide) rfl rfl⟩

/-- C16 as stated fails: an order marked delivered at 1000 and again at 2000 (both calls
answer 200) has delivery date 1000 after the first call and 2000 after the second. -/
theorem updateOrderToDelivered_twice_resets :
    (1000 : Nat) ≤ 2000 ∧
    (updateOrderToDelivered hexObjectId (calmStatusEnv 1000)
      (orderStore (sampleOrder "Pending" false none))
      "650000000000000000000001").response.status = 200 ∧
    (updateOrderToDelivered hexObjectId (calmStatusEnv 2000)
      (updateOrderToDelivered hexObjectId (calmStatusEnv 1000)
        (orderStore (sampleOrder "Pending" false none)) "650000000000000000000001").state
      "650000000000000000000001").response.status = 200 ∧
    (Order.findById hexObjectId
      (updateOrderToDelivered hexObjectId (calmStatusEnv 1000)
        (orderStore (sampleOrder "Pending" false none))
        "650000000000000000000001").state.orders
      "650000000000000000000001").map (fun o => o.deliveredAt) = some (some 1000) ∧
    (Order.findById hexObjectId
      (updateOrderToDelivered hexObjectId (calmStatusEnv 2000)
        (updateOrderToDelivered hexObjectId (calmStatusEnv 1000)
          (orderStore (sampleOrder "Pending" false none)) "650000000000000000000001").state
        "650000000000000000000001").state.orders
      "650000000000000000000001").map (fun o => o.deliveredAt) = some (some 2000) ∧
    (Order.findById hexObjectId
      (updateOrderToDelivered hexObjectId (calmStatusEnv 2000)
        (updateOrderToDelivered hexObjectId (calmStatusEnv 1000)
          (orderStore (sampleOrder "Pending" false none)) "650000000000000000000001").state
        "650000000000000000000001").state.orders
      "650000000000000000000001").map (fun o => o.deliveredAt) ≠
    (Order.findById hexObjectId
      (updateOrderToDelivered hexObjectId (calmStatusEnv 1000)
        (orderStore (sampleOrder "Pending" false none))
        "650000000000000000000001").state.orders
      "650000000000000000000001").map (fun o => o.deliveredAt) := by
  decide

/-- C16 as amended: after two successful `updateOrderToDelivered` calls on a stored order,
at clock values `t1` and `t2`, the order has `isDelivered = true`, status `Delivered`
and `deliveredAt = t2`, the time of the second call; the first call had set it to `t1`,
so the second call leaves `deliveredAt` unchanged exactly when `t1 = t2`. -/
theorem updateOrderToDelivered_twice (lib : ObjectIdLib) (env1 env2 : StatusEnv) (s : State)
    (id : String) (o : Order) (ho : Order.findById lib s.orders id = some o)
    (hfind1 : env1.findFails = false) (hsave1 : env1.saveFails = false)
    (hfind2 : env2.findFails = false) (hsave2 : env2.saveFails = false) :
    ∃ o1 o2 : Order,
      Order.findById lib (updateOrderToDelivered lib env1 s id).state.orders id = some o1 ∧
      o1.deliveredAt = some env1.now ∧
      Order.findById lib
        (updateOrderToDelivered lib env2 (updateOrderToDelivered lib env1 s id).state
          id).state.orders id = some o2 ∧
      o2.isDelivered = true ∧ o2.status = "Delivered" ∧ o2.deliveredAt = some env2.now ∧
      (o2.deliveredAt = o1.deliveredAt ↔ env1.now = env2.now) := by
  obtain ⟨_, _, h1⟩ := updateOrderToDelivered_ok lib env1 s id o hfind1 hsave1 ho
  obtain ⟨_, _, h2⟩ := updateOrderToDelivered_ok lib env2
    (updateOrderToDelivered lib env1 s id).state id (forceDelivered env1.now o) hfind2 hsave2 h1
  refine ⟨_, _, h1, rfl, h2, rfl, rfl, rfl, ?_⟩
  simp only [forceDelivered, Option.some.injEq]
  exact eq_comm

/-- An instance of amended C16: marked delivered at 1000 and again at 2000. -/
theorem updateOrderToDelivered_twice_witness :
    Order.findById hexObjectId (orderStore (sampleOrder "Pending" false none)).orders
      "650000000000000000000001" = some (sampleOrder "Pending" false none) ∧
    ∃ o1 o2 : Order,
      Order.findById hexObjectId
        (updateOrderToDelivered hexObjectId (calmStatusEnv 1000)
          (orderStore (sampleOrder "Pending" false none))
          "650000000000000000000001").state.orders "650000000000000000000001" = some o1 ∧
      o1.deliveredAt = some (calmStatusEnv 1000).now ∧
      Order.findById hexObjectId
        (updateOrderToDelivered hexObjectId (calmStatusEnv 2000)
          (updateOrderToDelivered hexObjectId (calmStatusEnv 1000)
            (orderStore (sampleOrder "Pending" false none)) "650000000000000000000001").state
          "650000000000000000000001").state.orders "650000000000000000000001" = some o2 ∧
      o2.isDelivered = true ∧ o2.status = "Delivered" ∧
      o2.deliveredAt = some (calmStatusEnv 2000).now ∧
      (o2.deliveredAt = o1.deliveredAt ↔ (calmStatusEnv 1000).now = (calmStatusEnv 2000).now) :=
  ⟨by decide,
    updateOrderToDelivered_twice hexObjectId (calmStatusEnv 1000) (calmStatusEnv 2000)
      (orderStore (sampleOrder "Pending" false none)) "650000000000000000000001"
      (sampleOrder "Pending" false none) (by decide) rfl rfl rfl rfl⟩

/-! ## Frame of a status change -/

theorem sameOutsideStatus_refl (o : Order) : SameOutsideStatus o o := by
  simp [SameOutsideStatus]

theorem sameOutsideStatus_forceDelivered (now : Nat) (o : Order) :
    SameOutsideStatus o (forceDelivered now o) := by
  simp [SameOutsideStatus, forceDelivered]

theorem sameOutsideStatus_applyStatus (now : Nat) (status : String) (o : Order) :
    SameOutsideStatus o (applyStatus now status o) := by
  unfold applyStatus
  simp only
  split_ifs <;> simp [SameOutsideStatus]

theorem frame_of_save (lib : ObjectIdLib) (id : String) (orders : List Order) (o updated : Order)
    (ho : Order.findById lib orders id = some o) (hid : updated._id = o._id)
    (hsame : SameOutsideStatus o updated) :
    List.Forall₂ (fun x x2 => SameOutsideStatus x x2 ∧ (x._id ≠ lib.cast id → x2 = x))
      orders (saveOrder updated orders) := by
  have hcast : o._id = lib.cast id := (findById_mem ho).2
  apply saveOrder_forall2 lib id updated _ _ orders o ho (hid.trans hcast)
  · exact ⟨hsame, fun hne => absurd hcast hne⟩
  · intro x
    exact ⟨sameOutsideStatus_refl x, fun _ => rfl⟩

theorem frame_of_same (lib : ObjectIdLib) (id : String) (orders : List Order) :
    List.Forall₂ (fun x x2 => SameOutsideStatus x x2 ∧ (x._id ≠ lib.cast id → x2 = x))
      orders orders :=
  List.forall₂_same.2 (fun x _ => ⟨sameOutsideStatus_refl x, fun _ => rfl⟩)

/-- C17: a status-change call (`updateOrderStatus` or `updateOrderToDelivered`), whatever
its arguments and whatever the environment does, leaves the products and the counters
as they were, and leaves the orders collection position by position with every field
other than `status`, `isDelivered` and `deliveredAt` unchanged (`_id`, `userId`,
`orderNumber`, `orderItems`, `shippingAddress`, `paymentMethod`, `paymentResult`, the
four price fields, `isPaid`, `paidAt`, `createdAt`); an order other than the one
addressed is unchanged altogether. -/
theorem status_change_frame (lib : ObjectIdLib) (env : StatusEnv) (s : State) (id : String)
    (status : Option String) :
    ((updateOrderStatus lib env s id status).state.products = s.products ∧
      (updateOrderStatus lib env s id status).state.counters = s.counters ∧
      List.Forall₂ (fun o o2 => SameOutsideStatus o o2 ∧ (o._id ≠ lib.cast id → o2 = o))
        s.orders (updateOrderStatus lib env s id status).state.orders) ∧
    ((updateOrderToDelivered lib env s id).state.products = s.products ∧
      (updateOrderToDelivered lib env s id).state.counters = s.counters ∧
      List.Forall₂ (fun o o2 => SameOutsideStatus o o2 ∧ (o._id ≠ lib.cast id → o2 = o))
        s.orders (updateOrderToDelivered lib env s id).state.orders) := by
  constructor
  · rcases updateOrderStatus_frame lib env s id status with hsame | ⟨o, v, ho, hst⟩
    · rw [hsame]
      exact ⟨rfl, rfl, frame_of_same lib id s.orders⟩
    · rw [hst]
      exact ⟨rfl, rfl, frame_of_save lib id s.orders o _ ho (applyStatus_id _ _ _)
        (sameOutsideStatus_applyStatus _ _ _)⟩
  · rcases updateOrderToDelivered_frame lib env s id with hsame | ⟨o, ho, hst⟩
    · rw [hsame]
      exact ⟨rfl, rfl, frame_of_same lib id s.orders⟩
    · rw [hst]
      exact ⟨rfl, rfl, frame_of_save lib id s.orders o _ ho (forceDelivered_id _ _)
        (sameOutsideStatus_forceDelivered _ _)⟩

/-! ## Accepted status values -/

theorem updateOrderStatus_status_ok_iff (lib : ObjectIdLib) (env : StatusEnv) (s : State)
    (id : String) (status : Option String) (o : Order)
    (ho : Order.findById lib s.orders id = some o)
    (hfind : env.findFails = false) (hsave : env.saveFails = false) :
    (updateOrderStatus lib env s id status).response.status = 200 ↔
      ∃ v, v ∈ validStatuses ∧ status = some v := by
  constructor
  · intro h
    by_contra hno
    rw [(updateOrderStatus_invalid lib env s id status hno).1] at h
    simp at h
  · rintro ⟨v, hv, rfl⟩
    rw [(updateOrderStatus_ok lib env s id v o hv hfind hsave ho).1]

/-- C18: for a stored order, whatever its current status, and a working store: when the
requested status is one of `Pending`, `Processing`, `Shipped`, `Delivered`, `Cancelled`,
`updateOrderStatus` answers 200 and leaves the order with that status; when the status
is missing or any other value it answers 400 and the state is unchanged; so the call
succeeds exactly for the five values. -/
theorem updateOrderStatus_any_to_any (lib : ObjectIdLib) (env : StatusEnv) (s : State)
    (id : String) (status : Option String) (o : Order)
    (ho : Order.findById lib s.orders id = some o)
    (hfind : env.findFails = false) (hsave : env.saveFails = false) :
    validStatuses = ["Pending", "Processing", "Shipped", "Delivered", "Cancelled"] ∧
    (∀ v, v ∈ validStatuses → status = some v →
      (updateOrderStatus lib env s id status).response.status = 200 ∧
      ∃ o2 : Order,
        Order.findById lib (updateOrderStatus lib env s id status).state.orders id = some o2 ∧
        o2.status = v) ∧
    ((¬ ∃ v, v ∈ validStatuses ∧ status = some v) →
      (updateOrderStatus lib env s id status).response.status = 400 ∧
      (updateOrderStatus lib env s id status).state = s) ∧
    ((updateOrderStatus lib env s id status).response.status = 200 ↔
      ∃ v, v ∈ validStatuses ∧ status = some v) := by
  refine ⟨rfl, ?_, ?_, updateOrderStatus_status_ok_iff lib env s id status o ho hfind hsave⟩
  · rintro v hv rfl
    obtain ⟨hresp, _, hfound⟩ := updateOrderStatus_ok lib env s id v o hv hfind hsave ho
    rw [hresp]
    exact ⟨rfl, _, hfound, applyStatus_status _ _ _⟩
  · intro hno
    obtain ⟨hresp, hstate⟩ := updateOrderStatus_invalid lib env s id status hno
    rw [hresp]
    exact ⟨rfl, hstate⟩

/-- Two instances of C18 on a delivered order: the backward change to `Pending` is
answered with 200 and stored; the value `Refunded` is answered with 400 and changes
nothing. -/
theorem updateOrderStatus_any_to_any_witness :
    Order.findById hexObjectId (orderStore (sampleOrder "Delivered" true (some 500))).orders
      "650000000000000000000001" = some (sampleOrder "Delivered" true (some 500)) ∧
    ((updateOrderStatus hexObjectId (calmStatusEnv 1000)
        (orderStore (sampleOrder "Delivered" true (some 500))) "650000000000000000000001"
        (some "Pending")).response.status = 200 ∧
      ∃ o2 : Order,
        Order.findById hexObjectId
          (updateOrderStatus hexObjectId (calmStatusEnv 1000)
            (orderStore (sampleOrder "Delivered" true (some 500))) "650000000000000000000001"
            (some "Pending")).state.orders "650000000000000000000001" = some o2 ∧
        o2.status = "Pending") ∧
    ((updateOrderStatus hexObjectId (calmStatusEnv 1000)
        (orderStore (sampleOrder "Delivered" true (some 500))) "650000000000000000000001"
        (some "Refunded")).response.status = 400 ∧
      (updateOrderStatus hexObjectId (calmStatusEnv 1000)
        (orderStore (sampleOrder "Delivered" true (some 500))) "650000000000000000000001"
        (some "Refunded")).state = orderStore (sampleOrder "Delivered" true (some 500))) :=
  ⟨by decide,
    (updateOrderStatus_any_to_any hexObjectId (calmStatusEnv 1000)
      (orderStore (sampleOrder "Delivered" true (some 500))) "650000000000000000000001"
      (some "Pending") (sampleOrder "Delivered" true (some 500)) (by decide) rfl rfl).2.1
      "Pending" (by decide) rfl,
    (updateOrderStatus_any_to_any hexObjectId (calmStatusEnv 1000)
      (orderStore (sampleOrder "Delivered" true (some 500))) "650000000000000000000001"
      (some "Refunded") (sampleOrder "Delivered" true (some 500)) (by decide) rfl rfl).2.2.1
      (by
        rintro ⟨v, hv, hs⟩
        simp only [Option.some.injEq] at hs
        subst hs
        revert hv
        decide)⟩

/-! ## Reading one order -/

theorem getOrderById_authorized (lib : ObjectIdLib) (users : List User) (orders : List Order)
    (caller : Caller) (id : String) (o : Order) (owner : User)
    (ho : Order.findById lib orders id = some o) (hu : populateUser users o = some owner) :
    ((caller._id = o.userId ∨ caller.isAdmin = true) →
      getOrderById lib false users orders caller id = .ok o owner) ∧
    (¬ (caller._id = o.userId ∨ caller.isAdmin = true) →
      getOrderById lib false users orders caller id =
        .error 403 "Not authorized to view this order") := by
  have hid : owner._id = o.userId := by
    unfold populateUser at hu
    have := List.find?_some hu
    simpa using this
  unfold getOrderById
  simp only [ho, hu, Bool.false_eq_true, if_false, hid]
  constructor
  · intro h
    rcases h with h | h
    · simp [h]
    · simp [h]
  · intro h
    rw [not_or] at h
    have h1 : o.userId ≠ caller._id := fun e => h.1 e.symm
    have h2 : caller.isAdmin = false := by simpa using h.2
    simp [h1, h2]

/-- C19 (the code departs from it): an order is stored whose owner is no longer among the
users (the account was deleted). An administrator asking for it by id is answered with
500 and the message of the `catch` block, not with the order; with the owner still
stored the same call is answered with the order. -/
theorem getOrderById_orphaned_order :
    Order.findById hexObjectId [sampleOrder "Pending" false none] "650000000000000000000001" =
      some (sampleOrder "Pending" false none) ∧
    adminCaller.isAdmin = true ∧
    getOrderById hexObjectId false [] [sampleOrder "Pending" false none] adminCaller
      "650000000000000000000001" = .error 500 "Failed to fetch order" ∧
    getOrderById hexObjectId false [sampleOwner] [sampleOrder "Pending" false none] adminCaller
      "650000000000000000000001" = .ok (sampleOrder "Pending" false none) sampleOwner := by
  decide

/-! ## Public status lookup -/

theorem differOnlyPrivate_public {o o2 : Order} (h : DifferOnlyPrivate o o2) :
    o2.orderNumber = o.orderNumber ∧ o2.status = o.status ∧ o2.isPaid = o.isPaid ∧
    o2.totalPrice = o.totalPrice ∧ o2.createdAt = o.createdAt := by
  unfold DifferOnlyPrivate at h
  rw [h]
  exact ⟨rfl, rfl, rfl, rfl, rfl⟩

theorem getPublicOrderStatus_congr (toUpperCase : String → String) (findFails : Bool)
    (orderNumber : String) (orders orders2 : List Order)
    (h : List.Forall₂ DifferOnlyPrivate orders orders2) :
    getPublicOrderStatus toUpperCase findFails orders orderNumber =
      getPublicOrderStatus toUpperCase findFails orders2 orderNumber := by
  unfold getPublicOrderStatus
  cases findFails with
  | true => rfl
  | false =>
    simp only [Bool.false_eq_true, if_false]
    induction h with
    | nil => rfl
    | cons hd _ ih =>
      obtain ⟨h1, h2, h3, h4, h5⟩ := differOnlyPrivate_public hd
      simp only [List.find?_cons, h1]
      cases hq : decide (_ = toUpperCase orderNumber) with
      | true => simp only [h1, h2, h3, h4, h5]
      | false => exact ih

/-- C20: the body sent by `getPublicOrderStatus` for a stored order consists of the five
fields `orderNumber`, `status`, `isPaid`, `totalPrice` and `createdAt` of that order and
nothing else; and the response does not depend on `userId`, `shippingAddress`,
`orderItems` or `paymentResult`: two collections whose orders differ at most in those
four fields yield identical responses to every query. -/
theorem getPublicOrderStatus_public_only (toUpperCase : String → String) (findFails : Bool)
    (orderNumber : String) (orders orders2 : List Order)
    (h : List.Forall₂ DifferOnlyPrivate orders orders2) :
    getPublicOrderStatus toUpperCase findFails orders orderNumber =
      getPublicOrderStatus toUpperCase findFails orders2 orderNumber ∧
    (∀ o : Order,
      orders.find? (fun x => decide (x.orderNumber = toUpperCase orderNumber)) = some o →
      findFails = false →
      getPublicOrderStatus toUpperCase findFails orders orderNumber =
        .ok { orderNumber := o.orderNumber, status := o.status, isPaid := o.isPaid,
              totalPrice := o.totalPrice, createdAt := o.createdAt }) := by
  refine ⟨getPublicOrderStatus_congr toUpperCase findFails orderNumber orders orders2 h, ?_⟩
  intro o ho hf
  unfold getPublicOrderStatus
  simp [ho, hf]

/-- An instance of C20: two orders numbered `MGV000000042` with different owner, address,
lines and payment result give the same public answer, which holds the five public
fields. -/
theorem getPublicOrderStatus_public_only_witness :
    List.Forall₂ DifferOnlyPrivate [sampleOrder "Shipped" false none]
      [otherPrivateOrder "Shipped" false none] ∧
    sampleOrder "Shipped" false none ≠ otherPrivateOrder "Shipped" false none ∧
    getPublicOrderStatus asciiUpper false [otherPrivateOrder "Shipped" false none]
      "mgv000000042" =
      .ok { orderNumber := "MGV000000042", status := "Shipped", isPaid := false,
            totalPrice := 100, createdAt := 1700000000000 } ∧
    (getPublicOrderStatus asciiUpper false [sampleOrder "Shipped" false none] "mgv000000042" =
        getPublicOrderStatus asciiUpper false [otherPrivateOrder "Shipped" false none]
          "mgv000000042" ∧
      (∀ o : Order,
        [sampleOrder "Shipped" false none].find?
            (fun x => decide (x.orderNumber = asciiUpper "mgv000000042")) = some o →
        false = false →
        getPublicOrderStatus asciiUpper false [sampleOrder "Shipped" false none]
            "mgv000000042" =
          .ok { orderNumber := o.orderNumber, status := o.status, isPaid := o.isPaid,
                totalPrice := o.totalPrice, createdAt := o.createdAt })) :=
  have hrel : List.Forall₂ DifferOnlyPrivate [sampleOrder "Shipped" false none]
      [otherPrivateOrder "Shipped" false none] :=
    List.Forall₂.cons rfl List.Forall₂.nil
  ⟨hrel, by decide, by decide,
    getPublicOrderStatus_public_only asciiUpper false "mgv000000042"
      [sampleOrder "Shipped" false none] [otherPrivateOrder "Shipped" false none] hrel⟩

/-! ## Letter case of the order-number prefix -/

theorem isDigit_toNat (c : Char) (h : c.isDigit = true) : 48 ≤ c.toNat ∧ c.toNat ≤ 57 := by
  unfold Char.isDigit at h
  simp only [Bool.and_eq_true, decide_eq_true_eq] at h
  obtain ⟨h1, h2⟩ := h
  have h1n : (48 : UInt32).toNat ≤ c.val.toNat := h1
  have h2n : c.val.toNat ≤ (57 : UInt32).toNat := h2
  exact ⟨h1n, h2n⟩

theorem toUpper_digit (c : Char) (h : c.isDigit = true) : c.toUpper = c := by
  have := isDigit_toNat c h
  unfold Char.toUpper
  simp only
  rw [if_neg]
  omega

theorem toUpper_ascii (c : Char) (h : c.toUpper.toNat < 128) : c.toNat < 128 := by
  unfold Char.toUpper at h
  simp only at h
  split at h
  · omega
  · exact h

theorem map_toUpper_digits : ∀ ds : List Char, (∀ c ∈ ds, c.isDigit = true) →
    ds.map Char.toUpper = ds := by
  intro ds
  induction ds with
  | nil => intro _; rfl
  | cons d ds ih =>
    intro h
    rw [List.map_cons, toUpper_digit d (h d (List.mem_cons_self _ _)),
      ih (fun c hc => h c (List.mem_cons_of_mem _ hc))]

theorem prefixVariant_ascii (p : List Char) (hp : PrefixVariant p) :
    ∀ c ∈ p, c.toNat < 128 := by
  intro c hc
  apply toUpper_ascii
  have hmem : c.toUpper ∈ p.map Char.toUpper := List.mem_map_of_mem _ hc
  rw [hp] at hmem
  simp only [List.mem_cons, List.mem_singleton, List.not_mem_nil, or_false] at hmem
  rcases hmem with h | h | h <;> rw [h] <;> decide

theorem toUpperCase_variant (toUpperCase : String → String) (hup : UpperCaseOnAscii toUpperCase)
    (p ds : List Char) (hp : PrefixVariant p) (hd : ∀ c ∈ ds, c.isDigit = true) :
    toUpperCase (String.mk (p ++ ds)) = String.mk (['M', 'G', 'V'] ++ ds) := by
  have hascii : IsAsciiString (String.mk (p ++ ds)) := by
    intro c hc
    rcases List.mem_append.1 hc with h | h
    · exact prefixVariant_ascii p hp c h
    · have := isDigit_toNat c (hd c h)
      omega
  rw [hup _ hascii]
  unfold asciiUpper
  simp only [List.map_append]
  rw [hp, map_toUpper_digits ds hd]

/-- C21: the public status lookup does not depend on the letter case of the prefix. For
a query made of the three letters of `MGV` in any letter case followed by digits, the
lookup key computed by the handler is `MGV` followed by those digits, and
`getPublicOrderStatus` answers as it does for that exact order number, whatever orders
are stored. -/
theorem getPublicOrderStatus_prefix_case (toUpperCase : String → String)
    (hup : UpperCaseOnAscii toUpperCase) (findFails : Bool) (orders : List Order)
    (p ds : List Char) (hp : PrefixVariant p) (hd : ∀ c ∈ ds, c.isDigit = true) :
    toUpperCase (String.mk (p ++ ds)) = String.mk (['M', 'G', 'V'] ++ ds) ∧
    getPublicOrderStatus toUpperCase findFails orders (String.mk (p ++ ds)) =
      getPublicOrderStatus toUpperCase findFails orders (String.mk (['M', 'G', 'V'] ++ ds)) := by
  have h1 := toUpperCase_variant toUpperCase hup p ds hp hd
  have h2 := toUpperCase_variant toUpperCase hup ['M', 'G', 'V'] ds
    (by unfold PrefixVariant; decide) hd
  refine ⟨h1, ?_⟩
  unfold getPublicOrderStatus
  rw [h1, h2]

/-- The instance of C21 given with the claim: the query `mgv000000042` is answered like
`MGV000000042`, with the public fields of the stored order. -/
theorem getPublicOrderStatus_prefix_case_witness :
    (UpperCaseOnAscii asciiUpper ∧ PrefixVariant ['m', 'g', 'v'] ∧
      (∀ c ∈ "000000042".data, c.isDigit = true)) ∧
    String.mk (['m', 'g', 'v'] ++ "000000042".data) = "mgv000000042" ∧
    String.mk (['M', 'G', 'V'] ++ "000000042".data) = "MGV000000042" ∧
    getPublicOrderStatus asciiUpper false [sampleOrder "Shipped" false none] "MGV000000042" =
      .ok { orderNumber := "MGV000000042", status := "Shipped", isPaid := false,
            totalPrice := 100, createdAt := 1700000000000 } ∧
    (asciiUpper (String.mk (['m', 'g', 'v'] ++ "000000042".data)) =
        String.mk (['M', 'G', 'V'] ++ "000000042".data) ∧
      getPublicOrderStatus asciiUpper false [sampleOrder "Shipped" false none]
          (String.mk (['m', 'g', 'v'] ++ "000000042".data)) =
        getPublicOrderStatus asciiUpper false [sampleOrder "Shipped" false none]
          (String.mk (['M', 'G', 'V'] ++ "000000042".data))) :=
  have hup : UpperCaseOnAscii asciiUpper := fun _ _ => rfl
  have hd : ∀ c ∈ "000000042".data, c.isDigit = true := by decide
  have hp : PrefixVariant ['m', 'g', 'v'] := by unfold PrefixVariant; decide
  ⟨⟨hup, hp, hd⟩, by decide, by decide, by decide,
    getPublicOrderStatus_prefix_case asciiUpper hup false [sampleOrder "Shipped" false none]
      ['m', 'g', 'v'] "000000042".data hp hd⟩

/-! ## Outcomes of `createOrder`, by the step reached -/

theorem createOrder_outcome (lib : ObjectIdLib) (env : Env) (s : State)
    (req : CreateOrderRequest) :
    (((createOrder lib env s req).state = s ∨
        ((env.counterUpdate = none ∧ ∃ e, env.orderSave = some e) ∧
          (createOrder lib env s req).state =
            { s with counters := (getNextSequenceValue "orderId" s.counters).1 })) ∧
      (createOrder lib env s req).response.status ≠ 201 ∧
      (createOrder lib env s req).mails = []) ∨
    (env.counterUpdate = none ∧ env.orderSave = none ∧
      ∃ items, req.orderItems = some items ∧ items ≠ [] ∧
        invalidItems lib (Product.find lib s.products (productIds lib items)) items = [] ∧
        (createOrder lib env s req).state =
          { products := (decrementStock lib env.stockUpdate
              (Product.find lib s.products (productIds lib items)) 0
              (finalOrderItems lib items) s.products).1,
            orders := s.orders ++
              [newOrder env req (formatOrderNumber (getNextSequenceValue "orderId" s.counters).2)
                (finalOrderItems lib items)],
            counters := (getNextSequenceValue "orderId" s.counters).1 } ∧
        (((decrementStock lib env.stockUpdate
              (Product.find lib s.products (productIds lib items)) 0
              (finalOrderItems lib items) s.products).2 = none ∧
            (createOrder lib env s req).response =
              { status := 201, message := "Order placed successfully", errors := none,
                order := some (newOrder env req
                  (formatOrderNumber (getNextSequenceValue "orderId" s.counters).2)
                  (finalOrderItems lib items)) } ∧
            (createOrder lib env s req).mails = notifyOrderCreated env
              (newOrder env req (formatOrderNumber (getNextSequenceValue "orderId" s.counters).2)
                (finalOrderItems lib items))) ∨
          ((∃ e, (decrementStock lib env.stockUpdate
              (Product.find lib s.products (productIds lib items)) 0
              (finalOrderItems lib items) s.products).2 = some e) ∧
            (createOrder lib env s req).response.status ≠ 201 ∧
            (createOrder lib env s req).mails = []))) := by
  unfold createOrder
  cases hitems : req.orderItems with
  | none => simp
  | some items =>
    simp only
    by_cases h1 : items.length = 0
    · simp [h1]
    · by_cases h2 : (productIds lib items).length = 0
      · simp [h1, h2]
      · cases hf : env.productFind with
        | some e =>
          left
          simp only [h1, h2, if_false]
          exact ⟨Or.inl (by simp), catchResponse_status_ne_created e, (by simp)⟩
        | none =>
          by_cases h3 : (invalidItems lib (Product.find lib s.products (productIds lib items))
              items).length > 0
          · simp [h1, h2, h3]
          · by_cases h4 : (finalOrderItems lib items).length = 0
            · simp [h1, h2, h3, h4]
            · cases hc : env.counterUpdate with
              | some e =>
                left
                simp only [h1, h2, h3, h4, if_false]
                exact ⟨Or.inl (by simp), catchResponse_status_ne_created e, (by simp)⟩
              | none =>
                cases hs : env.orderSave with
                | some e =>
                  left
                  simp only [h1, h2, h3, h4, if_false]
                  exact ⟨Or.inr ⟨⟨(by simp), e, (by simp)⟩, (by simp)⟩,
                    catchResponse_status_ne_created e, (by simp)⟩
                | none =>
                  right
                  have hne : items ≠ [] := fun h0 => h1 (by rw [h0]; rfl)
                  have hinv : invalidItems lib
                      (Product.find lib s.products (productIds lib items)) items = [] := by
                    cases hl : invalidItems lib
                        (Product.find lib s.products (productIds lib items)) items with
                    | nil => rfl
                    | cons a l => rw [hl] at h3; simp at h3
                  refine ⟨(by simp), (by simp), items, (by simp), hne, hinv, ?_⟩
                  simp only [h1, h2, h3, h4, if_false]
                  cases hu : (decrementStock lib env.stockUpdate
                      (Product.find lib s.products (productIds lib items)) 0
                      (finalOrderItems lib items) s.products).2 with
                  | some e =>
                    simp only
                    exact ⟨(by simp), Or.inr ⟨⟨e, (by simp)⟩,
                      catchResponse_status_ne_created e, (by simp)⟩⟩
                  | none =>
                    simp only
                    exact ⟨(by simp), Or.inl ⟨(by simp), (by simp), (by simp)⟩⟩

/-! ## Notifications and the outcome of `createOrder` -/

theorem createOrder_congr_notifications (lib : ObjectIdLib) (env env2 : Env) (s : State)
    (req : CreateOrderRequest) (h : SameButNotifications env env2) :
    (createOrder lib env2 s req).response = (createOrder lib env s req).response ∧
    (createOrder lib env2 s req).state = (createOrder lib env s req).state := by
  unfold SameButNotifications at h
  have e1 : env2.productFind = env.productFind := by rw [h]
  have e2 : env2.counterUpdate = env.counterUpdate := by rw [h]
  have e3 : env2.orderSave = env.orderSave := by rw [h]
  have e4 : env2.stockUpdate = env.stockUpdate := by rw [h]
  have e5 : env2.now = env.now := by rw [h]
  have e6 : env2.newOrderId = env.newOrderId := by rw [h]
  have hnew : ∀ n items, newOrder env2 req n items = newOrder env req n items := by
    intro n items
    simp only [newOrder, e5, e6]
  unfold createOrder
  simp only [e1, e2, e3, e4, hnew]
  cases hitems : req.orderItems with
  | none => simp
  | some items =>
    simp only
    by_cases h1 : items.length = 0
    · simp [h1]
    · by_cases h2 : (productIds lib items).length = 0
      · simp [h1, h2]
      · cases hf : env.productFind with
        | some e => simp [h1, h2]
        | none =>
          by_cases h3 : (invalidItems lib (Product.find lib s.products (productIds lib items))
              items).length > 0
          · simp [h1, h2, h3]
          · by_cases h4 : (finalOrderItems lib items).length = 0
            · simp [h1, h2, h3, h4]
            · cases hc : env.counterUpdate with
              | some e => simp [h1, h2, h3, h4]
              | none =>
                cases hs : env.orderSave with
                | some e => simp [h1, h2, h3, h4]
                | none =>
                  simp only [h1, h2, h3, h4, if_false]
                  cases hu : (decrementStock lib env.stockUpdate
                      (Product.find lib s.products (productIds lib items)) 0
                      (finalOrderItems lib items) s.products).2 with
                  | some e => simp
                  | none => simp

/-- C22: notification failures never affect the outcome of `createOrder`. Two calls on
the same state and request whose environments differ only in the user lookup and in
whether the customer send and the admin send succeed give the same response and the
same state (orders, counter and stock); in particular a request answered with 201 and
its persisted order in one is answered so in the other. -/
theorem createOrder_ignores_notifications (lib : ObjectIdLib) (env env2 : Env) (s : State)
    (req : CreateOrderRequest) (h : SameButNotifications env env2) :
    (createOrder lib env2 s req).response = (createOrder lib env s req).response ∧
    (createOrder lib env2 s req).state = (createOrder lib env s req).state ∧
    ((createOrder lib env s req).response.status = 201 →
      (createOrder lib env2 s req).response.status = 201 ∧
      (createOrder lib env2 s req).response.order = (createOrder lib env s req).response.order) := by
  obtain ⟨h1, h2⟩ := createOrder_congr_notifications lib env env2 s req h
  refine ⟨h1, h2, ?_⟩
  intro h201
  rw [h1]
  exact ⟨h201, rfl⟩

/-- An instance of C22: an order placed while the user lookup throws and both sends fail
is answered with the same 201 response and leaves the same state as when the
notifications go through; the environments give different mails. -/
theorem createOrder_ignores_notifications_witness :
    SameButNotifications calmEnv
      { calmEnv with userLookup := .failed, customerMailOk := false, adminMailOk := false } ∧
    (createOrder hexObjectId calmEnv (widgetStore 5)
      (requestOf [lineOf "64b7f0c2a1d3e4f5a6b7c8d9" 2])).mails.length = 2 ∧
    (createOrder hexObjectId
      { calmEnv with userLookup := .failed, customerMailOk := false, adminMailOk := false }
      (widgetStore 5) (requestOf [lineOf "64b7f0c2a1d3e4f5a6b7c8d9" 2])).mails = [] ∧
    (createOrder hexObjectId calmEnv (widgetStore 5)
      (requestOf [lineOf "64b7f0c2a1d3e4f5a6b7c8d9" 2])).response.status = 201 ∧
    ((createOrder hexObjectId
        { calmEnv with userLookup := .failed, customerMailOk := false, adminMailOk := false }
        (widgetStore 5) (requestOf [lineOf "64b7f0c2a1d3e4f5a6b7c8d9" 2])).response =
        (createOrder hexObjectId calmEnv (widgetStore 5)
          (requestOf [lineOf "64b7f0c2a1d3e4f5a6b7c8d9" 2])).response ∧
      (createOrder hexObjectId
        { calmEnv with userLookup := .failed, customerMailOk := false, adminMailOk := false }
        (widgetStore 5) (requestOf [lineOf "64b7f0c2a1d3e4f5a6b7c8d9" 2])).state =
        (createOrder hexObjectId calmEnv (widgetStore 5)
          (requestOf [lineOf "64b7f0c2a1d3e4f5a6b7c8d9" 2])).state) :=
  have hsame : SameButNotifications calmEnv
      { calmEnv with userLookup := .failed, customerMailOk := false, adminMailOk := false } :=
    rfl
  have h := createOrder_ignores_notifications hexObjectId calmEnv
    { calmEnv with userLookup := .failed, customerMailOk := false, adminMailOk := false }
    (widgetStore 5) (requestOf [lineOf "64b7f0c2a1d3e4f5a6b7c8d9" 2]) hsame
  ⟨hsame, by decide, by decide, by decide, h.1, h.2.1⟩

/-- C24: if obtaining the order number fails or persisting the order fails (with a
duplicate-key error or any other), `createOrder` does not answer 201, no order is added
and every product keeps its stock; a duplicate-key error at the save is answered with
400 and the invitation to try again. -/
theorem createOrder_persist_failure (lib : ObjectIdLib) (env : Env) (s : State)
    (req : CreateOrderRequest)
    (hfail : env.counterUpdate ≠ none ∨ env.orderSave ≠ none) :
    (createOrder lib env s req).response.status ≠ 201 ∧
    (createOrder lib env s req).response.order = none ∧
    (createOrder lib env s req).state.products = s.products ∧
    (createOrder lib env s req).state.orders = s.orders ∧
    (catchResponse .duplicateKey).status = 400 ∧
    (catchResponse .duplicateKey).message =
      "Failed to create order due to duplicate order number. Please try again." := by
  have horder : (createOrder lib env s req).response.status ≠ 201 →
      (createOrder lib env s req).response.order = none := by
    intro hne
    unfold createOrder at hne ⊢
    cases hitems : req.orderItems with
    | none => simp
    | some items =>
      simp only [hitems] at hne ⊢
      by_cases h1 : items.length = 0
      · simp [h1]
      · by_cases h2 : (productIds lib items).length = 0
        · simp [h1, h2]
        · cases hf : env.productFind with
          | some e => cases e <;> simp [h1, h2, catchResponse]
          | none =>
            by_cases h3 : (invalidItems lib
                (Product.find lib s.products (productIds lib items)) items).length > 0
            · simp [h1, h2, h3]
            · by_cases h4 : (finalOrderItems lib items).length = 0
              · simp [h1, h2, h3, h4]
              · cases hc : env.counterUpdate with
                | some e => cases e <;> simp [h1, h2, h3, h4, catchResponse]
                | none =>
                  cases hs : env.orderSave with
                  | some e => cases e <;> simp [h1, h2, h3, h4, catchResponse]
                  | none =>
                    simp only [h1, h2, hf, h3, h4, hc, hs, if_false] at hne ⊢
                    cases hu : (decrementStock lib env.stockUpdate
                        (Product.find lib s.products (productIds lib items)) 0
                        (finalOrderItems lib items) s.products).2 with
                    | some e => cases e <;> simp [catchResponse]
                    | none =>
                      rw [hu] at hne
                      simp at hne
  rcases createOrder_outcome lib env s req with ⟨hstate, hstatus, _⟩ | ⟨hc, hs, _⟩
  · refine ⟨hstatus, horder hstatus, ?_, ?_, rfl, rfl⟩
    · rcases hstate with h | ⟨_, h⟩ <;> rw [h]
    · rcases hstate with h | ⟨_, h⟩ <;> rw [h]
  · rcases hfail with h | h
    · exact absurd hc h
    · exact absurd hs h

/-- Two instances of C24 on a store with 5 `Widget` and a valid request for 2: when the
counter update rejects the answer is 500, when the save rejects with a duplicate key it
is 400; the stock stays 5 in both. -/
theorem createOrder_persist_failure_witness :
    ({ calmEnv with counterUpdate := some .other }.counterUpdate ≠ none ∨
      { calmEnv with counterUpdate := some .other }.orderSave ≠ none) ∧
    (createOrder hexObjectId { calmEnv with counterUpdate := some .other } (widgetStore 5)
      (requestOf [lineOf "64b7f0c2a1d3e4f5a6b7c8d9" 2])).response.status = 500 ∧
    (createOrder hexObjectId { calmEnv with orderSave := some .duplicateKey } (widgetStore 5)
      (requestOf [lineOf "64b7f0c2a1d3e4f5a6b7c8d9" 2])).response.status = 400 ∧
    (createOrder hexObjectId { calmEnv with counterUpdate := some .other } (widgetStore 5)
      (requestOf [lineOf "64b7f0c2a1d3e4f5a6b7c8d9" 2])).state.products =
      (widgetStore 5).products ∧
    (createOrder hexObjectId { calmEnv with orderSave := some .duplicateKey } (widgetStore 5)
      (requestOf [lineOf "64b7f0c2a1d3e4f5a6b7c8d9" 2])).state.products =
      (widgetStore 5).products :=
  ⟨Or.inl (by decide), by decide, by decide,
    (createOrder_persist_failure hexObjectId { calmEnv with counterUpdate := some .other }
      (widgetStore 5) (requestOf [lineOf "64b7f0c2a1d3e4f5a6b7c8d9" 2])
      (Or.inl (by decide))).2.2.1,
    (createOrder_persist_failure hexObjectId { calmEnv with orderSave := some .duplicateKey }
      (widgetStore 5) (requestOf [lineOf "64b7f0c2a1d3e4f5a6b7c8d9" 2])
      (Or.inr (by decide))).2.2.1⟩

/-! ## Order of the two notification sends -/

theorem notifyStatus_recipients (env : StatusEnv) (customerSubject adminSubject : String)
    (name email admin : String) (others : List String)
    (hu : env.userLookup = .found name email) (ha : env.adminEmails = admin :: others) :
    (env.customerMailOk = false →
      (notifyStatus env customerSubject adminSubject).map (fun m => m.recipient) = [email]) ∧
    (env.customerMailOk = true →
      (notifyStatus env customerSubject adminSubject).map (fun m => m.recipient) =
        [email, admin]) := by
  unfold notifyStatus
  constructor <;> intro hc <;> simp [hu, ha, hc]

theorem notifyOrderCreated_recipients (env : Env) (o : Order)
    (name email admin : String) (others : List String)
    (hu : env.userLookup = .found name email) (ha : env.adminEmails = admin :: others) :
    (env.customerMailOk = false →
      (notifyOrderCreated env o).map (fun m => m.recipient) = [email]) ∧
    (env.customerMailOk = true →
      (notifyOrderCreated env o).map (fun m => m.recipient) = [email, admin]) := by
  unfold notifyOrderCreated
  constructor <;> intro hc <;> simp [hu, ha, hc]

theorem createOrder_mails (lib : ObjectIdLib) (env : Env) (s : State) (req : CreateOrderRequest)
    (h : (createOrder lib env s req).response.status = 201) :
    ∃ o, (createOrder lib env s req).mails = notifyOrderCreated env o := by
  rcases createOrder_outcome lib env s req with ⟨_, hne, _⟩ | ⟨_, _, items, _, _, _, _, hres⟩
  · exact absurd h hne
  · rcases hres with ⟨_, _, hm⟩ | ⟨_, hne, _⟩
    · exact ⟨_, hm⟩
    · exact absurd h hne

theorem updateOrderToDelivered_mails (lib : ObjectIdLib) (env : StatusEnv) (s : State)
    (id : String) (h : (updateOrderToDelivered lib env s id).response.status = 200) :
    ∃ c a, (updateOrderToDelivered lib env s id).mails = notifyStatus env c a := by
  unfold updateOrderToDelivered at h ⊢
  cases hf : env.findFails with
  | true => simp [hf] at h
  | false =>
    cases ho : Order.findById lib s.orders id with
    | none => simp [hf, ho] at h
    | some o =>
      cases hs : env.saveFails with
      | true => simp [hf, ho, hs] at h
      | false =>
        simp only [Bool.false_eq_true, if_false]
        exact ⟨_, _, rfl⟩

theorem updateOrderStatus_mails (lib : ObjectIdLib) (env : StatusEnv) (s : State)
    (id : String) (status : Option String)
    (h : (updateOrderStatus lib env s id status).response.status = 200) :
    ∃ c a, (updateOrderStatus lib env s id status).mails = notifyStatus env c a := by
  unfold updateOrderStatus at h ⊢
  cases status with
  | none => simp at h
  | some v =>
    by_cases hv : v = "" ∨ ¬ v ∈ validStatuses
    · simp [hv] at h
    · cases hf : env.findFails with
      | true => simp [hv, hf] at h
      | false =>
        cases ho : Order.findById lib s.orders id with
        | none => simp [hv, hf, ho] at h
        | some o =>
          cases hs : env.saveFails with
          | true => simp [hv, hf, ho, hs] at h
          | false =>
            simp only [hv, Bool.false_eq_true, if_false]
            exact ⟨_, _, rfl⟩

theorem updateOrderToDelivered_congr_notifications (lib : ObjectIdLib) (env : StatusEnv)
    (s : State) (id : String) (customerOk adminOk : Bool) :
    (updateOrderToDelivered lib
        { env with customerMailOk := customerOk, adminMailOk := adminOk } s id).response =
      (updateOrderToDelivered lib env s id).response ∧
    (updateOrderToDelivered lib
        { env with customerMailOk := customerOk, adminMailOk := adminOk } s id).state =
      (updateOrderToDelivered lib env s id).state := by
  unfold updateOrderToDelivered
  cases hf : env.findFails with
  | true => simp
  | false =>
    cases ho : Order.findById lib s.orders id with
    | none => simp
    | some o =>
      cases hs : env.saveFails with
      | true => simp
      | false => simp

theorem updateOrderStatus_congr_notifications (lib : ObjectIdLib) (env : StatusEnv)
    (s : State) (id : String) (status : Option String) (customerOk adminOk : Bool) :
    (updateOrderStatus lib
        { env with customerMailOk := customerOk, adminMailOk := adminOk } s id status).response =
      (updateOrderStatus lib env s id status).response ∧
    (updateOrderStatus lib
        { env with customerMailOk := customerOk, adminMailOk := adminOk } s id status).state =
      (updateOrderStatus lib env s id status).state := by
  unfold updateOrderStatus
  cases status with
  | none => simp
  | some v =>
    by_cases hv : v = "" ∨ ¬ v ∈ validStatuses
    · simp [hv]
    · cases hf : env.findFails with
      | true => simp [hv]
      | false =>
        cases ho : Order.findById lib s.orders id with
        | none => simp [hv]
        | some o =>
          cases hs : env.saveFails with
          | true => simp [hv]
          | false => simp [hv]

/-- C23 as stated fails: with the user found, an administrator address configured and
the customer send failing, each of the three handlers answers with success and makes
one send only, to the customer; no send to the administrator is attempted. -/
theorem notifications_admin_skipped :
    ({ calmEnv with customerMailOk := false }.adminEmails = ["admin@example.com"] ∧
      (createOrder hexObjectId { calmEnv with customerMailOk := false } (widgetStore 5)
        (requestOf [lineOf "64b7f0c2a1d3e4f5a6b7c8d9" 2])).response.status = 201 ∧
      (createOrder hexObjectId { calmEnv with customerMailOk := false } (widgetStore 5)
        (requestOf [lineOf "64b7f0c2a1d3e4f5a6b7c8d9" 2])).mails.map (fun m => m.recipient) =
        ["ada@example.com"]) ∧
    ((updateOrderToDelivered hexObjectId { calmStatusEnv 1000 with customerMailOk := false }
        (orderStore (sampleOrder "Pending" false none))
        "650000000000000000000001").response.status = 200 ∧
      (updateOrderToDelivered hexObjectId { calmStatusEnv 1000 with customerMailOk := false }
        (orderStore (sampleOrder "Pending" false none))
        "650000000000000000000001").mails.map (fun m => m.recipient) = ["ada@example.com"]) ∧
    ((updateOrderStatus hexObjectId { calmStatusEnv 1000 with customerMailOk := false }
        (orderStore (sampleOrder "Pending" false none)) "650000000000000000000001"
        (some "Shipped")).response.status = 200 ∧
      (updateOrderStatus hexObjectId { calmStatusEnv 1000 with customerMailOk := false }
        (orderStore (sampleOrder "Pending" false none)) "650000000000000000000001"
        (some "Shipped")).mails.map (fun m => m.recipient) = ["ada@example.com"]) := by
  decide

/-- C23 as amended: in each order lifecycle notification (order created, order delivered,
order status changed) the customer send is attempted first and the admin send only after
it has succeeded. For a successful call with the user found and at least one admin
address configured: when the customer send fails the only send made is the one to the
customer; when it succeeds the sends made are the one to the customer followed by the
one to the first admin address. Neither failure changes the response: whatever the
outcome of the customer send and of the admin send, each of the three handlers gives the
same response and leaves the same state. -/
theorem notifications_sequential (lib : ObjectIdLib) (name email admin : String)
    (others : List String) :
    (∀ (env : Env) (s : State) (req : CreateOrderRequest),
      (createOrder lib env s req).response.status = 201 →
      env.userLookup = .found name email → env.adminEmails = admin :: others →
      (env.customerMailOk = false →
        (createOrder lib env s req).mails.map (fun m => m.recipient) = [email]) ∧
      (env.customerMailOk = true →
        (createOrder lib env s req).mails.map (fun m => m.recipient) = [email, admin])) ∧
    (∀ (env : StatusEnv) (s : State) (id : String),
      (updateOrderToDelivered lib env s id).response.status = 200 →
      env.userLookup = .found name email → env.adminEmails = admin :: others →
      (env.customerMailOk = false →
        (updateOrderToDelivered lib env s id).mails.map (fun m => m.recipient) = [email]) ∧
      (env.customerMailOk = true →
        (updateOrderToDelivered lib env s id).mails.map (fun m => m.recipient) =
          [email, admin])) ∧
    (∀ (env : StatusEnv) (s : State) (id : String) (status : Option String),
      (updateOrderStatus lib env s id status).response.status = 200 →
      env.userLookup = .found name email → env.adminEmails = admin :: others →
      (env.customerMailOk = false →
        (updateOrderStatus lib env s id status).mails.map (fun m => m.recipient) = [email]) ∧
      (env.customerMailOk = true →
        (updateOrderStatus lib env s id status).mails.map (fun m => m.recipient) =
          [email, admin])) ∧
    (∀ (env : Env) (s : State) (req : CreateOrderRequest) (customerOk adminOk : Bool),
      (createOrder lib { env with customerMailOk := customerOk, adminMailOk := adminOk }
          s req).response = (createOrder lib env s req).response ∧
      (createOrder lib { env with customerMailOk := customerOk, adminMailOk := adminOk }
          s req).state = (createOrder lib env s req).state) ∧
    (∀ (env : StatusEnv) (s : State) (id : String) (customerOk adminOk : Bool),
      (updateOrderToDelivered lib
          { env with customerMailOk := customerOk, adminMailOk := adminOk } s id).response =
        (updateOrderToDelivered lib env s id).response ∧
      (updateOrderToDelivered lib
          { env with customerMailOk := customerOk, adminMailOk := adminOk } s id).state =
        (updateOrderToDelivered lib env s id).state) ∧
    (∀ (env : StatusEnv) (s : State) (id : String) (status : Option String)
        (customerOk adminOk : Bool),
      (updateOrderStatus lib
          { env with customerMailOk := customerOk, adminMailOk := adminOk } s id
          status).response = (updateOrderStatus lib env s id status).response ∧
      (updateOrderStatus lib
          { env with customerMailOk := customerOk, adminMailOk := adminOk } s id
          status).state = (updateOrderStatus lib env s id status).state) := by
  refine ⟨?_, ?_, ?_, ?_, ?_, ?_⟩
  · intro env s req h hu ha
    obtain ⟨o, hm⟩ := createOrder_mails lib env s req h
    rw [hm]
    exact notifyOrderCreated_recipients env o name email admin others hu ha
  · intro env s id h hu ha
    obtain ⟨c, a, hm⟩ := updateOrderToDelivered_mails lib env s id h
    rw [hm]
    exact notifyStatus_recipients env c a name email admin others hu ha
  · intro env s id status h hu ha
    obtain ⟨c, a, hm⟩ := updateOrderStatus_mails lib env s id status h
    rw [hm]
    exact notifyStatus_recipients env c a name email admin others hu ha
  · intro env s req customerOk adminOk
    exact createOrder_congr_notifications lib env
      { env with customerMailOk := customerOk, adminMailOk := adminOk } s req rfl
  · intro env s id customerOk adminOk
    exact updateOrderToDelivered_congr_notifications lib env s id customerOk adminOk
  · intro env s id status customerOk adminOk
    exact updateOrderStatus_congr_notifications lib env s id status customerOk adminOk

/-- Instances of amended C23 for an order set to `Shipped`: with the customer send
failing one send is made, with it succeeding two, the second to the admin address; the
response with both sends failing is the response with both succeeding. -/
theorem notifications_sequential_witness :
    (updateOrderStatus hexObjectId { calmStatusEnv 1000 with customerMailOk := false }
      (orderStore (sampleOrder "Pending" false none)) "650000000000000000000001"
      (some "Shipped")).mails.map (fun m => m.recipient) = ["ada@example.com"] ∧
    (updateOrderStatus hexObjectId (calmStatusEnv 1000)
      (orderStore (sampleOrder "Pending" false none)) "650000000000000000000001"
      (some "Shipped")).mails.map (fun m => m.recipient) =
      ["ada@example.com", "admin@example.com"] ∧
    (updateOrderStatus hexObjectId
      { calmStatusEnv 1000 with customerMailOk := false, adminMailOk := false }
      (orderStore (sampleOrder "Pending" false none)) "650000000000000000000001"
      (some "Shipped")).response =
      (updateOrderStatus hexObjectId (calmStatusEnv 1000)
        (orderStore (sampleOrder "Pending" false none)) "650000000000000000000001"
        (some "Shipped")).response :=
  ⟨((notifications_sequential hexObjectId "Ada" "ada@example.com" "admin@example.com"
        []).2.2.1
      { calmStatusEnv 1000 with customerMailOk := false }
      (orderStore (sampleOrder "Pending" false none)) "650000000000000000000001"
      (some "Shipped") (by decide) rfl rfl).1 rfl,
    ((notifications_sequential hexObjectId "Ada" "ada@example.com" "admin@example.com"
        []).2.2.1
      (calmStatusEnv 1000) (orderStore (sampleOrder "Pending" false none))
      "650000000000000000000001" (some "Shipped") (by decide) rfl rfl).2 rfl,
    ((notifications_sequential hexObjectId "Ada" "ada@example.com" "admin@example.com"
        []).2.2.2.2.2
      (calmStatusEnv 1000) (orderStore (sampleOrder "Pending" false none))
      "650000000000000000000001" (some "Shipped") false false).1⟩

/-! ## Profile update -/

theorem mem_deleteKey (key : String) (obj : List (String × JsonValue)) (field : String × JsonValue) :
    field ∈ deleteKey key obj ↔ field ∈ obj ∧ field.1 ≠ key := by
  simp [deleteKey, List.mem_filter]

theorem value_unique : ∀ (obj : List (String × JsonValue)), (obj.map Prod.fst).Nodup →
    ∀ (k : String) (v w : JsonValue), (k, v) ∈ obj → (k, w) ∈ obj → v = w := by
  intro obj
  induction obj with
  | nil => intro _ k v w hv; simp at hv
  | cons f fs ih =>
    intro hnd k v w hv hw
    rw [List.map_cons, List.nodup_cons] at hnd
    rw [List.mem_cons] at hv hw
    rcases hv with hv | hv <;> rcases hw with hw | hw
    · have h := hv.trans hw.symm
      simpa using h
    · exfalso
      apply hnd.1
      have h := List.mem_map_of_mem Prod.fst hw
      rw [← hv]
      exact h
    · exfalso
      apply hnd.1
      have h := List.mem_map_of_mem Prod.fst hv
      rw [← hw]
      exact h
    · exact ih hnd.2 k v w hv hw

theorem valueOf_mem {key : String} {obj : List (String × JsonValue)} {v : JsonValue}
    (h : valueOf key obj = some v) : (key, v) ∈ obj := by
  unfold valueOf at h
  cases hf : obj.find? (fun field => decide (field.1 = key)) with
  | none => simp [hf] at h
  | some field =>
    rw [hf] at h
    simp only [Option.map_some', Option.some.injEq] at h
    have hmem := List.mem_of_find?_eq_some hf
    have hkey := List.find?_some hf
    simp only [decide_eq_true_eq] at hkey
    rw [← h, ← hkey]
    exact hmem

theorem valueOf_none {key : String} {obj : List (String × JsonValue)}
    (h : valueOf key obj = none) : ∀ v, (key, v) ∉ obj := by
  unfold valueOf at h
  intro v hv
  cases hf : obj.find? (fun field => decide (field.1 = key)) with
  | some field => simp [hf] at h
  | none =>
    rw [List.find?_eq_none] at hf
    have := hf (key, v) hv
    simp at this

theorem deleteKey_keys_nodup (key : String) (obj : List (String × JsonValue))
    (h : (obj.map Prod.fst).Nodup) : ((deleteKey key obj).map Prod.fst).Nodup := by
  unfold deleteKey
  exact h.sublist ((List.filter_sublist obj).map Prod.fst)

/-- The top-level keys of the profile update: for every request body (an object, so with
pairwise different keys), the update object that `updateProfile` hands to the store has
no key `role` and no key `isActive`;
it has a key `password` only with a falsy value (`null`, `false`, zero or the empty
string), so a non-empty password never reaches the store; and every pair of the body
under another key is in the update object, which holds no other pair under such a key. -/
theorem updateProfile_protected_keys (body : List (String × JsonValue))
    (hkeys : (body.map Prod.fst).Nodup) :
    (∀ v, ("role", v) ∉ updateProfileUpdates body) ∧
    (∀ v, ("isActive", v) ∉ updateProfileUpdates body) ∧
    (∀ v, ("password", v) ∈ updateProfileUpdates body → v.truthy = false) ∧
    (∀ p, p ≠ "" → ("password", JsonValue.str p) ∉ updateProfileUpdates body) ∧
    (∀ k v, k ≠ "role" → k ≠ "isActive" → k ≠ "password" →
      ((k, v) ∈ updateProfileUpdates body ↔ (k, v) ∈ body)) := by
  have hnd : ((deleteKey "isActive" (deleteKey "role" body)).map Prod.fst).Nodup :=
    deleteKey_keys_nodup _ _ (deleteKey_keys_nodup _ _ hkeys)
  have hpw : ∀ v, ("password", v) ∈ updateProfileUpdates body → v.truthy = false := by
    intro v hv
    unfold updateProfileUpdates at hv
    simp only at hv
    cases hval : valueOf "password" (deleteKey "isActive" (deleteKey "role" body)) with
    | none =>
      rw [hval] at hv
      exact absurd hv (valueOf_none hval v)
    | some pw =>
      rw [hval] at hv
      cases ht : pw.truthy with
      | true =>
        simp only [ht, if_true] at hv
        have := (mem_deleteKey _ _ _).1 hv
        exact absurd rfl this.2
      | false =>
        simp only [ht, Bool.false_eq_true, if_false] at hv
        rw [value_unique _ hnd "password" v pw hv (valueOf_mem hval)]
        exact ht
  have hgen : ∀ field : String × JsonValue, field ∈ updateProfileUpdates body →
      field ∈ deleteKey "isActive" (deleteKey "role" body) := by
    intro field hf
    unfold updateProfileUpdates at hf
    simp only at hf
    cases hval : valueOf "password" (deleteKey "isActive" (deleteKey "role" body)) with
    | none => rw [hval] at hf; exact hf
    | some pw =>
      rw [hval] at hf
      cases ht : pw.truthy with
      | true =>
        simp only [ht, if_true] at hf
        exact ((mem_deleteKey _ _ _).1 hf).1
      | false =>
        simp only [ht, Bool.false_eq_true, if_false] at hf
        exact hf
  refine ⟨?_, ?_, hpw, ?_, ?_⟩
  · intro v hv
    have h1 := (mem_deleteKey _ _ _).1 (hgen _ hv)
    have h2 := (mem_deleteKey _ _ _).1 h1.1
    exact h2.2 rfl
  · intro v hv
    have h1 := (mem_deleteKey _ _ _).1 (hgen _ hv)
    exact h1.2 rfl
  · intro p hp hmem
    have := hpw _ hmem
    simp [JsonValue.truthy, hp] at this
  · intro k v hr hi hp
    constructor
    · intro hv
      have h1 := (mem_deleteKey _ _ _).1 (hgen _ hv)
      exact ((mem_deleteKey _ _ _).1 h1.1).1
    · intro hv
      have hin : (k, v) ∈ deleteKey "isActive" (deleteKey "role" body) :=
        (mem_deleteKey _ _ _).2 ⟨(mem_deleteKey _ _ _).2 ⟨hv, hr⟩, hi⟩
      unfold updateProfileUpdates
      simp only
      cases hval : valueOf "password" (deleteKey "isActive" (deleteKey "role" body)) with
      | none => exact hin
      | some pw =>
        cases ht : pw.truthy with
        | true =>
          simp only [ht, if_true]
          exact (mem_deleteKey _ _ _).2 ⟨hin, hp⟩
        | false =>
          simp only [ht, Bool.false_eq_true, if_false]
          exact hin

/-- An instance at the top level: of a body with `name`, `role`, `isActive` and `password`
only the name reaches the store. -/
theorem updateProfile_protected_keys_witness :
    ([("name", JsonValue.str "Ada"), ("role", JsonValue.str "admin"),
        ("isActive", JsonValue.bool false), ("password", JsonValue.str "hunter2")].map
        Prod.fst).Nodup ∧
    updateProfileUpdates
      [("name", JsonValue.str "Ada"), ("role", JsonValue.str "admin"),
        ("isActive", JsonValue.bool false), ("password", JsonValue.str "hunter2")] =
      [("name", JsonValue.str "Ada")] ∧
    (∀ v, ("role", v) ∉ updateProfileUpdates
      [("name", JsonValue.str "Ada"), ("role", JsonValue.str "admin"),
        ("isActive", JsonValue.bool false), ("password", JsonValue.str "hunter2")]) :=
  ⟨by decide, by decide,
    (updateProfile_protected_keys
      [("name", JsonValue.str "Ada"), ("role", JsonValue.str "admin"),
        ("isActive", JsonValue.bool false), ("password", JsonValue.str "hunter2")]
      (by decide)).1⟩

/-- C26 (the code departs from it): the three `delete` statements of `updateProfile` look
at the top-level keys only. A body whose one key is the update operator `$set` has no
key `role`, `isActive` or `password`, so the update object handed to
`User.findByIdAndUpdate` is the body itself: with `role` under `$set` the operator that
sets the role reaches the store, and likewise with `isActive` and a non-empty `password`
under `$set`. -/
theorem updateProfile_operator_reaches_store :
    updateProfileUpdates [("$set", JsonValue.composite "\x7b\"role\":\"admin\"\x7d")] =
      [("$set", JsonValue.composite "\x7b\"role\":\"admin\"\x7d")] ∧
    updateProfileUpdates
        [("name", JsonValue.str "Ada"), ("role", JsonValue.str "user"),
          ("$set", JsonValue.composite
            "\x7b\"isActive\":false,\"password\":\"hunter2\"\x7d")] =
      [("name", JsonValue.str "Ada"),
        ("$set", JsonValue.composite
          "\x7b\"isActive\":false,\"password\":\"hunter2\"\x7d")] := by
  decide

/-! ## Bulk mail -/

/-- C27 (the code departs from it): for `recipients` equal to `undefined` or to `null`
the promise returned by `sendEmailToMultiple` is rejected (the `catch` block reads
`recipients.length`), whatever the configuration; for the empty array and for a value
that is not an array it resolves to an object with `success = false` and the error
message. -/
theorem sendEmailToMultiple_nullish_rejects (isBrevoConfigured : Bool) (now : Nat)
    (api : Except String String) :
    sendEmailToMultiple isBrevoConfigured now api .undefined =
      .rejected "Cannot read properties of undefined (reading 'length')" ∧
    sendEmailToMultiple isBrevoConfigured now api .null =
      .rejected "Cannot read properties of null (reading 'length')" ∧
    sendEmailToMultiple isBrevoConfigured now api (.array []) =
      .resolved { success := false, error := some "Recipients must be a non-empty array",
                  messageId := none, recipientCount := some 0, recipients := none,
                  mode := none } ∧
    (∀ length, sendEmailToMultiple isBrevoConfigured now api (.other length) =
      .resolved { success := false, error := some "Recipients must be a non-empty array",
                  messageId := none, recipientCount := length, recipients := none,
                  mode := none }) := by
  refine ⟨rfl, rfl, rfl, fun _ => rfl⟩

/-! ## Registration -/

theorem register_never_created (sign : Account → String) (env : RegisterEnv)
    (users : List Account) (req : RegisterRequest) :
    ∃ status error, (register sign env users req).2.1 = .error status error := by
  have hscope : templateEvaluates registerScope welcomeTemplateIdentifiers = false := by decide
  unfold register
  split_ifs
  · exact ⟨_, _, rfl⟩
  · exact ⟨_, _, rfl⟩
  · split
    · exact ⟨_, _, rfl⟩
    · split
      · exact ⟨_, _, rfl⟩
      · simp only [hscope, if_true]
        exact ⟨_, _, rfl⟩

/-- C30 (the code departs from it): a registration with name, email and password, for an
email that is not registered, with the store and the mail transport working: the user
is created, but the answer is 500 `Registration failed.` and no mail is sent, because
the template of the welcome mail reads the identifier `customerName`, which is not
bound; a second attempt is answered with 400 `Email already registered.`. -/
theorem register_fails_after_create :
    templateEvaluates registerScope welcomeTemplateIdentifiers = false ∧
    register sampleSign calmRegisterEnv [] adaRegistration =
      ([{ _id := "64b7f0c2a1d3e4f5a6b7c8aa", name := "Ada", email := "ada@example.com",
          role := "customer" }],
        .error 500 "Registration failed.", []) ∧
    (register sampleSign calmRegisterEnv
      (register sampleSign calmRegisterEnv [] adaRegistration).1 adaRegistration).2.1 =
      .error 400 "Email already registered." := by
  decide

/-! ## The clean-up step keeps every validated line -/

theorem validateItem_none_facts (lib : ObjectIdLib) (productsInOrder : List Product)
    (item : OrderItem) (h : validateItem lib productsInOrder item = none) :
    ∃ cur product, currentProductId item = some cur ∧ lib.isValid cur = true ∧
      findInOrder productsInOrder cur = some product ∧
      ¬ product.stockQuantity < item.quantity := by
  unfold validateItem at h
  cases hc : currentProductId item with
  | none => simp [hc] at h
  | some cur =>
    cases hv : lib.isValid cur with
    | false => simp [hc, hv] at h
    | true =>
      cases hf : findInOrder productsInOrder cur with
      | none => simp [hc, hv, hf] at h
      | some product =>
        by_cases hlt : product.stockQuantity < item.quantity
        · simp [hc, hv, hf, hlt] at h
        · exact ⟨cur, product, rfl, hv, hf, hlt⟩

theorem validateItem_none_of_invalidItems_nil (lib : ObjectIdLib) (productsInOrder : List Product)
    (items : List OrderItem) (h : invalidItems lib productsInOrder items = []) :
    ∀ item ∈ items, validateItem lib productsInOrder item = none := by
  rw [invalidItems_eq_filterMap, List.filterMap_eq_nil_iff] at h
  exact h

theorem finalOrderItems_forall2 (lib : ObjectIdLib) (productsInOrder : List Product) :
    ∀ items : List OrderItem,
    (∀ item ∈ items, validateItem lib productsInOrder item = none) →
    List.Forall₂ CarriesLine items (finalOrderItems lib items) := by
  intro items
  induction items with
  | nil => intro _; exact List.Forall₂.nil
  | cons item rest ih =>
    intro h
    obtain ⟨cur, product, hc, hv, _, _⟩ :=
      validateItem_none_facts lib productsInOrder item (h item (List.mem_cons_self _ _))
    unfold finalOrderItems
    rw [List.filterMap_cons, finalOrderItem_of_valid lib item cur hc hv]
    exact List.Forall₂.cons ⟨hc, rfl, rfl, rfl, rfl⟩
      (ih (fun x hx => h x (List.mem_cons_of_mem _ hx)))

theorem catchResponse_message_ne (e : StoreError) :
    (catchResponse e).message ≠ "All items in your order were invalid." := by
  cases e with
  | validationError messages => simp only [catchResponse]; decide
  | castError path =>
    simp only [catchResponse]
    intro h
    have h2 : ("Invalid ID format for ".data ++ path.data).head? =
        ("All items in your order were invalid.".data).head? :=
      congrArg (fun t => t.data.head?) h
    have h3 : ("Invalid ID format for ".data ++ path.data).head? = some 'I' := rfl
    have h4 : ("All items in your order were invalid.".data).head? = some 'A' := rfl
    rw [h3, h4] at h2
    exact absurd h2 (by decide)
  | duplicateKey => simp only [catchResponse]; decide
  | other => simp only [catchResponse]; decide

theorem createOrder_never_all_invalid (lib : ObjectIdLib) (env : Env) (s : State)
    (req : CreateOrderRequest) :
    (createOrder lib env s req).response.message ≠ "All items in your order were invalid." := by
  unfold createOrder
  cases hitems : req.orderItems with
  | none => simp only; decide
  | some items =>
    simp only
    by_cases h1 : items.length = 0
    · simp only [h1, if_true]; decide
    · by_cases h2 : (productIds lib items).length = 0
      · simp only [h1, h2, if_true, if_false]; decide
      · cases hf : env.productFind with
        | some e =>
          simp only [h1, h2, if_false]
          exact catchResponse_message_ne e
        | none =>
          by_cases h3 : (invalidItems lib (Product.find lib s.products (productIds lib items))
              items).length > 0
          · simp only [h1, h2, h3, if_true, if_false]; decide
          · have hinv : invalidItems lib
                (Product.find lib s.products (productIds lib items)) items = [] := by
              cases hl : invalidItems lib
                  (Product.find lib s.products (productIds lib items)) items with
              | nil => rfl
              | cons a l => rw [hl] at h3; simp at h3
            have hlen := (finalOrderItems_forall2 lib _ items
              (validateItem_none_of_invalidItems_nil lib _ items hinv)).length_eq
            have h4 : ¬ (finalOrderItems lib items).length = 0 := by
              rw [← hlen]
              exact h1
            cases hc : env.counterUpdate with
            | some e =>
              simp only [h1, h2, h3, h4, if_false]
              exact catchResponse_message_ne e
            | none =>
              cases hs : env.orderSave with
              | some e =>
                simp only [h1, h2, h3, h4, if_false]
                exact catchResponse_message_ne e
              | none =>
                simp only [h1, h2, h3, h4, if_false]
                cases hu : (decrementStock lib env.stockUpdate
                    (Product.find lib s.products (productIds lib items)) 0
                    (finalOrderItems lib items) s.products).2 with
                | some e =>
                  simp only
                  exact catchResponse_message_ne e
                | none => simp only; decide

/-- C29: whenever the validation loop of `createOrder` leaves `invalidItems` empty, the
clean-up step drops no line: `finalOrderItems` has the length and the order of the
request's lines, each entry carrying the line's normalised product id, name, quantity,
price and image; so for a non-empty request it is not empty, and no call of
`createOrder` answers `All items in your order were invalid.`. -/
theorem finalOrderItems_complete (lib : ObjectIdLib) (productsInOrder : List Product)
    (items : List OrderItem) (h : invalidItems lib productsInOrder items = []) :
    List.Forall₂ CarriesLine items (finalOrderItems lib items) ∧
    (finalOrderItems lib items).length = items.length ∧
    (items ≠ [] → finalOrderItems lib items ≠ []) ∧
    (∀ (env : Env) (s : State) (req : CreateOrderRequest),
      (createOrder lib env s req).response.message ≠
        "All items in your order were invalid.") := by
  have hall := finalOrderItems_forall2 lib productsInOrder items
    (validateItem_none_of_invalidItems_nil lib productsInOrder items h)
  refine ⟨hall, hall.length_eq.symm, ?_, createOrder_never_all_invalid lib⟩
  intro hne hnil
  have := hall.length_eq
  rw [hnil] at this
  exact hne (List.length_eq_zero.1 this)

/-- An instance of C29: two valid lines, one given by id string and one by a populated
product object, are both kept, in order, with the object replaced by its id. -/
theorem finalOrderItems_complete_witness :
    invalidItems hexObjectId pairStore.products
      [lineOf "64b7f0c2a1d3e4f5a6b7c8d9" 2,
       { productId := .obj (some "64b7f0c2a1d3e4f5a6b7c8e0"), name := some "Gadget",
         quantity := 1, price := 250, image := "gadget.png" }] = [] ∧
    finalOrderItems hexObjectId
      [lineOf "64b7f0c2a1d3e4f5a6b7c8d9" 2,
       { productId := .obj (some "64b7f0c2a1d3e4f5a6b7c8e0"), name := some "Gadget",
         quantity := 1, price := 250, image := "gadget.png" }] =
      [{ productId := "64b7f0c2a1d3e4f5a6b7c8d9", name := some "Widget", quantity := 2,
         price := 100, image := "widget.png" },
       { productId := "64b7f0c2a1d3e4f5a6b7c8e0", name := some "Gadget", quantity := 1,
         price := 250, image := "gadget.png" }] ∧
    (finalOrderItems hexObjectId
      [lineOf "64b7f0c2a1d3e4f5a6b7c8d9" 2,
       { productId := .obj (some "64b7f0c2a1d3e4f5a6b7c8e0"), name := some "Gadget",
         quantity := 1, price := 250, image := "gadget.png" }]).length = 2 :=
  ⟨by decide, by decide,
    (finalOrderItems_complete hexObjectId pairStore.products
      [lineOf "64b7f0c2a1d3e4f5a6b7c8d9" 2,
       { productId := .obj (some "64b7f0c2a1d3e4f5a6b7c8e0"), name := some "Gadget",
         quantity := 1, price := 250, image := "gadget.png" }] (by decide)).2.1⟩

/-! ## Stock after an accepted order -/

theorem findByIdAndUpdateStock_eq_map (lib : ObjectIdLib) (id : String) (delta : Int) :
    ∀ products : List Product, (products.map (fun p => p._id)).Nodup →
    findByIdAndUpdateStock lib id delta products =
      products.map (fun p =>
        if p._id = lib.cast id then { p with stockQuantity := p.stockQuantity + delta } else p) := by
  intro products
  induction products with
  | nil => intro _; rfl
  | cons p ps ih =>
    intro hnd
    rw [List.map_cons, List.nodup_cons] at hnd
    by_cases hp : p._id = lib.cast id
    · simp only [findByIdAndUpdateStock, hp, if_true, List.map_cons, List.cons.injEq, true_and]
      symm
      have hrest : ∀ q ∈ ps, ¬ q._id = lib.cast id := by
        intro q hq hqid
        apply hnd.1
        rw [hp, ← hqid]
        exact List.mem_map_of_mem (fun p => p._id) hq
      calc ps.map (fun q =>
              if q._id = lib.cast id then { q with stockQuantity := q.stockQuantity + delta }
              else q)
          = ps.map (fun q => q) := List.map_congr_left (fun q hq => by simp [hrest q hq])
        _ = ps := List.map_id' ps
    · simp only [findByIdAndUpdateStock, hp, if_false, List.map_cons]
      rw [ih hnd.2]

theorem decrementStock_of_ok (lib : ObjectIdLib) (stockUpdate : Option (Nat × StoreError))
    (productsInOrder : List Product) :
    ∀ (lines : List FinalOrderItem) (k : Nat) (products : List Product),
    (decrementStock lib stockUpdate productsInOrder k lines products).2 = none →
    (decrementStock lib stockUpdate productsInOrder k lines products).1 =
      (decrementStock lib none productsInOrder k lines products).1 := by
  intro lines
  induction lines with
  | nil => intro k products _; rfl
  | cons line rest ih =>
    intro k products h
    unfold decrementStock at h ⊢
    cases hf : findInOrder productsInOrder line.productId with
    | none =>
      simp only [hf] at h ⊢
      exact ih _ _ h
    | some p =>
      simp only [hf] at h ⊢
      cases he : stockUpdateError stockUpdate k with
      | some e => simp [he] at h
      | none =>
        simp only [he] at h
        simp only [stockUpdateError]
        exact ih _ _ h

theorem lineQuantity_cons (line : FinalOrderItem) (rest : List FinalOrderItem) (id : String) :
    lineQuantity (line :: rest) id =
      (if line.productId = id then line.quantity else 0) + lineQuantity rest id := by
  unfold lineQuantity
  by_cases h : line.productId = id
  · simp [List.filter_cons, h]
  · simp [List.filter_cons, h]

theorem decrementStock_eq_map (lib : ObjectIdLib) (productsInOrder : List Product) :
    ∀ (lines : List FinalOrderItem) (k : Nat) (products : List Product),
    (∀ line ∈ lines, lib.cast line.productId = line.productId) →
    (∀ line ∈ lines, ∃ p, findInOrder productsInOrder line.productId = some p) →
    (products.map (fun p => p._id)).Nodup →
    (decrementStock lib none productsInOrder k lines products).1 =
      products.map (fun p =>
        { p with stockQuantity := p.stockQuantity - lineQuantity lines p._id }) := by
  intro lines
  induction lines with
  | nil =>
    intro k products _ _ _
    simp only [decrementStock, lineQuantity, List.filter_nil, List.map_nil, List.sum_nil, sub_zero]
    exact (List.map_id' products).symm
  | cons line rest ih =>
    intro k products hcast hfound hnd
    obtain ⟨p, hp⟩ := hfound line (List.mem_cons_self _ _)
    unfold decrementStock
    simp only [hp, stockUpdateError]
    rw [findByIdAndUpdateStock_eq_map lib line.productId (-line.quantity) products hnd,
      hcast line (List.mem_cons_self _ _)]
    have hids : (products.map (fun q =>
        if q._id = line.productId then
          { q with stockQuantity := q.stockQuantity + -line.quantity } else q)).map
        (fun q => q._id) = products.map (fun q => q._id) := by
      rw [List.map_map]
      apply List.map_congr_left
      intro q _
      simp only [Function.comp]
      split_ifs <;> rfl
    rw [ih (k + 1) _ (fun l hl => hcast l (List.mem_cons_of_mem _ hl))
      (fun l hl => hfound l (List.mem_cons_of_mem _ hl)) (by rw [hids]; exact hnd),
      List.map_map]
    apply List.map_congr_left
    intro q _
    simp only [Function.comp, lineQuantity_cons]
    by_cases hq : q._id = line.productId
    · simp only [hq, if_true]
      congr 1
      omega
    · have hq2 : ¬ line.productId = q._id := fun h => hq h.symm
      simp only [hq, hq2, if_false]
      congr 1
      omega

theorem lineQuantity_eq_orderedQuantity (id : String) :
    ∀ (items : List OrderItem) (lines : List FinalOrderItem),
    List.Forall₂ CarriesLine items lines → lineQuantity lines id = orderedQuantity items id := by
  intro items lines h
  induction h with
  | nil => rfl
  | @cons item line restItems restLines hd _ ih =>
    obtain ⟨hc, _, hq, _, _⟩ := hd
    rw [lineQuantity_cons, ih]
    unfold orderedQuantity
    by_cases hl : line.productId = id
    · simp [List.filter_cons, hc, hl, hq]
    · simp [List.filter_cons, hc, hl]

theorem finalOrderItems_line_facts (lib : ObjectIdLib) (productsInOrder : List Product)
    (items : List OrderItem)
    (h : ∀ item ∈ items, validateItem lib productsInOrder item = none) :
    ∀ line ∈ finalOrderItems lib items,
      ∃ product, findInOrder productsInOrder line.productId = some product := by
  intro line hline
  unfold finalOrderItems at hline
  obtain ⟨item, hmem, hfinal⟩ := List.mem_filterMap.1 hline
  obtain ⟨cur, product, hc, hv, hf, _⟩ :=
    validateItem_none_facts lib productsInOrder item (h item hmem)
  rw [finalOrderItem_of_valid lib item cur hc hv] at hfinal
  simp only [Option.some.injEq] at hfinal
  rw [← hfinal]
  exact ⟨product, hf⟩

theorem cast_of_found (lib : ObjectIdLib) (products : List Product) (ids : List String)
    (cur : String) (product : Product) (hcanon : CanonicalIds lib products)
    (h : findInOrder (Product.find lib products ids) cur = some product) :
    lib.cast cur = cur := by
  rw [findInOrder_find] at h
  split at h
  · obtain ⟨hmem, hid⟩ := storedProduct_some h
    rw [← hid]
    exact hcanon product hmem
  · simp at h

theorem orderedQuantity_zero (items : List OrderItem) (id : String)
    (h : ∀ item ∈ items, currentProductId item ≠ some id) : orderedQuantity items id = 0 := by
  unfold orderedQuantity
  have hnil : items.filter (fun item => decide (currentProductId item = some id)) = [] := by
    rw [List.filter_eq_nil_iff]
    intro item hmem
    simp [h item hmem]
  rw [hnil]
  rfl

/-- C28: for every accepted `createOrder` request (answered with 201), on a store whose
product ids are pairwise different and canonical, the stock of each product after the
call is its stock before minus the sum of the quantities of all request lines that
reference that product; a product referenced by no line is unchanged. -/
theorem createOrder_stock_after (lib : ObjectIdLib) (env : Env) (s : State)
    (req : CreateOrderRequest) (h201 : (createOrder lib env s req).response.status = 201)
    (hcanon : CanonicalIds lib s.products)
    (hnodup : (s.products.map (fun p => p._id)).Nodup) :
    ∃ items, req.orderItems = some items ∧
      (createOrder lib env s req).state.products =
        s.products.map (fun p =>
          { p with stockQuantity := p.stockQuantity - orderedQuantity items p._id }) ∧
      (∀ p ∈ s.products, (∀ item ∈ items, currentProductId item ≠ some p._id) →
        p ∈ (createOrder lib env s req).state.products) := by
  rcases createOrder_outcome lib env s req with
    ⟨_, hne, _⟩ | ⟨_, _, items, hitems, _, hinv, hstate, hres⟩
  · exact absurd h201 hne
  · rcases hres with ⟨hok, _, _⟩ | ⟨_, hne, _⟩
    · have hnone := validateItem_none_of_invalidItems_nil lib _ items hinv
      have hfound := finalOrderItems_line_facts lib _ items hnone
      have hcast : ∀ line ∈ finalOrderItems lib items,
          lib.cast line.productId = line.productId := by
        intro line hline
        obtain ⟨product, hp⟩ := hfound line hline
        exact cast_of_found lib s.products _ line.productId product hcanon hp
      have hmap : (createOrder lib env s req).state.products =
          s.products.map (fun p =>
            { p with stockQuantity := p.stockQuantity - orderedQuantity items p._id }) := by
        rw [hstate]
        simp only
        rw [decrementStock_of_ok lib env.stockUpdate _ _ 0 s.products hok,
          decrementStock_eq_map lib _ (finalOrderItems lib items) 0 s.products hcast hfound
            hnodup]
        apply List.map_congr_left
        intro p _
        rw [lineQuantity_eq_orderedQuantity p._id items (finalOrderItems lib items)
          (finalOrderItems_forall2 lib _ items hnone)]
      refine ⟨items, hitems, hmap, ?_⟩
      intro p hp hnot
      rw [hmap, List.mem_map]
      refine ⟨p, hp, ?_⟩
      rw [orderedQuantity_zero items p._id hnot]
      simp
    · exact absurd h201 hne

/-- An instance of C28 on the store with 10 `Widget` and 1 `Gadget`: an order with two
lines for `Widget`, of 2 and of 3, leaves 5 `Widget` and the `Gadget` stock at 1. -/
theorem createOrder_stock_after_witness :
    ((createOrder hexObjectId calmEnv pairStore
        (requestOf [lineOf "64b7f0c2a1d3e4f5a6b7c8d9" 2,
          lineOf "64b7f0c2a1d3e4f5a6b7c8d9" 3])).response.status = 201 ∧
      CanonicalIds hexObjectId pairStore.products ∧
      (pairStore.products.map (fun p => p._id)).Nodup) ∧
    (createOrder hexObjectId calmEnv pairStore
      (requestOf [lineOf "64b7f0c2a1d3e4f5a6b7c8d9" 2,
        lineOf "64b7f0c2a1d3e4f5a6b7c8d9" 3])).state.products =
      [{ _id := "64b7f0c2a1d3e4f5a6b7c8d9", name := "Widget", stockQuantity := 5 },
       { _id := "64b7f0c2a1d3e4f5a6b7c8e0", name := "Gadget", stockQuantity := 1 }] ∧
    (∃ items,
      (requestOf [lineOf "64b7f0c2a1d3e4f5a6b7c8d9" 2,
        lineOf "64b7f0c2a1d3e4f5a6b7c8d9" 3]).orderItems = some items ∧
      (createOrder hexObjectId calmEnv pairStore
        (requestOf [lineOf "64b7f0c2a1d3e4f5a6b7c8d9" 2,
          lineOf "64b7f0c2a1d3e4f5a6b7c8d9" 3])).state.products =
        pairStore.products.map (fun p =>
          { p with stockQuantity := p.stockQuantity - orderedQuantity items p._id }) ∧
      (∀ p ∈ pairStore.products, (∀ item ∈ items, currentProductId item ≠ some p._id) →
        p ∈ (createOrder hexObjectId calmEnv pairStore
          (requestOf [lineOf "64b7f0c2a1d3e4f5a6b7c8d9" 2,
            lineOf "64b7f0c2a1d3e4f5a6b7c8d9" 3])).state.products)) :=
  have h201 : (createOrder hexObjectId calmEnv pairStore
      (requestOf [lineOf "64b7f0c2a1d3e4f5a6b7c8d9" 2,
        lineOf "64b7f0c2a1d3e4f5a6b7c8d9" 3])).response.status = 201 := by decide
  have hcanon : CanonicalIds hexObjectId pairStore.products := by
    unfold CanonicalIds
    decide
  have hnodup : (pairStore.products.map (fun p => p._id)).Nodup := by decide
  ⟨⟨h201, hcanon, hnodup⟩, by decide,
    createOrder_stock_after hexObjectId calmEnv pairStore
      (requestOf [lineOf "64b7f0c2a1d3e4f5a6b7c8d9" 2, lineOf "64b7f0c2a1d3e4f5a6b7c8d9" 3])
      h201 hcanon hnodup⟩

/-! ## A run of calls for one counter -/

theorem runSequence_same_name (name : String) : ∀ (n : Nat) (cs : List Counter),
    (runSequence (List.replicate n name) cs).1.map Prod.snd =
      List.range' ((seqOf name cs).getD 0 + 1) n ∧
    (0 < n → seqOf name (runSequence (List.replicate n name) cs).2 =
      some ((seqOf name cs).getD 0 + n)) := by
  intro n
  induction n with
  | zero => intro cs; exact ⟨rfl, fun h => absurd h (by omega)⟩
  | succ n ih =>
    intro cs
    obtain ⟨h1, h2⟩ := ih (getNextSequenceValue name cs).1
    have hstored : (seqOf name (getNextSequenceValue name cs).1).getD 0 =
        (seqOf name cs).getD 0 + 1 := by
      rw [getNextSequenceValue_stored, getNextSequenceValue_value]
      rfl
    rw [hstored] at h1 h2
    constructor
    · simp only [List.replicate_succ, runSequence, List.map_cons, List.range'_succ, h1,
        getNextSequenceValue_value]
    · intro _
      simp only [List.replicate_succ, runSequence]
      rcases Nat.eq_zero_or_pos n with hn | hn
      · subst hn
        simp only [List.replicate_zero, runSequence]
        rw [getNextSequenceValue_stored, getNextSequenceValue_value]
      · rw [h2 hn]
        congr 1
        omega

end MgvOrders
